import Mathlib

/-!
# OpenXR-CAS API layer: embedding of `openxr-api-layer/layer.cpp`

The layer intercepts `xrEndFrame`, looks up the last released image of every
view of the first projection layer and runs the CAS compute chain on it
(`dispatchCas`).  The definitions below follow `layer.cpp` function by
function.  Conventions of the embedding:

* COM objects are identified by a `Handle`; a `ComPtr` is `Option Handle`.
* `float`/`double` values are exact rationals.
* `UINT`/`uint32_t` values are naturals, reduced modulo `2^32` where the
  source computes with them; `int32_t` values are integers.
* Every call that leaves the process (file system, `d3dcompiler`, the D3D11
  device) takes its outcome from an environment record and is written to a
  log, so that the work a call performs can be read off its result.
-/

namespace openxr_api_layer

/-! ## Carriers -/

/-- Identity of a live COM object (device, context, shader, buffer, texture, query). -/
abbrev Handle := Nat

/-- A `Microsoft::WRL::ComPtr<T>`: null (`none`) or a reference to an object. -/
abbrev ComPtr := Option Handle

/-- Narrow strings (`std::string`, `char[]`) as lists of characters. -/
abbrev Str := List Char

/-- Numeric value of a `DXGI_FORMAT` enumerator (`dxgiformat.h`). -/
abbrev DXGI_FORMAT := Nat

abbrev DXGI_FORMAT_UNKNOWN : DXGI_FORMAT := 0
abbrev DXGI_FORMAT_R16G16B16A16_FLOAT : DXGI_FORMAT := 10
abbrev DXGI_FORMAT_R8G8B8A8_TYPELESS : DXGI_FORMAT := 27
abbrev DXGI_FORMAT_R8G8B8A8_UNORM : DXGI_FORMAT := 28
abbrev DXGI_FORMAT_R8G8B8A8_UNORM_SRGB : DXGI_FORMAT := 29
abbrev DXGI_FORMAT_B8G8R8A8_UNORM : DXGI_FORMAT := 87
abbrev DXGI_FORMAT_B8G8R8X8_UNORM : DXGI_FORMAT := 88
abbrev DXGI_FORMAT_B8G8R8A8_TYPELESS : DXGI_FORMAT := 90
abbrev DXGI_FORMAT_B8G8R8A8_UNORM_SRGB : DXGI_FORMAT := 91
abbrev DXGI_FORMAT_B8G8R8X8_TYPELESS : DXGI_FORMAT := 92
abbrev DXGI_FORMAT_B8G8R8X8_UNORM_SRGB : DXGI_FORMAT := 93

/-- The value `2^32`: `UINT` arithmetic is taken modulo it. -/
abbrev UINT_MOD : Nat := 4294967296

/-- Conversion `(UINT)i` of an `int32_t`. -/
def toUINT (i : Int) : Nat := (i % 4294967296).toNat

/-- Addition of two `UINT` values. -/
def addUINT (a b : Nat) : Nat := (a + b) % UINT_MOD

/-- Fields of `D3D11_TEXTURE2D_DESC` (`SampleDesc` flattened). -/
structure D3D11_TEXTURE2D_DESC where
  Width : Nat
  Height : Nat
  MipLevels : Nat
  ArraySize : Nat
  Format : DXGI_FORMAT
  SampleCount : Nat
  SampleQuality : Nat
  Usage : Nat
  BindFlags : Nat
  CPUAccessFlags : Nat
  MiscFlags : Nat
  deriving DecidableEq, Repr

abbrev D3D11_USAGE_DEFAULT : Nat := 0
abbrev D3D11_BIND_SHADER_RESOURCE : Nat := 8
abbrev D3D11_BIND_UNORDERED_ACCESS : Nat := 128

/-- The inline helper `D3D11CalcSubresource(MipSlice, ArraySlice, MipLevels)` of `d3d11.h`. -/
def D3D11CalcSubresource (MipSlice ArraySlice MipLevels : Nat) : Nat :=
  (MipSlice + ArraySlice * MipLevels) % UINT_MOD

/-- A `D3D11_BOX`. -/
structure D3D11_BOX where
  left : Nat
  top : Nat
  front : Nat
  right : Nat
  bottom : Nat
  back : Nat
  deriving DecidableEq, Repr

/-- An `XrSwapchainSubImage` with `imageRect` flattened (`XrOffset2Di`, `XrExtent2Di`). -/
structure XrSwapchainSubImage where
  swapchain : Nat
  offsetX : Int
  offsetY : Int
  extentWidth : Int
  extentHeight : Int
  imageArrayIndex : Nat
  deriving DecidableEq, Repr

/-! ## Session state (lines 50-99) -/

/-- The `SessionState` struct.  `composition` records whether a composition
framework is attached; `cfgLastWriteTime` is never read and is left out. -/
structure SessionState where
  composition : Bool := false
  appD3DDevice : ComPtr := none
  appD3DContext : ComPtr := none
  cs : ComPtr := none
  constCB : ComPtr := none
  sharpness : ℚ := 6 / 10
  debugCB : ComPtr := none
  qDisjoint : ComPtr := none
  qBegin : ComPtr := none
  qEnd : ComPtr := none
  timingFrameCounter : Nat := 0
  timingAccumMs : ℚ := 0
  shaderInitAttempted : Bool := false
  shaderInitFailed : Bool := false
  debugFramesMax : Nat := 60
  debugOverlay : Bool := false
  levelsEnabled : Bool := false
  levelsInBlack : ℚ := 0
  levelsInWhite : ℚ := 1
  levelsOutBlack : ℚ := 0
  levelsOutWhite : ℚ := 1
  levelsGamma : ℚ := 1
  levelsCS : ComPtr := none
  levelsCB : ComPtr := none
  fakeHdrEnabled : Bool := false
  fakeHdrPower : ℚ := 13 / 10
  fakeHdrRadius1 : ℚ := 793 / 1000
  fakeHdrRadius2 : ℚ := 87 / 100
  fakeHdrCS : ComPtr := none
  fakeHdrCB : ComPtr := none
  deriving DecidableEq

/-! ## The D3D11 device as seen by the layer -/

/-- The device hands out a new object identity for every successful creation. -/
structure Device where
  next : Nat
  deriving DecidableEq, Repr

/-- A creation call writing into `p.ReleaseAndGetAddressOf()`: the pointer is
reset first, so a failed creation leaves it null. -/
def Device.create (d : Device) (ok : Bool) : ComPtr × Device :=
  if ok then (some d.next, { next := d.next + 1 }) else (none, d)

/-- The shader files under `dllHome/shaders`. -/
inductive ShaderFile where
  | casCso
  | casHlsl
  | levelsHlsl
  | fakeHdrHlsl
  deriving DecidableEq, Repr

/-- The two kinds of query the layer creates. -/
inductive QueryKind where
  | timestampDisjoint
  | timestamp
  deriving DecidableEq, Repr

abbrev D3DCOMPILE_OPTIMIZATION_LEVEL3 : Nat := 32768

/-- Calls that load, compile or create something: the log of the work done. -/
inductive DevCall where
  | readFile (file : ShaderFile)
  | loadLibrary (fromDllHome : Bool) (ok : Bool)
  | getProcAddress (ok : Bool)
  | compileFromFile (file : ShaderFile) (flags : Nat) (ok : Bool)
  | freeLibrary
  | createComputeShader (result : ComPtr)
  | createBuffer (byteWidth : Nat) (result : ComPtr)
  | createQuery (kind : QueryKind) (result : ComPtr)
  | createTexture2D (desc : D3D11_TEXTURE2D_DESC) (result : ComPtr)
  | createShaderResourceView (resource : ComPtr) (format : DXGI_FORMAT) (ok : Bool)
  | createUnorderedAccessView (resource : ComPtr) (format : DXGI_FORMAT) (ok : Bool)
  deriving DecidableEq, Repr

/-! ## ensureCasObjects (lines 218-354) -/

/-- Outcomes of the external calls of one `ensureCasObjects` run, in source order. -/
structure EnsureEnv where
  /-- result of `std::filesystem::exists(CAS.cso)` -/
  csoExists : Bool
  /-- the file was read without an exception and is not empty -/
  csoBytesNonEmpty : Bool
  /-- outcome of `CreateComputeShader` on the precompiled bytes -/
  csoCreateOk : Bool
  /-- outcome of `LoadLibraryW(L"d3dcompiler_47.dll")` of the primary fallback -/
  loadCompilerSystem : Bool
  /-- outcome of `LoadLibraryW(dllHome / d3dcompiler_47.dll)` -/
  loadCompilerLocal : Bool
  /-- outcome of `GetProcAddress(.., "D3DCompileFromFile")` of the primary fallback -/
  getProcOk : Bool
  /-- compilation of `CAS.hlsl` -/
  compileCasOk : Bool
  /-- outcome of `CreateComputeShader` on the compiled blob -/
  blobCreateOk : Bool
  levelsLoadCompiler : Bool
  levelsGetProcOk : Bool
  levelsCompileOk : Bool
  levelsCreateOk : Bool
  levelsBufferOk : Bool
  fakeHdrLoadCompiler : Bool
  fakeHdrGetProcOk : Bool
  fakeHdrCompileOk : Bool
  fakeHdrCreateOk : Bool
  fakeHdrBufferOk : Bool
  constBufferOk : Bool
  debugBufferOk : Bool
  qDisjointOk : Bool
  qBeginOk : Bool
  qEndOk : Bool
  deriving DecidableEq, Repr

/-- Result of a step of `ensureCasObjects`: return value or flag, new state,
new device, work done. -/
structure EnsureResult where
  ok : Bool
  state : SessionState
  device : Device
  work : List DevCall
  deriving DecidableEq

/-- The `do { ... } while (false)` block of lines 227-277: load `CAS.cso`, or
compile `CAS.hlsl`.  `ok` is `shaderCreated`. -/
def createPrimaryShader (env : EnsureEnv) (d : Device) (s : SessionState) : EnsureResult :=
  -- precompiled CAS.cso
  let viaCso : EnsureResult :=
    if env.csoExists then
      if env.csoBytesNonEmpty then
        let r := d.create env.csoCreateOk
        { ok := env.csoCreateOk, state := { s with cs := r.1 }, device := r.2,
          work := [DevCall.readFile ShaderFile.casCso, DevCall.createComputeShader r.1] }
      else
        { ok := false, state := s, device := d, work := [DevCall.readFile ShaderFile.casCso] }
    else
      { ok := false, state := s, device := d, work := [] }
  if viaCso.ok then viaCso
  else
    -- fallback: compile CAS.hlsl
    let s := viaCso.state
    let d := viaCso.device
    let w := viaCso.work
    let loadWork : List DevCall :=
      if env.loadCompilerSystem then [DevCall.loadLibrary false true]
      else [DevCall.loadLibrary false false, DevCall.loadLibrary true env.loadCompilerLocal]
    let loaded : Bool := env.loadCompilerSystem || env.loadCompilerLocal
    if !loaded then
      { ok := false, state := s, device := d, work := w ++ loadWork }
    else if !env.getProcOk then
      { ok := false, state := s, device := d,
        work := w ++ loadWork ++ [DevCall.getProcAddress false, DevCall.freeLibrary] }
    else if !env.compileCasOk then
      { ok := false, state := s, device := d,
        work := w ++ loadWork ++ [DevCall.getProcAddress true,
          DevCall.compileFromFile ShaderFile.casHlsl D3DCOMPILE_OPTIMIZATION_LEVEL3 false,
          DevCall.freeLibrary] }
    else
      let r := d.create env.blobCreateOk
      { ok := env.blobCreateOk, state := { s with cs := r.1 }, device := r.2,
        work := w ++ loadWork ++ [DevCall.getProcAddress true,
          DevCall.compileFromFile ShaderFile.casHlsl D3DCOMPILE_OPTIMIZATION_LEVEL3 true,
          DevCall.createComputeShader r.1, DevCall.freeLibrary] }

/-- Lines 280-300: the Levels shader and its constant buffer.  `ok` is unused (`true`). -/
def createLevelsShader (env : EnsureEnv) (d : Device) (s : SessionState) : EnsureResult :=
  if s.levelsEnabled && s.levelsCS.isNone then
    let compiled : Bool := env.levelsLoadCompiler && env.levelsGetProcOk && env.levelsCompileOk
    let r := if compiled then d.create env.levelsCreateOk else (s.levelsCS, d)
    let w1 : List DevCall :=
      if env.levelsLoadCompiler then
        [DevCall.loadLibrary false true, DevCall.getProcAddress env.levelsGetProcOk] ++
        (if env.levelsGetProcOk then
          [DevCall.compileFromFile ShaderFile.levelsHlsl 0 env.levelsCompileOk] ++
          (if env.levelsCompileOk then [DevCall.createComputeShader r.1] else [])
         else []) ++
        [DevCall.freeLibrary]
      else [DevCall.loadLibrary false false]
    if r.1.isNone then
      { ok := true, state := { s with levelsCS := r.1, levelsEnabled := false }, device := r.2,
        work := w1 }
    else
      let b := r.2.create env.levelsBufferOk
      { ok := true, state := { s with levelsCS := r.1, levelsCB := b.1 }, device := b.2,
        work := w1 ++ [DevCall.createBuffer 32 b.1] }
  else
    { ok := true, state := s, device := d, work := [] }

/-- Lines 302-322: the FakeHDR shader and its constant buffer.  `ok` is unused (`true`). -/
def createFakeHdrShader (env : EnsureEnv) (d : Device) (s : SessionState) : EnsureResult :=
  if s.fakeHdrEnabled && s.fakeHdrCS.isNone then
    let compiled : Bool := env.fakeHdrLoadCompiler && env.fakeHdrGetProcOk && env.fakeHdrCompileOk
    let r := if compiled then d.create env.fakeHdrCreateOk else (s.fakeHdrCS, d)
    let w1 : List DevCall :=
      if env.fakeHdrLoadCompiler then
        [DevCall.loadLibrary false true, DevCall.getProcAddress env.fakeHdrGetProcOk] ++
        (if env.fakeHdrGetProcOk then
          [DevCall.compileFromFile ShaderFile.fakeHdrHlsl 0 env.fakeHdrCompileOk] ++
          (if env.fakeHdrCompileOk then [DevCall.createComputeShader r.1] else [])
         else []) ++
        [DevCall.freeLibrary]
      else [DevCall.loadLibrary false false]
    if r.1.isNone then
      { ok := true, state := { s with fakeHdrCS := r.1, fakeHdrEnabled := false }, device := r.2,
        work := w1 }
    else
      let b := r.2.create env.fakeHdrBufferOk
      { ok := true, state := { s with fakeHdrCS := r.1, fakeHdrCB := b.1 }, device := b.2,
        work := w1 ++ [DevCall.createBuffer 32 b.1] }
  else
    { ok := true, state := s, device := d, work := [] }

/-- Lines 345-352: the three timestamp queries, created when `qDisjoint` is null. -/
def createTimingQueries (env : EnsureEnv) (d : Device) (s : SessionState) : EnsureResult :=
  if s.qDisjoint.isNone then
    let q1 := d.create env.qDisjointOk
    let q2 := q1.2.create env.qBeginOk
    let q3 := q2.2.create env.qEndOk
    { ok := true, state := { s with qDisjoint := q1.1, qBegin := q2.1, qEnd := q3.1 },
      device := q3.2,
      work := [DevCall.createQuery QueryKind.timestampDisjoint q1.1,
               DevCall.createQuery QueryKind.timestamp q2.1,
               DevCall.createQuery QueryKind.timestamp q3.1] }
  else
    { ok := true, state := s, device := d, work := [] }

/-- The function `ensureCasObjects(SessionState* s)`.  The session is passed by
value, so the null-pointer arm of line 219 has no counterpart; a session
without device is the `appD3DDevice = none` arm. -/
def ensureCasObjects (env : EnsureEnv) (d : Device) (s : SessionState) : EnsureResult :=
  if s.appD3DDevice.isNone then
    { ok := false, state := s, device := d, work := [] }
  else if s.cs.isSome && (!s.levelsEnabled || s.levelsCS.isSome)
      && (!s.fakeHdrEnabled || s.fakeHdrCS.isSome) then
    { ok := true, state := s, device := d, work := [] }
  else if s.shaderInitAttempted && s.shaderInitFailed then
    { ok := false, state := s, device := d, work := [] }
  else
    let p := createPrimaryShader env d { s with shaderInitAttempted := true }
    if !p.ok then
      { ok := false, state := { p.state with shaderInitFailed := true }, device := p.device,
        work := p.work }
    else
      let l := createLevelsShader env p.device p.state
      let h := createFakeHdrShader env l.device l.state
      -- constant buffer (2x uint4)
      let c := h.device.create env.constBufferOk
      let w := p.work ++ l.work ++ h.work ++ [DevCall.createBuffer 32 c.1]
      if c.1.isNone then
        { ok := false, state := { h.state with constCB := c.1 }, device := c.2, work := w }
      else
        let g := c.2.create env.debugBufferOk
        if g.1.isNone then
          { ok := false, state := { h.state with constCB := c.1, debugCB := g.1 },
            device := g.2, work := w ++ [DevCall.createBuffer 32 g.1] }
        else
          let q := createTimingQueries env g.2 { h.state with constCB := c.1, debugCB := g.1 }
          { ok := true, state := q.state, device := q.device,
            work := w ++ [DevCall.createBuffer 32 g.1] ++ q.work }

/-! ## Pass count (lines 530-535) -/

/-- The conversion `(int)x` of an integral `float` value `x`.  Inside the range
of `int` it is `x`.  Outside it the C++ conversion is undefined; `oor` is the
value the conversion instruction of the platform produces there (`INT_MIN` for
the x86/x64 `cvttss2si`). -/
def floatToInt (oor : Int) (x : Int) : Int :=
  if -2147483648 ≤ x ∧ x ≤ 2147483647 then x else oor

/-- Lines 530-535: `totalPasses` computed from `userSharp = s->sharpness`.  The
difference `userSharp - 1.0f` is taken exactly.  The `float` subtraction is
exact below `2^24`; from there on it may round, to a value that is still
clamped to 3 extra passes, except at `2^31`, where the rounded difference
`2^31` leaves the range of `int` as the differences of the larger values do. -/
def totalPasses (oor : Int) (userSharp : ℚ) : Int :=
  if userSharp > 1 then
    let extra := floatToInt oor ⌊userSharp - 1⌋
    let extra := if extra < 0 then 0 else extra
    let extra := if extra > 3 then 3 else extra
    1 + extra
  else 1

/-- Lines 487-490: `casStrength`, the per-pass shader parameter. -/
def casStrength (userSharp : ℚ) : ℚ :=
  if userSharp > 1 then 1 else userSharp


/-! ## Temp texture pool (lines 356-360, 389-429) -/

/-- The function `makeTempKey`: a `uint64_t` built from the swapchain handle and the slice. -/
def makeTempKey (swapchain : Nat) (arraySlice : Nat) : Nat :=
  (swapchain % 18446744073709551616) ^^^ (((arraySlice % UINT_MOD) <<< 32) % 18446744073709551616)

/-- The struct `TempTextures`; the defaults are those of the member initialisers. -/
structure TempTextures where
  input : ComPtr := none
  output : ComPtr := none
  width : Nat := 0
  height : Nat := 0
  format : DXGI_FORMAT := DXGI_FORMAT_UNKNOWN
  deriving DecidableEq, Repr

/-- The map `std::unordered_map<uint64_t, TempTextures>`: `none` is an absent key. -/
abbrev TempPool := Nat → Option TempTextures

/-- The whitelist test `supported` of lines 372-379. -/
def supported (f : DXGI_FORMAT) : Bool :=
  f == DXGI_FORMAT_R8G8B8A8_UNORM || f == DXGI_FORMAT_R8G8B8A8_UNORM_SRGB ||
  f == DXGI_FORMAT_R8G8B8A8_TYPELESS ||
  f == DXGI_FORMAT_B8G8R8A8_UNORM || f == DXGI_FORMAT_B8G8R8A8_UNORM_SRGB ||
  f == DXGI_FORMAT_B8G8R8A8_TYPELESS ||
  f == DXGI_FORMAT_B8G8R8X8_UNORM || f == DXGI_FORMAT_B8G8R8X8_UNORM_SRGB ||
  f == DXGI_FORMAT_B8G8R8X8_TYPELESS ||
  f == DXGI_FORMAT_R16G16B16A16_FLOAT

/-- The lambda `chooseTypeless` of lines 400-413. -/
def chooseTypeless (f : DXGI_FORMAT) : DXGI_FORMAT :=
  if f = DXGI_FORMAT_R8G8B8A8_UNORM ∨ f = DXGI_FORMAT_R8G8B8A8_UNORM_SRGB ∨
      f = DXGI_FORMAT_R8G8B8A8_TYPELESS then DXGI_FORMAT_R8G8B8A8_TYPELESS
  else if f = DXGI_FORMAT_B8G8R8A8_UNORM ∨ f = DXGI_FORMAT_B8G8R8A8_UNORM_SRGB ∨
      f = DXGI_FORMAT_B8G8R8A8_TYPELESS then DXGI_FORMAT_B8G8R8A8_TYPELESS
  else if f = DXGI_FORMAT_B8G8R8X8_UNORM ∨ f = DXGI_FORMAT_B8G8R8X8_UNORM_SRGB ∨
      f = DXGI_FORMAT_B8G8R8X8_TYPELESS then DXGI_FORMAT_B8G8R8X8_TYPELESS
  else f

/-- The lambda `mapSrvFormat` of lines 445-455. -/
def mapSrvFormat (fmt : DXGI_FORMAT) : DXGI_FORMAT :=
  if fmt = DXGI_FORMAT_R8G8B8A8_TYPELESS then DXGI_FORMAT_R8G8B8A8_UNORM
  else if fmt = DXGI_FORMAT_B8G8R8A8_TYPELESS then DXGI_FORMAT_B8G8R8A8_UNORM
  else if fmt = DXGI_FORMAT_B8G8R8X8_TYPELESS then DXGI_FORMAT_B8G8R8X8_UNORM
  else if fmt = DXGI_FORMAT_R8G8B8A8_UNORM_SRGB then DXGI_FORMAT_R8G8B8A8_UNORM
  else if fmt = DXGI_FORMAT_B8G8R8A8_UNORM_SRGB then DXGI_FORMAT_B8G8R8A8_UNORM
  else if fmt = DXGI_FORMAT_B8G8R8X8_UNORM_SRGB then DXGI_FORMAT_B8G8R8X8_UNORM
  else fmt

/-- The lambda `mapUavFormat` of lines 456-466. -/
def mapUavFormat (fmt : DXGI_FORMAT) : DXGI_FORMAT :=
  if fmt = DXGI_FORMAT_R8G8B8A8_UNORM_SRGB then DXGI_FORMAT_R8G8B8A8_UNORM
  else if fmt = DXGI_FORMAT_R8G8B8A8_TYPELESS then DXGI_FORMAT_R8G8B8A8_UNORM
  else if fmt = DXGI_FORMAT_B8G8R8A8_UNORM_SRGB then DXGI_FORMAT_B8G8R8A8_UNORM
  else if fmt = DXGI_FORMAT_B8G8R8A8_TYPELESS then DXGI_FORMAT_B8G8R8A8_UNORM
  else if fmt = DXGI_FORMAT_B8G8R8X8_UNORM_SRGB then DXGI_FORMAT_B8G8R8X8_UNORM
  else if fmt = DXGI_FORMAT_B8G8R8X8_TYPELESS then DXGI_FORMAT_B8G8R8X8_UNORM
  else fmt

/-- Outcome of the pool block: `ok = false` is one of its two `return`s. -/
structure PoolResult where
  ok : Bool
  slot : TempTextures
  device : Device
  work : List DevCall
  deriving DecidableEq

/-- Lines 392-429 on the entry `slot = tempPool[poolKey]`: reuse it, or create
both textures anew.  `inputOk`/`outputOk` are the outcomes of the two
`CreateTexture2D` calls. -/
def acquireTempTextures (inputOk outputOk : Bool) (d : Device) (td : D3D11_TEXTURE2D_DESC)
    (slot : TempTextures) : PoolResult :=
  if slot.input.isNone || slot.width != td.Width || slot.height != td.Height
      || slot.format != td.Format then
    let texDesc : D3D11_TEXTURE2D_DESC :=
      { td with MiscFlags := 0, CPUAccessFlags := 0, Usage := D3D11_USAGE_DEFAULT,
                ArraySize := 1, MipLevels := 1, Format := chooseTypeless td.Format,
                BindFlags := D3D11_BIND_UNORDERED_ACCESS ||| D3D11_BIND_SHADER_RESOURCE }
    let i := d.create inputOk
    if i.1.isNone then
      { ok := false, slot := { slot with input := i.1 }, device := i.2,
        work := [DevCall.createTexture2D texDesc i.1] }
    else
      let o := i.2.create outputOk
      if o.1.isNone then
        { ok := false, slot := { slot with input := i.1, output := o.1 }, device := o.2,
          work := [DevCall.createTexture2D texDesc i.1, DevCall.createTexture2D texDesc o.1] }
      else
        { ok := true,
          slot := { input := i.1, output := o.1, width := td.Width, height := td.Height,
                    format := td.Format },
          device := o.2,
          work := [DevCall.createTexture2D texDesc i.1, DevCall.createTexture2D texDesc o.1] }
  else
    { ok := true, slot := slot, device := d, work := [] }

/-! ## Device-context commands -/

/-- A shader-resource or unordered-access view: the resource it views and its format. -/
structure View where
  resource : ComPtr
  format : DXGI_FORMAT
  deriving DecidableEq, Repr

/-- What is copied into a mapped constant buffer. -/
inductive CBData where
  /-- the arrays `const0`, `const1` as set up by `CasSetup(.., casStrength, W, H, W, H)` -/
  | cas (strength : ℚ) (width height : Nat)
  /-- the struct `DebugCB` -/
  | debug (flags offx offy extx exty : Nat)
  /-- the FakeHDR constants -/
  | fakeHdr (pwr r1 r2 : ℚ) (offx offy extx exty : Nat)
  /-- the Levels constants -/
  | levels (inB inW outB outW gamma : ℚ)
  deriving DecidableEq

/-- Calls on the `ID3D11DeviceContext`, with `memcpy` into a mapped buffer. -/
inductive Cmd where
  | copySubresourceRegion (dst : ComPtr) (dstSubresource dstX dstY dstZ : Nat)
      (src : ComPtr) (srcSubresource : Nat) (box : D3D11_BOX)
  | map (buffer : ComPtr) (ok : Bool)
  | memcpy (buffer : ComPtr) (data : CBData)
  | unmap (buffer : ComPtr)
  | queryBegin (query : ComPtr)
  | queryEnd (query : ComPtr)
  | getData (query : ComPtr)
  | csSetShader (shader : ComPtr)
  | csSetConstantBuffers (startSlot : Nat) (buffer : ComPtr)
  | csSetShaderResources (startSlot : Nat) (view : Option View)
  | csSetUnorderedAccessViews (startSlot : Nat) (view : Option View)
  | dispatch (x y z : Nat)
  deriving DecidableEq

/-- The call `Map(buffer, WRITE_DISCARD)`, and on success the `memcpy` and `Unmap`. -/
def updateBuffer (buffer : ComPtr) (ok : Bool) (data : CBData) : List Cmd :=
  if ok then [Cmd.map buffer true, Cmd.memcpy buffer data, Cmd.unmap buffer]
  else [Cmd.map buffer false]

/-! ## dispatchCas (lines 362-689) -/

/-- Outcomes of the external calls of one `dispatchCas` run. -/
structure DispatchEnv where
  /-- outcomes inside `ensureCasObjects` -/
  ensure : EnsureEnv
  /-- result of an out-of-range `(int)` conversion, see `floatToInt` -/
  intOverflow : Int
  /-- outcomes of `CreateTexture2D` for `slot.input` and `slot.output` -/
  createInputOk : Bool
  createOutputOk : Bool
  mapConstOk : Bool
  mapDebugOk : Bool
  /-- per pass: `CreateShaderResourceView`, `CreateUnorderedAccessView` -/
  srvOk : Nat → Bool
  uavOk : Nat → Bool
  /-- result of `GetData(qDisjoint)`: `none` unless `S_OK`, else `(Disjoint, Frequency)` -/
  disjointData : Option (Bool × Nat)
  /-- results of `GetData(qBegin)`, `GetData(qEnd)`: `none` unless `S_OK` -/
  t0 : Option Nat
  t1 : Option Nat
  mapHdrOk : Bool
  hdrSrvOk : Bool
  hdrUavOk : Bool
  mapLevelsOk : Bool
  levelsSrvOk : Bool
  levelsUavOk : Bool

/-- Outcome of the pass loop: `completed = false` is a `return` inside it. -/
structure PassResult where
  completed : Bool
  readTex : ComPtr
  writeTex : ComPtr
  work : List DevCall
  cmds : List Cmd
  deriving DecidableEq

/-- The loop of lines 541-566, `n` passes still to run, `pass` the loop counter.
A view of a null resource cannot be created. -/
def primaryPasses (env : DispatchEnv) (srvFormat uavFormat : DXGI_FORMAT) (tgx tgy : Nat) :
    Nat → Nat → ComPtr → ComPtr → PassResult
  | 0, _, readTex, writeTex =>
    { completed := true, readTex := readTex, writeTex := writeTex, work := [], cmds := [] }
  | n + 1, pass, readTex, writeTex =>
    let srvCreated : Bool := env.srvOk pass && readTex.isSome
    if !srvCreated then
      { completed := false, readTex := readTex, writeTex := writeTex,
        work := [DevCall.createShaderResourceView readTex srvFormat false], cmds := [] }
    else
      let uavCreated : Bool := env.uavOk pass && writeTex.isSome
      if !uavCreated then
        { completed := false, readTex := readTex, writeTex := writeTex,
          work := [DevCall.createShaderResourceView readTex srvFormat true,
                   DevCall.createUnorderedAccessView writeTex uavFormat false],
          cmds := [Cmd.csSetShaderResources 0 (some ⟨readTex, srvFormat⟩)] }
      else
        let rest := primaryPasses env srvFormat uavFormat tgx tgy n (pass + 1) writeTex readTex
        { rest with
          work := [DevCall.createShaderResourceView readTex srvFormat true,
                   DevCall.createUnorderedAccessView writeTex uavFormat true] ++ rest.work,
          cmds := [Cmd.csSetShaderResources 0 (some ⟨readTex, srvFormat⟩),
                   Cmd.csSetUnorderedAccessViews 0 (some ⟨writeTex, uavFormat⟩),
                   Cmd.dispatch tgx tgy 1,
                   Cmd.csSetUnorderedAccessViews 0 none,
                   Cmd.csSetShaderResources 0 none] ++ rest.cmds }

/-- Outcome of the timing read-back: new counters, commands, averages logged. -/
structure TimingResult where
  state : SessionState
  cmds : List Cmd
  logged : List ℚ
  deriving DecidableEq

/-- Lines 568-584: end of the timed bracket and best-effort read-back. -/
def timingEnd (env : DispatchEnv) (s : SessionState) : TimingResult :=
  if s.qDisjoint.isSome && s.qBegin.isSome && s.qEnd.isSome then
    let c0 : List Cmd := [Cmd.queryEnd s.qEnd, Cmd.queryEnd s.qDisjoint, Cmd.getData s.qDisjoint]
    match env.disjointData with
    | some (false, frequency) =>
      match env.t0 with
      | none => { state := s, cmds := c0 ++ [Cmd.getData s.qBegin], logged := [] }
      | some t0 =>
        match env.t1 with
        | none =>
          { state := s, cmds := c0 ++ [Cmd.getData s.qBegin, Cmd.getData s.qEnd], logged := [] }
        | some t1 =>
          let ticks : Nat := ((t1 + 18446744073709551616 - t0 % 18446744073709551616)
            % 18446744073709551616)
          let ms : ℚ := (ticks : ℚ) / (frequency : ℚ) * 1000
          let accum : ℚ := s.timingAccumMs + ms
          let counter : Nat := (s.timingFrameCounter + 1) % UINT_MOD
          if counter ≥ 120 then
            { state := { s with timingAccumMs := 0, timingFrameCounter := 0 },
              cmds := c0 ++ [Cmd.getData s.qBegin, Cmd.getData s.qEnd],
              logged := [accum / (counter : ℚ)] }
          else
            { state := { s with timingAccumMs := accum, timingFrameCounter := counter },
              cmds := c0 ++ [Cmd.getData s.qBegin, Cmd.getData s.qEnd], logged := [] }
    | _ => { state := s, cmds := c0, logged := [] }
  else
    { state := s, cmds := [], logged := [] }

/-- Outcome of a secondary pass: the new `casFinalTex`, work and commands. -/
structure SecondaryResult where
  casFinalTex : ComPtr
  work : List DevCall
  cmds : List Cmd
  deriving DecidableEq

/-- Lines 598-635: the optional FakeHDR pass. -/
def fakeHdrPass (env : DispatchEnv) (s : SessionState) (slot : TempTextures)
    (srvFormat uavFormat : DXGI_FORMAT) (offx offy copyWidth copyHeight tgx tgy : Nat)
    (casFinalTex : ComPtr) : SecondaryResult :=
  if s.fakeHdrEnabled && s.fakeHdrCS.isSome && s.fakeHdrCB.isSome then
    let hdrDst : ComPtr := if casFinalTex = slot.input then slot.output else slot.input
    let srvCreated : Bool := env.hdrSrvOk && casFinalTex.isSome
    let uavCreated : Bool := env.hdrUavOk && hdrDst.isSome
    let hdrSRV : Option View := if srvCreated then some ⟨casFinalTex, srvFormat⟩ else none
    let hdrUAV : Option View := if uavCreated then some ⟨hdrDst, uavFormat⟩ else none
    { casFinalTex := hdrDst,
      work := [DevCall.createShaderResourceView casFinalTex srvFormat srvCreated,
               DevCall.createUnorderedAccessView hdrDst uavFormat uavCreated],
      cmds := updateBuffer s.fakeHdrCB env.mapHdrOk
                (CBData.fakeHdr s.fakeHdrPower s.fakeHdrRadius1 s.fakeHdrRadius2
                  offx offy copyWidth copyHeight) ++
              [Cmd.csSetShader s.fakeHdrCS,
               Cmd.csSetConstantBuffers 0 s.fakeHdrCB,
               Cmd.csSetShaderResources 0 hdrSRV,
               Cmd.csSetUnorderedAccessViews 0 hdrUAV,
               Cmd.dispatch tgx tgy 1,
               Cmd.csSetUnorderedAccessViews 0 none,
               Cmd.csSetShaderResources 0 none] }
  else
    { casFinalTex := casFinalTex, work := [], cmds := [] }

/-- Lines 637-674: the optional Levels pass. -/
def levelsPass (env : DispatchEnv) (s : SessionState) (slot : TempTextures)
    (srvFormat uavFormat : DXGI_FORMAT) (tgx tgy : Nat) (casFinalTex : ComPtr) :
    SecondaryResult :=
  if s.levelsEnabled && s.levelsCS.isSome && s.levelsCB.isSome then
    let levelsDst : ComPtr := if casFinalTex = slot.input then slot.output else slot.input
    let srvCreated : Bool := env.levelsSrvOk && casFinalTex.isSome
    let uavCreated : Bool := env.levelsUavOk && levelsDst.isSome
    let levelsSRV : Option View := if srvCreated then some ⟨casFinalTex, srvFormat⟩ else none
    let levelsUAV : Option View := if uavCreated then some ⟨levelsDst, uavFormat⟩ else none
    { casFinalTex := if levelsDst = slot.input then slot.input else slot.output,
      work := [DevCall.createShaderResourceView casFinalTex srvFormat srvCreated,
               DevCall.createUnorderedAccessView levelsDst uavFormat uavCreated],
      cmds := updateBuffer s.levelsCB env.mapLevelsOk
                (CBData.levels s.levelsInBlack s.levelsInWhite s.levelsOutBlack
                  s.levelsOutWhite s.levelsGamma) ++
              [Cmd.csSetShader s.levelsCS,
               Cmd.csSetConstantBuffers 0 s.levelsCB,
               Cmd.csSetShaderResources 0 levelsSRV,
               Cmd.csSetUnorderedAccessViews 0 levelsUAV,
               Cmd.dispatch tgx tgy 1,
               Cmd.csSetUnorderedAccessViews 0 none,
               Cmd.csSetShaderResources 0 none] }
  else
    { casFinalTex := casFinalTex, work := [], cmds := [] }

/-- Outcome of lines 430-689 of `dispatchCas`, the part after the pool block. -/
structure ChainResult where
  state : SessionState
  work : List DevCall
  cmds : List Cmd
  logged : List ℚ
  completed : Bool
  deriving DecidableEq

/-- Lines 430-689 of `dispatchCas`: copy-in, constants, primary passes, timing,
secondary passes and copy-back, on the pool entry `slot`. -/
def runPassChain (env : DispatchEnv) (s : SessionState) (source : Handle)
    (td : D3D11_TEXTURE2D_DESC) (sub : XrSwapchainSubImage) (slot : TempTextures) :
    ChainResult :=
  -- copy source slice/rect into input
  let srcSubresource := D3D11CalcSubresource 0 sub.imageArrayIndex 1
  let dstSubresourceInput := D3D11CalcSubresource 0 0 1
  let copyWidth : Nat := if sub.extentWidth ≠ 0 then toUINT sub.extentWidth else td.Width
  let copyHeight : Nat := if sub.extentHeight ≠ 0 then toUINT sub.extentHeight else td.Height
  let inBox : D3D11_BOX :=
    { left := toUINT sub.offsetX, top := toUINT sub.offsetY, front := 0,
      right := addUINT (toUINT sub.offsetX) copyWidth,
      bottom := addUINT (toUINT sub.offsetY) copyHeight, back := 1 }
  let copyIn : List Cmd :=
    [Cmd.copySubresourceRegion slot.input dstSubresourceInput inBox.left inBox.top 0
      (some source) srcSubresource inBox]
  let srvFormat := mapSrvFormat td.Format
  let uavFormat := mapUavFormat td.Format
  -- constants
  let userSharp := s.sharpness
  let setup : List Cmd :=
    updateBuffer s.constCB env.mapConstOk
      (CBData.cas (casStrength userSharp) td.Width td.Height)
  -- timing begin
  let timingBegin : List Cmd :=
    if s.qDisjoint.isSome && s.qBegin.isSome && s.qEnd.isSome then
      [Cmd.queryBegin s.qDisjoint, Cmd.queryEnd s.qBegin]
    else []
  let extx : Nat := if sub.extentWidth ≠ 0 then toUINT sub.extentWidth else td.Width
  let exty : Nat := if sub.extentHeight ≠ 0 then toUINT sub.extentHeight else td.Height
  let bind : List Cmd :=
    [Cmd.csSetShader s.cs, Cmd.csSetConstantBuffers 0 s.constCB] ++
    updateBuffer s.debugCB env.mapDebugOk
      (CBData.debug 0 (toUINT sub.offsetX) (toUINT sub.offsetY) extx exty) ++
    [Cmd.csSetConstantBuffers 1 s.debugCB]
  let width := copyWidth
  let height := copyHeight
  let tgx := addUINT width 15 / 16
  let tgy := addUINT height 15 / 16
  let p := primaryPasses env srvFormat uavFormat tgx tgy
    (totalPasses env.intOverflow userSharp).toNat 0 slot.input slot.output
  if !p.completed then
    { state := s, work := p.work,
      cmds := copyIn ++ setup ++ timingBegin ++ bind ++ p.cmds, logged := [],
      completed := false }
  else
    let t := timingEnd env s
    let unbind : List Cmd :=
      [Cmd.csSetUnorderedAccessViews 0 none, Cmd.csSetShaderResources 0 none]
    -- last swap put the latest result into readTex
    let h := fakeHdrPass env t.state slot srvFormat uavFormat (toUINT sub.offsetX)
      (toUINT sub.offsetY) copyWidth copyHeight tgx tgy p.readTex
    let l := levelsPass env t.state slot srvFormat uavFormat tgx tgy h.casFinalTex
    -- copy back (only the processed slice/rect)
    let dstSubresource := D3D11CalcSubresource 0 sub.imageArrayIndex 1
    let srcSubresourceOutput := D3D11CalcSubresource 0 0 1
    let box : D3D11_BOX :=
      { left := toUINT sub.offsetX, top := toUINT sub.offsetY, front := 0,
        right := addUINT (toUINT sub.offsetX) width,
        bottom := addUINT (toUINT sub.offsetY) height, back := 1 }
    { state := t.state,
      work := p.work ++ h.work ++ l.work,
      cmds := copyIn ++ setup ++ timingBegin ++ bind ++ p.cmds ++ t.cmds ++ unbind ++
        h.cmds ++ l.cmds ++
        [Cmd.copySubresourceRegion (some source) dstSubresource box.left box.top 0
          l.casFinalTex srcSubresourceOutput box],
      logged := t.logged, completed := true }

/-- Everything one `dispatchCas` call leaves behind. -/
structure DispatchResult where
  /-- the session after the call -/
  state : SessionState
  device : Device
  /-- the map `tempPool` after the call -/
  pool : TempPool
  /-- loads, compilations and creations, in order -/
  work : List DevCall
  /-- device-context commands, in order -/
  cmds : List Cmd
  /-- averages written by the "CAS average GPU cost" log line -/
  logged : List ℚ
  /-- the call reached the final "CAS: completed" line -/
  completed : Bool

/-- The function `dispatchCas`.  `td` is what `source->GetDesc` returns. -/
def dispatchCas (env : DispatchEnv) (d : Device) (s : SessionState) (swapchain : Nat)
    (source : Handle) (td : D3D11_TEXTURE2D_DESC) (sub : XrSwapchainSubImage)
    (tempPool : TempPool) : DispatchResult :=
  let e := ensureCasObjects env.ensure d s
  if !e.ok then
    { state := e.state, device := e.device, pool := tempPool, work := e.work, cmds := [],
      logged := [], completed := false }
  else if !supported td.Format then
    { state := e.state, device := e.device, pool := tempPool, work := e.work, cmds := [],
      logged := [], completed := false }
  else if td.SampleCount != 1 then
    { state := e.state, device := e.device, pool := tempPool, work := e.work, cmds := [],
      logged := [], completed := false }
  else
    -- pooled temporary textures per (swapchain, slice)
    let poolKey := makeTempKey swapchain sub.imageArrayIndex
    let a := acquireTempTextures env.createInputOk env.createOutputOk e.device td
      ((tempPool poolKey).getD {})
    let pool : TempPool := fun k => if k = poolKey then some a.slot else tempPool k
    if !a.ok then
      { state := e.state, device := a.device, pool := pool, work := e.work ++ a.work,
        cmds := [], logged := [], completed := false }
    else
      let c := runPassChain env e.state source td sub a.slot
      { state := c.state, device := a.device, pool := pool,
        work := e.work ++ a.work ++ c.work, cmds := c.cmds, logged := c.logged,
        completed := c.completed }

/-! ## Configuration (lines 101-216) -/

/-- The C-locale `std::isspace`: space, `\t`, `\n`, `\v`, `\f`, `\r`. -/
def isspace (c : Char) : Bool :=
  c.toNat == 32 || (9 ≤ c.toNat && c.toNat ≤ 13)

/-- The C-locale `std::tolower`. -/
def tolower (c : Char) : Char :=
  if 65 ≤ c.toNat ∧ c.toNat ≤ 90 then Char.ofNat (c.toNat + 32) else c

/-- The lambda `trim`: erase leading and trailing `isspace` characters. -/
def trim (s : Str) : Str :=
  ((s.dropWhile isspace).reverse.dropWhile isspace).reverse

/-- The lines the `while (std::getline(in, line))` loop sees: the text is cut at
every `\n`; an empty rest after the last `\n` is not a line.  `cur` is the
line read so far, reversed. -/
def getlines (cur : Str) : Str → List Str
  | [] => if cur.isEmpty then [] else [cur.reverse]
  | c :: rest =>
    if c.toNat = 10 then cur.reverse :: getlines [] rest else getlines (c :: cur) rest

/-- Lines 162-170 on one line: `none` for a blank line, a comment or a line
without `=`, otherwise the trimmed, lower-cased key and the trimmed value. -/
def parseLine (line : Str) : Option (Str × Str) :=
  let line := trim line
  match line with
  | [] => none
  | c :: _ =>
    if c = '#' ∨ c = ';' then none
    else if line.all (fun ch => ch != '=') then none
    else
      let key := line.takeWhile (fun ch => ch != '=')
      let val := (line.dropWhile (fun ch => ch != '=')).drop 1
      some ((trim key).map tolower, trim val)

/-- The search of `tryReadConfigValueFromFile` over the lines of the file. -/
def findConfigValue (keyLower : Str) : List Str → Option Str
  | [] => none
  | line :: rest =>
    match parseLine line with
    | some (key, val) => if key = keyLower then some val else findConfigValue keyLower rest
    | none => findConfigValue keyLower rest

/-- The function `tryReadConfigValueFromFile`; `file` is the text of the file at
`path`, `none` when it does not exist or cannot be read. -/
def tryReadConfigValueFromFile (file : Option Str) (keyLower : Str) : Option Str :=
  match file with
  | none => none
  | some text => findConfigValue keyLower (getlines [] text)

/-- What the layer sees of its host: environment variables, the two config
files, and the conversions `std::stof` and `std::stoi`.  `stof txt = some v`
says that `std::stof` returns the finite `float` of exact value `v` for the
text, `none` that it throws.  The results NaN and infinity, which `std::stof`
gives for texts such as `nan` and `inf`, have no counterpart here: what is
proved about a converted text is proved for the texts converted to a finite
value, and stated with that hypothesis. -/
structure Host where
  getenv : Str → Option Str
  /-- text of `localAppData / "config.cfg"` -/
  localAppDataCfg : Option Str
  /-- text of `dllHome / "config.cfg"` -/
  dllHomeCfg : Option Str
  stof : Str → Option ℚ
  stoi : Str → Option Int

/-- The function `tryReadConfigValue`: per-user file first, then per-install file. -/
def tryReadConfigValue (host : Host) (keyLower : Str) : Option Str :=
  match tryReadConfigValueFromFile host.localAppDataCfg keyLower with
  | some v => some v
  | none => tryReadConfigValueFromFile host.dllHomeCfg keyLower

/-- Win32 `GetEnvironmentVariableA(name, buf, size)` on a zeroed buffer: the
returned count and the text left in `buf`.  A value that does not fit returns
the size it needs and leaves the buffer as it was. -/
def GetEnvironmentVariableA (host : Host) (name : Str) (size : Nat) : Nat × Str :=
  match host.getenv name with
  | none => (0, [])
  | some v => if v.length < size then (v.length, v) else (v.length + 1, [])

/-- The function `readSharpnessFromEnv`. -/
def readSharpnessFromEnv (host : Host) : ℚ :=
  let r := GetEnvironmentVariableA host "XR_CAS_SHARPNESS".toList 64
  if r.1 > 0 ∧ r.1 < 64 then
    match host.stof r.2 with
    | some v => if v < 0 then 0 else v
    | none => 6 / 10
  else 6 / 10

/-- The loop of `tryReadSharpnessFromConfigFile` over the lines of the file. -/
def findSharpness (stof : Str → Option ℚ) : List Str → Option ℚ
  | [] => none
  | line :: rest =>
    match parseLine line with
    | some (key, val) =>
      if key = "sharpness".toList then
        match stof val with
        | some v => some (if v < 0 then 0 else v)
        | none => none
      else findSharpness stof rest
    | none => findSharpness stof rest

/-- The function `tryReadSharpnessFromConfigFile`. -/
def tryReadSharpnessFromConfigFile (stof : Str → Option ℚ) (file : Option Str) : Option ℚ :=
  match file with
  | none => none
  | some text => findSharpness stof (getlines [] text)

/-- The function `resolveSharpnessFromConfigOrEnv`. -/
def resolveSharpnessFromConfigOrEnv (host : Host) : ℚ :=
  if (GetEnvironmentVariableA host "XR_CAS_SHARPNESS".toList 64).1 > 0 then
    readSharpnessFromEnv host
  else
    match tryReadSharpnessFromConfigFile host.stof host.localAppDataCfg with
    | some val => val
    | none =>
      match tryReadSharpnessFromConfigFile host.stof host.dllHomeCfg with
      | some val => val
      | none => 6 / 10

/-- The test `v=="1"||v=="true"||v=="yes"` on the lower-cased value. -/
def boolLike (val : Str) : Bool :=
  let v := val.map tolower
  v == "1".toList || v == "true".toList || v == "yes".toList

/-- Lines 889-935 of `xrCreateSession`: the configuration read into a new state. -/
def readSessionConfig (host : Host) (state : SessionState) : SessionState :=
  let state := { state with sharpness := resolveSharpnessFromConfigOrEnv host }
  -- frames
  let envFrames := GetEnvironmentVariableA host "XR_CAS_DEBUG_FRAMES".toList 32
  let state :=
    if envFrames.1 > 0 then
      match host.stoi envFrames.2 with
      | some v => if v ≥ 0 then { state with debugFramesMax := v.toNat } else state
      | none => state
    else state
  let state :=
    match tryReadConfigValue host "debug_frames".toList with
    | some s =>
      match host.stoi s with
      | some v => if v ≥ 0 then { state with debugFramesMax := v.toNat } else state
      | none => state
    | none => state
  -- overlay
  let envOverlay := GetEnvironmentVariableA host "XR_CAS_DEBUG_OVERLAY".toList 8
  let state :=
    if envOverlay.1 > 0 then
      { state with debugOverlay := decide (envOverlay.2.head? ≠ some '0') }
    else state
  let state :=
    match tryReadConfigValue host "debug_overlay".toList with
    | some s => { state with debugOverlay := boolLike s }
    | none => state
  -- levels
  let state :=
    match tryReadConfigValue host "levels_enable".toList with
    | some s => { state with levelsEnabled := boolLike s }
    | none => state
  let state :=
    match (tryReadConfigValue host "levels_in_black".toList).bind host.stof with
    | some v => { state with levelsInBlack := v }
    | none => state
  let state :=
    match (tryReadConfigValue host "levels_in_white".toList).bind host.stof with
    | some v => { state with levelsInWhite := v }
    | none => state
  let state :=
    match (tryReadConfigValue host "levels_out_black".toList).bind host.stof with
    | some v => { state with levelsOutBlack := v }
    | none => state
  let state :=
    match (tryReadConfigValue host "levels_out_white".toList).bind host.stof with
    | some v => { state with levelsOutWhite := v }
    | none => state
  let state :=
    match (tryReadConfigValue host "levels_gamma".toList).bind host.stof with
    | some v => { state with levelsGamma := v }
    | none => state
  -- FakeHDR
  let state :=
    match tryReadConfigValue host "fakehdr_enable".toList with
    | some s => { state with fakeHdrEnabled := boolLike s }
    | none => state
  let state :=
    match (tryReadConfigValue host "fakehdr_power".toList).bind host.stof with
    | some v => { state with fakeHdrPower := v }
    | none => state
  let state :=
    match (tryReadConfigValue host "fakehdr_radius1".toList).bind host.stof with
    | some v => { state with fakeHdrRadius1 := v }
    | none => state
  let state :=
    match (tryReadConfigValue host "fakehdr_radius2".toList).bind host.stof with
    | some v => { state with fakeHdrRadius2 := v }
    | none => state
  state

/-! ### Decimal conversions

`std::stoi` and `std::stof` on decimal notation, for hosts of concrete examples. -/

/-- A decimal digit. -/
def isDigit (c : Char) : Bool := 48 ≤ c.toNat && c.toNat ≤ 57

/-- Value of a run of decimal digits. -/
def digitsValue (ds : Str) : Nat := ds.foldl (fun n c => 10 * n + (c.toNat - 48)) 0

/-- Strip an optional sign: `true` for `-`. -/
def readSign : Str → Bool × Str
  | c :: rest => if c = '-' then (true, rest) else if c = '+' then (false, rest) else (false, c :: rest)
  | [] => (false, [])

/-- The conversion `std::stoi(s)` in base 10: leading white space, optional sign, digits; the
rest is ignored.  No digit, or a value outside `int`, throws. -/
def stoiDecimal (s : Str) : Option Int :=
  let r := readSign (s.dropWhile isspace)
  let ds := r.2.takeWhile isDigit
  if ds.isEmpty then none
  else
    let v : Int := if r.1 then -(digitsValue ds : Int) else (digitsValue ds : Int)
    if -2147483648 ≤ v ∧ v ≤ 2147483647 then some v else none

/-- The parts of a decimal floating literal read by `std::stof`: sign, digits of
the mantissa with the point removed, number of digits after the point, and
the rest of the text.  `none` when there is no digit. -/
def stofMantissa (s : Str) : Option (Bool × Nat × Nat × Str) :=
  let r := readSign (s.dropWhile isspace)
  let ip := r.2.takeWhile isDigit
  let afterInt := r.2.dropWhile isDigit
  match afterInt with
  | c :: rest =>
    if c = '.' then
      let fp := rest.takeWhile isDigit
      if ip.isEmpty && fp.isEmpty then none
      else some (r.1, digitsValue (ip ++ fp), fp.length, rest.dropWhile isDigit)
    else if ip.isEmpty then none else some (r.1, digitsValue ip, 0, afterInt)
  | [] => if ip.isEmpty then none else some (r.1, digitsValue ip, 0, [])

/-- The optional exponent part `e[sign]digits` of a decimal floating literal. -/
def stofExponent : Str → Int
  | c :: rest =>
    if c = 'e' ∨ c = 'E' then
      let r := readSign rest
      let ds := r.2.takeWhile isDigit
      if ds.isEmpty then 0
      else if r.1 then -(digitsValue ds : Int) else (digitsValue ds : Int)
    else 0
  | [] => 0

/-- The conversion `std::stof(s)` on plain decimal notation, for the hosts of
the concrete examples: the exact value of the text, where `std::stof` gives
the nearest `float`.  It stands for `std::stof` on decimal texts inside the
range of `float` only; hexadecimal notation, `inf`, `nan` and texts whose
value is out of that range are not covered. -/
def stofDecimal (s : Str) : Option ℚ :=
  match stofMantissa s with
  | none => none
  | some (neg, m, k, rest) =>
    let v : ℚ := (m : ℚ) * (10 : ℚ) ^ (stofExponent rest - (k : Int))
    some (if neg then -v else v)

/-! ## The layer object (lines 692-1118) -/

/-- A functional map with one key set. -/
def setKey {α : Type} (m : Nat → Option α) (k : Nat) (v : α) : Nat → Option α :=
  fun j => if j = k then some v else m j

/-- A functional map with one key erased. -/
def eraseKey {α : Type} (m : Nat → Option α) (k : Nat) : Nat → Option α :=
  fun j => if j = k then none else m j

/-- The data members of `OpenXrLayer` the pipeline uses; every map is a
function to `Option`, `none` being an absent key. -/
structure OpenXrLayer where
  m_compFactory : Bool := false
  m_sessions : Nat → Option SessionState := fun _ => none
  m_acquired : Nat → Option (List Nat) := fun _ => none
  m_lastReleased : Nat → Option (Option Nat) := fun _ => none
  m_swapchainImages : Nat → Option (List ComPtr) := fun _ => none
  m_tempPool : TempPool := fun _ => none

/-- The macro `XR_SUCCEEDED`. -/
def XR_SUCCEEDED (r : Int) : Bool := decide (r ≥ 0)

abbrev XR_ERROR_VALIDATION_FAILURE : Int := -1
abbrev XR_TYPE_SESSION_CREATE_INFO : Nat := 8
abbrev XR_TYPE_COMPOSITION_LAYER_PROJECTION : Nat := 35

/-- A structure of the `next` chain of `XrSessionCreateInfo`: the D3D11
graphics binding with its device and the device's immediate context, or a
structure of another type. -/
inductive ChainItem where
  | graphicsBindingD3D11 (device : ComPtr) (immediateContext : Handle)
  | other (type : Nat)
  deriving DecidableEq, Repr

/-- Lines 871-884: the device and context of the first D3D11 binding of the chain. -/
def findD3D11Binding : List ChainItem → ComPtr × ComPtr
  | [] => (none, none)
  | ChainItem.graphicsBindingD3D11 device ctx :: _ =>
    if device.isSome then (device, some ctx) else (none, none)
  | ChainItem.other _ :: rest => findD3D11Binding rest

/-- The method `xrCreateSession`.  `r` is the result of the runtime, `session`
the handle it returned, `framework` whether the factory returns a
composition framework for it. -/
def xrCreateSession (host : Host) (r : Int) (createInfoType : Nat) (chain : List ChainItem)
    (session : Nat) (framework : Bool) (L : OpenXrLayer) : Int × OpenXrLayer :=
  if createInfoType ≠ XR_TYPE_SESSION_CREATE_INFO then (XR_ERROR_VALIDATION_FAILURE, L)
  else if XR_SUCCEEDED r then
    let b := findD3D11Binding chain
    let state : SessionState :=
      { composition := L.m_compFactory && framework, appD3DDevice := b.1, appD3DContext := b.2 }
    (r, { L with m_sessions := setKey L.m_sessions session (readSessionConfig host state) })
  else (r, L)

/-- The method `xrCreateSwapchain`.  `images` is what the two
`xrEnumerateSwapchainImages` calls deliver: `none` when the count is zero or
the second call fails. -/
def xrCreateSwapchain (r : Int) (session swapchain : Nat) (images : Option (List ComPtr))
    (L : OpenXrLayer) : Int × OpenXrLayer :=
  if XR_SUCCEEDED r then
    match L.m_sessions session with
    | some st =>
      if st.appD3DDevice.isSome then
        match images with
        | some texList =>
          (r, { L with m_swapchainImages := setKey L.m_swapchainImages swapchain texList })
        | none => (r, L)
      else (r, L)
    | none => (r, L)
  else (r, L)

/-- The method `xrDestroySwapchain`; `r` is the result of the runtime. -/
def xrDestroySwapchain (r : Int) (swapchain : Nat) (L : OpenXrLayer) : Int × OpenXrLayer :=
  (r, { L with m_acquired := eraseKey L.m_acquired swapchain,
               m_lastReleased := eraseKey L.m_lastReleased swapchain,
               m_swapchainImages := eraseKey L.m_swapchainImages swapchain })

/-- The method `xrAcquireSwapchainImage`; `r` and `index` come from the runtime. -/
def xrAcquireSwapchainImage (r : Int) (swapchain : Nat) (index : Nat) (L : OpenXrLayer) :
    Int × OpenXrLayer :=
  if XR_SUCCEEDED r then
    (r, { L with m_acquired :=
            setKey L.m_acquired swapchain (((L.m_acquired swapchain).getD []) ++ [index]) })
  else (r, L)

/-- The method `xrReleaseSwapchainImage`; `r` comes from the runtime.  Both
`operator[]` uses insert an entry for a key that is absent. -/
def xrReleaseSwapchainImage (r : Int) (swapchain : Nat) (L : OpenXrLayer) : Int × OpenXrLayer :=
  if XR_SUCCEEDED r then
    match (L.m_acquired swapchain).getD [] with
    | front :: rest =>
      (r, { L with m_acquired := setKey L.m_acquired swapchain rest,
                   m_lastReleased := setKey L.m_lastReleased swapchain (some front) })
    | [] =>
      (r, { L with m_acquired := setKey L.m_acquired swapchain [],
                   m_lastReleased :=
                     setKey L.m_lastReleased swapchain ((L.m_lastReleased swapchain).getD none) })
  else (r, L)

/-! ## xrEndFrame (lines 1018-1103) -/

/-- A submitted composition layer: a projection layer with the sub-images of
its views, or a layer of another type. -/
inductive Layer where
  | projection (views : List XrSwapchainSubImage)
  | other (type : Nat)
  deriving DecidableEq, Repr

/-- Where in the body of the view loop (lines 1043-1082) an exception is raised. -/
inductive RaisePoint where
  /-- before the body has changed anything -/
  | bodyStart
  /-- after the texture list of the view was looked up, and cached when it came
  from the fallback enumeration, but before the last call of the body (for
  instance in the `Log` call of line 1070) -/
  | beforeCall
  /-- in the last call of the body: inside `dispatchCas` (line 1073), which was
  invoked and had done `left` when the exception left it, or in the `Log` call
  of a skip.  Any `left` is admitted, so that nothing is assumed about where
  inside `dispatchCas` the exception is raised. -/
  | inCall (left : DispatchResult)

/-- Outcomes of the external calls of one `xrEndFrame` run. -/
structure FrameEnv where
  /-- outcomes of the `dispatchCas` call made for view `vi` -/
  dispatch : Nat → DispatchEnv
  /-- fallback `xrEnumerateSwapchainImages` for a swapchain, as in `xrCreateSwapchain` -/
  enumerate : Nat → Option (List ComPtr)
  /-- the description `GetDesc` reports for a texture -/
  getDesc : Handle → D3D11_TEXTURE2D_DESC
  /-- the call `serializePreComposition` raises an exception -/
  preCompositionRaises : Bool := false
  /-- an exception is raised in the body of the loop for view `vi`, at the point
  `raisePoint vi` -/
  viewRaises : Nat → Bool := fun _ => false
  /-- the call `serializePostComposition` raises an exception -/
  postCompositionRaises : Bool := false
  /-- where the exception of a raising view is raised -/
  raisePoint : Nat → RaisePoint := fun _ => RaisePoint.bodyStart

/-- What `xrEndFrame` did for one view of the projection layer. -/
inductive ViewOutcome where
  /-- the skip logged as "CAS: no last-released image to process." -/
  | noLastReleased
  /-- the skip logged as "CAS: no cached images or index out of range; skipping." -/
  | noImages
  /-- the skip logged as "CAS: null D3D11 texture pointer; skipping." -/
  | nullTexture
  /-- the function `dispatchCas` was called on `source`, with what it issued -/
  | dispatched (source : Handle) (cmds : List Cmd) (work : List DevCall) (logged : List ℚ)
      (completed : Bool)
  deriving DecidableEq

/-- Calls `xrEndFrame` makes outside the layer. -/
inductive FrameCall where
  | serializePreComposition
  | serializePostComposition
  | runtimeEndFrame (session : Nat) (frameEndInfo : Option (List (Option Layer)))
  deriving DecidableEq, Repr

/-- Lines 1033-1040: the views of the first projection layer of the list. -/
def firstProjection : List (Option Layer) → Option (List XrSwapchainSubImage)
  | [] => none
  | some (Layer.projection views) :: _ => some views
  | _ :: rest => firstProjection rest

/-- Lines 1043-1082: the body of the loop over the views, for view `vi`. -/
def processView (env : FrameEnv) (session vi : Nat) (sub : XrSwapchainSubImage)
    (L : OpenXrLayer) (d : Device) : OpenXrLayer × Device × ViewOutcome :=
  match L.m_lastReleased sub.swapchain with
  | some (some idx) =>
    -- fallback: enumerate images now
    let L : OpenXrLayer :=
      match L.m_swapchainImages sub.swapchain with
      | some _ => L
      | none =>
        match env.enumerate sub.swapchain with
        | some texList =>
          { L with m_swapchainImages := setKey L.m_swapchainImages sub.swapchain texList }
        | none => L
    match L.m_swapchainImages sub.swapchain with
    | some images =>
      if idx < images.length then
        match images.getD idx none with
        | some tex =>
          match L.m_sessions session with
          | some st =>
            let r := dispatchCas (env.dispatch vi) d st sub.swapchain tex (env.getDesc tex) sub
              L.m_tempPool
            ({ L with m_sessions := setKey L.m_sessions session r.state, m_tempPool := r.pool },
              r.device, ViewOutcome.dispatched tex r.cmds r.work r.logged r.completed)
          | none => (L, d, ViewOutcome.dispatched tex [] [] [] false)
        | none => (L, d, ViewOutcome.nullTexture)
      else (L, d, ViewOutcome.noImages)
    | none => (L, d, ViewOutcome.noImages)
  | _ => (L, d, ViewOutcome.noLastReleased)

/-- Lines 1047-1067 for a view with a last-released index: the layer after the
fallback enumeration has cached the texture list of the swapchain. -/
def lookupImages (env : FrameEnv) (sub : XrSwapchainSubImage) (L : OpenXrLayer) : OpenXrLayer :=
  match L.m_lastReleased sub.swapchain with
  | some (some _) =>
    match L.m_swapchainImages sub.swapchain with
    | some _ => L
    | none =>
      match env.enumerate sub.swapchain with
      | some texList =>
        { L with m_swapchainImages := setKey L.m_swapchainImages sub.swapchain texList }
      | none => L
  | _ => L

/-- The body of the loop for view `vi` when an exception leaves it at `point`:
what the body had done by then.  With `RaisePoint.inCall left` the body runs
as in `processView` up to its last call; if that call is `dispatchCas`, it was
invoked on the texture of the view and leaves the session, the pool and the
device as in `left`. -/
def processViewRaising (env : FrameEnv) (session : Nat) (sub : XrSwapchainSubImage)
    (L : OpenXrLayer) (d : Device) : RaisePoint → OpenXrLayer × Device × List ViewOutcome
  | RaisePoint.bodyStart => (L, d, [])
  | RaisePoint.beforeCall => (lookupImages env sub L, d, [])
  | RaisePoint.inCall left =>
    match L.m_lastReleased sub.swapchain with
    | some (some idx) =>
      let L : OpenXrLayer :=
        match L.m_swapchainImages sub.swapchain with
        | some _ => L
        | none =>
          match env.enumerate sub.swapchain with
          | some texList =>
            { L with m_swapchainImages := setKey L.m_swapchainImages sub.swapchain texList }
          | none => L
      match L.m_swapchainImages sub.swapchain with
      | some images =>
        if idx < images.length then
          match images.getD idx none with
          | some tex =>
            match L.m_sessions session with
            | some _ =>
              ({ L with m_sessions := setKey L.m_sessions session left.state,
                        m_tempPool := left.pool },
                left.device,
                [ViewOutcome.dispatched tex left.cmds left.work left.logged left.completed])
            | none => (L, d, [ViewOutcome.dispatched tex [] [] [] false])
          | none => (L, d, [ViewOutcome.nullTexture])
        else (L, d, [ViewOutcome.noImages])
      | none => (L, d, [ViewOutcome.noImages])
    | _ => (L, d, [ViewOutcome.noLastReleased])

/-- The loop of line 1042 over the views, from view index `vi` on. The last
component tells whether an exception left the loop; the views after the
raising one are then not processed, and the raising one as far as
`processViewRaising` tells. -/
def processViews (env : FrameEnv) (session : Nat) :
    Nat → List XrSwapchainSubImage → OpenXrLayer → Device →
      OpenXrLayer × Device × List ViewOutcome × Bool
  | _, [], L, d => (L, d, [], false)
  | vi, sub :: rest, L, d =>
    if env.viewRaises vi then
      let r := processViewRaising env session sub L d (env.raisePoint vi)
      (r.1, r.2.1, r.2.2, true)
    else
      let r := processView env session vi sub L d
      let q := processViews env session (vi + 1) rest r.1 r.2.1
      (q.1, q.2.1, r.2.2 :: q.2.2.1, q.2.2.2)

/-- Everything one `xrEndFrame` call leaves behind. -/
structure EndFrameResult where
  /-- the value returned to the application -/
  result : Int
  layer : OpenXrLayer
  device : Device
  /-- per view of the processed projection layer, in order -/
  views : List ViewOutcome
  /-- calls made outside the layer, in order -/
  calls : List FrameCall
  /-- the handler of line 1100 ran ("xrEndFrame: exception in layer processing") -/
  caught : Bool := false

/-- The method `xrEndFrame`; `r` is the result of the runtime's `xrEndFrame`.
The processing of lines 1020-1098 stands in a `try` block whose handler only
logs; the call of line 1102 follows the block. -/
def xrEndFrame (env : FrameEnv) (r : Int) (session : Nat)
    (frameEndInfo : Option (List (Option Layer))) (L : OpenXrLayer) (d : Device) :
    EndFrameResult :=
  match L.m_sessions session with
  | some st =>
    let pre : List FrameCall :=
      if st.composition then [FrameCall.serializePreComposition] else []
    if st.composition && env.preCompositionRaises then
      { result := r, layer := L, device := d, views := [],
        calls := pre ++ [FrameCall.runtimeEndFrame session frameEndInfo], caught := true }
    else
      let views : List XrSwapchainSubImage :=
        match frameEndInfo with
        | some layers => (firstProjection layers).getD []
        | none => []
      let p := processViews env session 0 views L d
      if p.2.2.2 then
        { result := r, layer := p.1, device := p.2.1, views := p.2.2.1,
          calls := pre ++ [FrameCall.runtimeEndFrame session frameEndInfo], caught := true }
      else
        let composition : Bool :=
          match p.1.m_sessions session with
          | some st1 => st1.composition
          | none => false
        let post : List FrameCall :=
          if composition then [FrameCall.serializePostComposition] else []
        { result := r, layer := p.1, device := p.2.1, views := p.2.2.1,
          calls := pre ++ post ++ [FrameCall.runtimeEndFrame session frameEndInfo],
          caught := composition && env.postCompositionRaises }
  | none =>
    { result := r, layer := L, device := d, views := [],
      calls := [FrameCall.runtimeEndFrame session frameEndInfo] }

/-! ## Reading a command list -/

/-- What a command list does to textures: a copy between two textures, or a
compute dispatch with the shader bound at that moment. -/
inductive Step where
  | copy (dst src : ComPtr)
  | run (shader : ComPtr)
  deriving DecidableEq, Repr

/-- The copies and dispatches of a command list, in order; `cur` is the compute
shader bound before the first command. -/
def steps : ComPtr → List Cmd → List Step
  | _, [] => []
  | cur, c :: rest =>
    match c with
    | Cmd.csSetShader sh => steps sh rest
    | Cmd.dispatch _ _ _ => Step.run cur :: steps cur rest
    | Cmd.copySubresourceRegion dst _ _ _ _ src _ _ => Step.copy dst src :: steps cur rest
    | _ => steps cur rest

/-- Number of dispatches run with shader `sh` bound. -/
def countRuns (sh : ComPtr) (l : List Step) : Nat :=
  (l.filter (fun st => decide (st = Step.run sh))).length

/-- The copy commands of a command list whose destination is texture `t`. -/
def copiesInto (t : Handle) (cmds : List Cmd) : List Cmd :=
  cmds.filter (fun c =>
    match c with
    | Cmd.copySubresourceRegion dst _ _ _ _ _ _ _ => decide (dst = some t)
    | _ => false)

/-- Array slice of a subresource index in a texture with `MipLevels` mips per
slice (the D3D11 subresource layout `MipSlice + ArraySlice * MipLevels`). -/
def subresourceArraySlice (subresource MipLevels : Nat) : Nat := subresource / MipLevels

/-- Mip level of a subresource index in a texture with `MipLevels` mips per slice. -/
def subresourceMipSlice (subresource MipLevels : Nat) : Nat := subresource % MipLevels

/-- The work items that create a texture. -/
def DevCall.isTextureCreation : DevCall → Bool
  | DevCall.createTexture2D _ _ => true
  | _ => false

/-! ## Sequences of acquire and release calls -/

/-- A call of `xrAcquireSwapchainImage` or `xrReleaseSwapchainImage` with what
the runtime returned. -/
inductive SwapchainCall where
  | acquire (r : Int) (swapchain index : Nat)
  | release (r : Int) (swapchain : Nat)
  deriving DecidableEq, Repr

/-- The layer after one call. -/
def applyCall (L : OpenXrLayer) : SwapchainCall → OpenXrLayer
  | SwapchainCall.acquire r swapchain index => (xrAcquireSwapchainImage r swapchain index L).2
  | SwapchainCall.release r swapchain => (xrReleaseSwapchainImage r swapchain L).2

/-- The layer after a sequence of calls. -/
def applyCalls (L : OpenXrLayer) (calls : List SwapchainCall) : OpenXrLayer :=
  calls.foldl applyCall L

/-- The indices the successful acquires of `swapchain` returned, in order. -/
def acquiredIndices (swapchain : Nat) : List SwapchainCall → List Nat
  | [] => []
  | SwapchainCall.acquire r sc index :: rest =>
    if XR_SUCCEEDED r ∧ sc = swapchain then index :: acquiredIndices swapchain rest
    else acquiredIndices swapchain rest
  | SwapchainCall.release _ _ :: rest => acquiredIndices swapchain rest

/-- The number of successful releases of `swapchain`. -/
def releaseCount (swapchain : Nat) : List SwapchainCall → Nat
  | [] => 0
  | SwapchainCall.acquire _ _ _ :: rest => releaseCount swapchain rest
  | SwapchainCall.release r sc :: rest =>
    if XR_SUCCEEDED r ∧ sc = swapchain then releaseCount swapchain rest + 1
    else releaseCount swapchain rest

/-- Every successful release of `swapchain` comes when more images of it were
acquired than released; `pending` is that surplus before the first call. -/
def releasesFollowAcquires (swapchain : Nat) : Nat → List SwapchainCall → Bool
  | _, [] => true
  | pending, SwapchainCall.acquire r sc _ :: rest =>
    if XR_SUCCEEDED r ∧ sc = swapchain then releasesFollowAcquires swapchain (pending + 1) rest
    else releasesFollowAcquires swapchain pending rest
  | pending, SwapchainCall.release r sc :: rest =>
    if XR_SUCCEEDED r ∧ sc = swapchain then
      decide (0 < pending) && releasesFollowAcquires swapchain (pending - 1) rest
    else releasesFollowAcquires swapchain pending rest

/-! ## The pass count of the specification -/

/-- The pass count as the specification words it: `1 + clamp(floor(s - 1), 0, 3)`. -/
def specPassCount (s : ℚ) : Int := 1 + max 0 (min 3 ⌊s - 1⌋)

/-! ## Concrete hosts, sessions and frames -/

/-- Every external call of `ensureCasObjects` succeeds. -/
def ensureAllOk : EnsureEnv :=
  { csoExists := true, csoBytesNonEmpty := true, csoCreateOk := true,
    loadCompilerSystem := true, loadCompilerLocal := true, getProcOk := true,
    compileCasOk := true, blobCreateOk := true,
    levelsLoadCompiler := true, levelsGetProcOk := true, levelsCompileOk := true,
    levelsCreateOk := true, levelsBufferOk := true,
    fakeHdrLoadCompiler := true, fakeHdrGetProcOk := true, fakeHdrCompileOk := true,
    fakeHdrCreateOk := true, fakeHdrBufferOk := true,
    constBufferOk := true, debugBufferOk := true,
    qDisjointOk := true, qBeginOk := true, qEndOk := true }

/-- Every external call of `dispatchCas` succeeds; the timing data is not ready
yet, and an out-of-range `(int)` conversion gives `INT_MIN` as on x64. -/
def dispatchAllOk : DispatchEnv :=
  { ensure := ensureAllOk, intOverflow := -2147483648,
    createInputOk := true, createOutputOk := true, mapConstOk := true, mapDebugOk := true,
    srvOk := fun _ => true, uavOk := fun _ => true,
    disjointData := none, t0 := none, t1 := none,
    mapHdrOk := true, hdrSrvOk := true, hdrUavOk := true,
    mapLevelsOk := true, levelsSrvOk := true, levelsUavOk := true }

/-- A new session of a D3D11 application: device 1, immediate context 2, defaults elsewhere. -/
def freshSession : SessionState := { appD3DDevice := some 1, appD3DContext := some 2 }

/-- A single-sampled 1024x512 `R8G8B8A8_UNORM_SRGB` texture with one slice and one mip. -/
def colorDesc : D3D11_TEXTURE2D_DESC :=
  { Width := 1024, Height := 512, MipLevels := 1, ArraySize := 1,
    Format := DXGI_FORMAT_R8G8B8A8_UNORM_SRGB, SampleCount := 1, SampleQuality := 0,
    Usage := 0, BindFlags := 40, CPUAccessFlags := 0, MiscFlags := 0 }

/-- The same texture with four samples per pixel. -/
def msaaDesc : D3D11_TEXTURE2D_DESC := { colorDesc with SampleCount := 4 }

/-- A two-slice texture array with two mip levels per slice. -/
def mipArrayDesc : D3D11_TEXTURE2D_DESC := { colorDesc with MipLevels := 2, ArraySize := 2 }

/-- The left half of slice 0 of swapchain 7. -/
def leftView : XrSwapchainSubImage :=
  { swapchain := 7, offsetX := 0, offsetY := 0, extentWidth := 512, extentHeight := 512,
    imageArrayIndex := 0 }

/-- The right half of slice 0 of swapchain 7. -/
def rightView : XrSwapchainSubImage :=
  { swapchain := 7, offsetX := 512, offsetY := 0, extentWidth := 512, extentHeight := 512,
    imageArrayIndex := 0 }

/-- All of slice 1 of swapchain 7. -/
def sliceOneView : XrSwapchainSubImage :=
  { swapchain := 7, offsetX := 0, offsetY := 0, extentWidth := 1024, extentHeight := 512,
    imageArrayIndex := 1 }

/-- Every call succeeds except the creation of the primary constant buffer. -/
def constBufferFails : EnsureEnv := { ensureAllOk with constBufferOk := false }

/-- The three calls of the specification's tracker example on swapchain 7:
images 0, 1, 2 acquired, two releases. -/
def trackerCalls : List SwapchainCall :=
  [SwapchainCall.acquire 0 7 0, SwapchainCall.acquire 0 7 1, SwapchainCall.release 0 7,
   SwapchainCall.acquire 0 7 2, SwapchainCall.release 0 7]

/-- A numeric text of 64 characters with value 2: 63 zeros and a `2`. -/
def longSharpnessText : Str := List.replicate 63 '0' ++ ['2']

/-- A host whose `XR_CAS_SHARPNESS` is `longSharpnessText` and which has no config file. -/
def longEnvHost : Host :=
  { getenv := fun name =>
      if name = "XR_CAS_SHARPNESS".toList then some longSharpnessText else none,
    localAppDataCfg := none, dllHomeCfg := none,
    stof := stofDecimal, stoi := stoiDecimal }

/-- A host with `XR_CAS_SHARPNESS=2.5`, a per-user file with `sharpness=0.8` and
a per-install file with `sharpness=0.3`. -/
def layeredHost : Host :=
  { getenv := fun name => if name = "XR_CAS_SHARPNESS".toList then some "2.5".toList else none,
    localAppDataCfg := some "# user\nSharpness = 0.8\n".toList,
    dllHomeCfg := some "sharpness=0.3\n".toList,
    stof := stofDecimal, stoi := stoiDecimal }

/-- A host with `XR_CAS_DEBUG_FRAMES=5` and `XR_CAS_DEBUG_OVERLAY=1` whose
per-user config file says `debug_overlay=0` and `debug_frames=60`. -/
def debugEnvHost : Host :=
  { getenv := fun name =>
      if name = "XR_CAS_DEBUG_FRAMES".toList then some "5".toList
      else if name = "XR_CAS_DEBUG_OVERLAY".toList then some "1".toList
      else none,
    localAppDataCfg := some "debug_overlay=0\ndebug_frames=60\n".toList,
    dllHomeCfg := none,
    stof := stofDecimal, stoi := stoiDecimal }

/-- Commands that neither copy, dispatch nor bind a compute shader. -/
def Cmd.isInert : Cmd → Bool
  | Cmd.copySubresourceRegion _ _ _ _ _ _ _ _ => false
  | Cmd.csSetShader _ => false
  | Cmd.dispatch _ _ _ => false
  | _ => true

/-- The copies and dispatches `dispatchCas` issued for a view; none when it was not called. -/
def ViewOutcome.steps : ViewOutcome → List Step
  | ViewOutcome.dispatched _ cmds _ _ _ => openxr_api_layer.steps none cmds
  | _ => []

/-- The fast-path test of `ensureCasObjects` (lines 219-220): a device, the
primary shader, and the shader of every enabled secondary pass. -/
def casObjectsReady (s : SessionState) : Bool :=
  s.appD3DDevice.isSome && (s.cs.isSome && (!s.levelsEnabled || s.levelsCS.isSome)
    && (!s.fakeHdrEnabled || s.fakeHdrCS.isSome))

/-- A session with sharpness 1.5 and Levels enabled whose objects exist:
primary shader 10, constant buffers 11 and 12, Levels shader 13 and buffer 14. -/
def levelsSession : SessionState :=
  { appD3DDevice := some 1, appD3DContext := some 2, cs := some 10, constCB := some 11,
    debugCB := some 12, sharpness := 3 / 2, shaderInitAttempted := true,
    levelsEnabled := true, levelsGamma := 22 / 10, levelsCS := some 13, levelsCB := some 14 }

/-- The layer with session 1 = `levelsSession`, and swapchain 7 with three
images (textures 50, 51, 52) of which image 1 was released last. -/
def levelsLayer : OpenXrLayer :=
  { m_sessions := fun k => if k = 1 then some levelsSession else none,
    m_acquired := fun k => if k = 7 then some [2] else none,
    m_lastReleased := fun k => if k = 7 then some (some 1) else none,
    m_swapchainImages := fun k => if k = 7 then some [some 50, some 51, some 52] else none }

/-- A frame environment in which every call succeeds and every texture is `colorDesc`. -/
def frameAllOk : FrameEnv :=
  { dispatch := fun _ => dispatchAllOk, enumerate := fun _ => none, getDesc := fun _ => colorDesc }

/-- A first `dispatchCas` call on a new session and an empty pool, for the left view. -/
def firstRequest : DispatchResult :=
  dispatchCas dispatchAllOk ⟨100⟩ freshSession 7 50 colorDesc leftView (fun _ => none)

/-- The next call, for the right view of the same texture. -/
def secondRequest : DispatchResult :=
  dispatchCas dispatchAllOk firstRequest.device firstRequest.state 7 50 colorDesc rightView
    firstRequest.pool

/-- The next call instead made on a texture 2048 wide. -/
def resizedRequest : DispatchResult :=
  dispatchCas dispatchAllOk firstRequest.device firstRequest.state 7 51
    { colorDesc with Width := 2048 } rightView firstRequest.pool

/-- The session of the scenario: sharpness 1.5, a device, the primary shader
`c`, Levels enabled with shader `lc` and constant buffer `lb`, FakeHDR off. -/
def LevelsScenario (st : SessionState) (c lc lb : Handle) : Prop :=
  st.sharpness = 3 / 2 ∧ st.appD3DDevice.isSome = true ∧ st.cs = some c ∧
  st.levelsEnabled = true ∧ st.levelsCS = some lc ∧ st.levelsCB = some lb ∧
  st.fakeHdrEnabled = false

/-- The pool entry of key `k` is absent, or has its output texture whenever it
has its input texture. -/
def entryComplete (pool : TempPool) (k : Nat) : Bool :=
  match pool k with
  | none => true
  | some slot => !slot.input.isSome || slot.output.isSome

/-- A new session with sharpness `2^32`. -/
def hugeSharpnessSession : SessionState := { freshSession with sharpness := 4294967296 }

/-! ## Reading a frame -/

/-- The forwarding call of line 1102. -/
def FrameCall.isRuntimeEndFrame : FrameCall → Bool
  | FrameCall.runtimeEndFrame _ _ => true
  | _ => false

/-- The texture `dispatchCas` was called on for a view; none when it was not called. -/
def ViewOutcome.source : ViewOutcome → Option Handle
  | ViewOutcome.dispatched source _ _ _ _ => some source
  | _ => none

/-- An entry of the layer list that is a projection layer. -/
def isProjection : Option Layer → Bool
  | some (Layer.projection _) => true
  | _ => false

/-- The texture list a frame works with for a swapchain: the cached list, and
without one the list of the fallback enumeration. -/
def availableImages (env : FrameEnv) (L : OpenXrLayer) (swapchain : Nat) :
    Option (List ComPtr) :=
  match L.m_swapchainImages swapchain with
  | some images => some images
  | none => env.enumerate swapchain

/-- The texture of a view that has a last-released index `i`, a texture list
longer than `i` and a non-null texture at `i`; none for any other view. -/
def eligibleTexture (env : FrameEnv) (L : OpenXrLayer) (sub : XrSwapchainSubImage) :
    Option Handle :=
  match L.m_lastReleased sub.swapchain with
  | some (some i) =>
    match availableImages env L sub.swapchain with
    | some images => if i < images.length then images.getD i none else none
    | none => none
  | _ => none

/-- The exception is raised in the last call of the body of the loop. -/
def RaisePoint.isInCall : RaisePoint → Bool
  | RaisePoint.inCall _ => true
  | _ => false

/-- The views, numbered from `vi`, whose processing gets to the last call of
the body (`dispatchCas`, or the `Log` call of a skip): the views before the
first view whose processing raises an exception, and that view too when its
exception is raised in that call. -/
def reachedViews (env : FrameEnv) : Nat → List XrSwapchainSubImage → List XrSwapchainSubImage
  | _, [] => []
  | vi, sub :: rest =>
    if env.viewRaises vi then (if (env.raisePoint vi).isInCall then [sub] else [])
    else sub :: reachedViews env (vi + 1) rest

/-- The complete run of `dispatchCas` for the left view on session
`levelsSession`, as an exception raised in its last statement (the `Log` call
of line 688) leaves it. -/
def leftViewRun : DispatchResult :=
  dispatchCas dispatchAllOk ⟨100⟩ levelsSession 7 51 colorDesc leftView (fun _ => none)

/-- The frame environment `frameAllOk` in which the `dispatchCas` call of view 0
raises an exception in its last statement. -/
def firstDispatchRaises : FrameEnv :=
  { frameAllOk with viewRaises := fun vi => decide (vi = 0),
                    raisePoint := fun _ => RaisePoint.inCall leftViewRun }

/-- The layer `levelsLayer` with a composition framework on session 1. -/
def compositionLayer : OpenXrLayer :=
  { levelsLayer with
    m_sessions := fun k => if k = 1 then some { levelsSession with composition := true } else none }

/-- The frame environment `frameAllOk` in which `serializePreComposition` raises. -/
def preCompositionFails : FrameEnv := { frameAllOk with preCompositionRaises := true }

/-- The layer `levelsLayer` with a pool entry for slice 0 of swapchain 7:
textures 200 and 201 of 1024x512. -/
def pooledLayer : OpenXrLayer :=
  { levelsLayer with
    m_tempPool := fun k =>
      if k = makeTempKey 7 0 then
        some { input := some 200, output := some 201, width := 1024, height := 512,
               format := DXGI_FORMAT_R8G8B8A8_UNORM_SRGB }
      else none }

/-! ## Successive calls on one session -/

/-- Successive `ensureCasObjects` calls on one session, each with its own
outcomes of the external calls. -/
def ensureCasObjectsCalls : List EnsureEnv → Device → SessionState → List EnsureResult
  | [], _, _ => []
  | env :: rest, d, s =>
    let r := ensureCasObjects env d s
    r :: ensureCasObjectsCalls rest r.device r.state

/-- The arguments of one `dispatchCas` call, with the outcomes of its external calls. -/
structure DispatchCall where
  env : DispatchEnv
  swapchain : Nat
  source : Handle
  td : D3D11_TEXTURE2D_DESC
  sub : XrSwapchainSubImage

/-- Successive `dispatchCas` calls on one session and one pool; each call is
listed with what it left behind. -/
def dispatchCasCalls :
    List DispatchCall → Device → SessionState → TempPool → List (DispatchCall × DispatchResult)
  | [], _, _, _ => []
  | c :: rest, d, s, pool =>
    let r := dispatchCas c.env d s c.swapchain c.source c.td c.sub pool
    (c, r) :: dispatchCasCalls rest r.device r.state r.pool

/-- The primary shader can be created: from `CAS.cso`, or compiled from `CAS.hlsl`. -/
def primaryBuilds (env : EnsureEnv) : Bool :=
  (env.csoExists && env.csoBytesNonEmpty && env.csoCreateOk) ||
  ((env.loadCompilerSystem || env.loadCompilerLocal) && env.getProcOk && env.compileCasOk
    && env.blobCreateOk)

/-- The Levels shader can be compiled and created. -/
def levelsBuilds (env : EnsureEnv) : Bool :=
  env.levelsLoadCompiler && env.levelsGetProcOk && env.levelsCompileOk && env.levelsCreateOk

/-- The FakeHDR shader can be compiled and created. -/
def fakeHdrBuilds (env : EnsureEnv) : Bool :=
  env.fakeHdrLoadCompiler && env.fakeHdrGetProcOk && env.fakeHdrCompileOk && env.fakeHdrCreateOk

/-- The test of line 598: the FakeHDR pass runs. -/
def fakeHdrActive (s : SessionState) : Bool :=
  s.fakeHdrEnabled && s.fakeHdrCS.isSome && s.fakeHdrCB.isSome

/-- The test of line 637: the Levels pass runs. -/
def levelsActive (s : SessionState) : Bool :=
  s.levelsEnabled && s.levelsCS.isSome && s.levelsCB.isSome

/-- A session of a non-D3D11 application, as `xrCreateSession` registers it. -/
def noDeviceSession : SessionState := {}

/-- Neither `CAS.cso` nor a shader compiler is found. -/
def primaryShaderFails : EnsureEnv :=
  { ensureAllOk with csoExists := false, loadCompilerSystem := false,
                     loadCompilerLocal := false }

/-- The state `s` is `s0` up to the two timing counters. -/
def sameObjects (s0 s : SessionState) : Prop :=
  ∃ n acc, s = { s0 with timingFrameCounter := n, timingAccumMs := acc }

/-- A call that passes the checks of `dispatchCas` and whose creations succeed:
a supported single-sampled source, both pool textures and the views of every
primary pass created. -/
def DispatchCall.succeeds (c : DispatchCall) : Prop :=
  supported c.td.Format = true ∧ c.td.SampleCount = 1 ∧
  c.env.createInputOk = true ∧ c.env.createOutputOk = true ∧
  ∀ pass, c.env.srvOk pass = true ∧ c.env.uavOk pass = true

/-- The compiler for `Levels.hlsl` fails; everything else succeeds. -/
def levelsCompileFails : EnsureEnv := { ensureAllOk with levelsCompileOk := false }

/-- A new session with Levels and FakeHDR enabled in the configuration. -/
def bothEnabledSession : SessionState :=
  { freshSession with levelsEnabled := true, fakeHdrEnabled := true }

/-- What every later `dispatchCas` call on the session state `st` does, when
`secondary` are the dispatches of the secondary passes: the state keeps its
objects and flags; a completed call copies the source into a pool texture,
runs every primary pass, then `secondary`, and copies the result back; a call
that returns early runs nothing, or the copy-in and some primary passes; and
calls that pass the checks with their creations succeeding, on a pool without
half-created entries, complete. -/
def LaterDispatches (d : Device) (st : SessionState) (secondary : List Step) : Prop :=
  ∀ (calls : List DispatchCall) (pool : TempPool),
    (∀ x ∈ dispatchCasCalls calls d st pool,
      sameObjects st x.2.state ∧
      (x.2.completed = true →
        ∃ a final, steps none x.2.cmds
          = Step.copy a (some x.1.source) ::
            (List.replicate (totalPasses x.1.env.intOverflow st.sharpness).toNat
                (Step.run st.cs) ++ secondary ++ [Step.copy (some x.1.source) final])) ∧
      (x.2.completed = false →
        steps none x.2.cmds = [] ∨
        ∃ a k, k ≤ (totalPasses x.1.env.intOverflow st.sharpness).toNat ∧
          steps none x.2.cmds
            = Step.copy a (some x.1.source) :: List.replicate k (Step.run st.cs))) ∧
    ((∀ c ∈ calls, c.succeeds) → (∀ k, entryComplete pool k = true) →
      ∀ x ∈ dispatchCasCalls calls d st pool, x.2.completed = true)

/-! ## The config file format as the specification words it -/

/-- A line that defines key `k`: after trimming it is non-empty, does not begin
with `#` or `;`, contains `=`, and its text before the first `=`, trimmed and
lower-cased, is `k`. -/
def lineDefines (k : Str) (line : Str) : Bool :=
  let t := trim line
  !t.isEmpty && !(t.head? == some '#' || t.head? == some ';') && t.any (fun ch => ch == '=')
    && decide ((trim (t.takeWhile (fun ch => ch != '='))).map tolower = k)

/-- The value of a `key=value` line: the trimmed text after the first `=` of the trimmed line. -/
def lineValue (line : Str) : Str :=
  trim (((trim line).dropWhile (fun ch => ch != '=')).drop 1)

/-- A blank line, a comment line, or a line without `=`. -/
def lineIgnored (line : Str) : Bool :=
  let t := trim line
  t.isEmpty || t.head? == some '#' || t.head? == some ';' || !t.any (fun ch => ch == '=')

/-- A config text with blank lines, comments, a line without `=`, a key in
upper case with spaces around key and value, and a second `sharpness` line. -/
def sampleConfigText : Str :=
  "\n# comment\n; other\nno equals here\n  SharpNess =  0.8  \nsharpness=0.3\nmode = a=b\n".toList

/-- A numeric text of 65 characters with value 3.5: 62 zeros and `3.5`. -/
def paddedSharpnessText : Str := List.replicate 62 '0' ++ "3.5".toList

/-- A host whose `XR_CAS_SHARPNESS` is `paddedSharpnessText` and which has no config file. -/
def paddedEnvHost : Host :=
  { getenv := fun name =>
      if name = "XR_CAS_SHARPNESS".toList then some paddedSharpnessText else none,
    localAppDataCfg := none, dllHomeCfg := none,
    stof := stofDecimal, stoi := stoiDecimal }

/-- A host with `XR_CAS_SHARPNESS=-2.5` and no config file. -/
def negativeEnvHost : Host :=
  { getenv := fun name => if name = "XR_CAS_SHARPNESS".toList then some "-2.5".toList else none,
    localAppDataCfg := none, dllHomeCfg := none,
    stof := stofDecimal, stoi := stoiDecimal }

/-! ## The default config file (lines 764-808 of xrCreateInstance) -/

/-- The FakeHDR section, as lines 783-787 and 798-802 write it. -/
def fakeHdrDefaultsText : Str :=
  ("\n# Optional FakeHDR pass (applied after CAS, before Levels)\n" ++
   "fakehdr_enable=0\n" ++
   "fakehdr_power=1.30\n" ++
   "fakehdr_radius1=0.793\n" ++
   "fakehdr_radius2=0.87\n").toList

/-- The text lines 770-787 write into a new per-user `config.cfg`. -/
def defaultConfigText : Str :=
  ("# OpenXR CAS Layer configuration\n" ++
   "# Sharpening strength (>=0). Values >1.0 apply multiple CAS passes.\n" ++
   "sharpness=0.6\n" ++
   "\n# Debug overlay (0/1) and number of frames for border/overlay\n" ++
   "debug_overlay=0\n" ++
   "debug_frames=60\n" ++
   "\n# Optional Levels pass (applied after CAS)\n" ++
   "levels_enable=0\n" ++
   "levels_in_black=0.0\n" ++
   "levels_in_white=1.0\n" ++
   "levels_out_black=0.0\n" ++
   "levels_out_white=1.0\n" ++
   "levels_gamma=1.0\n").toList ++ fakeHdrDefaultsText

/-- The search `existing.find(needle) != npos`. -/
def containsText (needle : Str) : Str → Bool
  | [] => needle.isEmpty
  | c :: rest => needle.isPrefixOf (c :: rest) || containsText needle rest

/-- Lines 764-808: the per-user config file after `xrCreateInstance`.
`existing` is its text before the call, `none` when it does not exist;
`writable` tells whether the output stream opens.  A missing file is written
with the defaults; an existing file without the text `fakehdr_enable` gets
the FakeHDR section appended. -/
def ensureDefaultConfig (existing : Option Str) (writable : Bool) : Option Str :=
  match existing with
  | none => if writable then some defaultConfigText else none
  | some text =>
    if !containsText "fakehdr_enable".toList text then
      if writable then some (text ++ fakeHdrDefaultsText) else some text
    else some text

/-- The 13 keys of the config file with the text the default file gives them. -/
def defaultConfigEntries : List (Str × Str) :=
  [("sharpness".toList, "0.6".toList),
   ("debug_overlay".toList, "0".toList),
   ("debug_frames".toList, "60".toList),
   ("levels_enable".toList, "0".toList),
   ("levels_in_black".toList, "0.0".toList),
   ("levels_in_white".toList, "1.0".toList),
   ("levels_out_black".toList, "0.0".toList),
   ("levels_out_white".toList, "1.0".toList),
   ("levels_gamma".toList, "1.0".toList),
   ("fakehdr_enable".toList, "0".toList),
   ("fakehdr_power".toList, "1.30".toList),
   ("fakehdr_radius1".toList, "0.793".toList),
   ("fakehdr_radius2".toList, "0.87".toList)]

/-- A host without environment variables whose per-user config file is the
one `xrCreateInstance` has written; `dll` is the per-install file. -/
def generatedConfigHost (dll : Option Str) : Host :=
  { getenv := fun _ => none,
    localAppDataCfg := ensureDefaultConfig none true,
    dllHomeCfg := dll,
    stof := stofDecimal, stoi := stoiDecimal }

/-- A host without environment variables and without config files. -/
def bareHost : Host :=
  { getenv := fun _ => none, localAppDataCfg := none, dllHomeCfg := none,
    stof := stofDecimal, stoi := stoiDecimal }

/-- The host `debugEnvHost` (`XR_CAS_DEBUG_FRAMES=5`, `XR_CAS_DEBUG_OVERLAY=1`)
with the per-user config file `xrCreateInstance` has written. -/
def debugEnvGeneratedHost : Host :=
  { debugEnvHost with localAppDataCfg := ensureDefaultConfig none true }

/-! ## Format families -/

/-- The TYPELESS member of the family of a whitelisted format; the format
itself for `R16G16B16A16_FLOAT`, which has no family here. -/
def typelessMember (f : DXGI_FORMAT) : DXGI_FORMAT :=
  if f = DXGI_FORMAT_R8G8B8A8_UNORM ∨ f = DXGI_FORMAT_R8G8B8A8_UNORM_SRGB
      ∨ f = DXGI_FORMAT_R8G8B8A8_TYPELESS then DXGI_FORMAT_R8G8B8A8_TYPELESS
  else if f = DXGI_FORMAT_B8G8R8A8_UNORM ∨ f = DXGI_FORMAT_B8G8R8A8_UNORM_SRGB
      ∨ f = DXGI_FORMAT_B8G8R8A8_TYPELESS then DXGI_FORMAT_B8G8R8A8_TYPELESS
  else if f = DXGI_FORMAT_B8G8R8X8_UNORM ∨ f = DXGI_FORMAT_B8G8R8X8_UNORM_SRGB
      ∨ f = DXGI_FORMAT_B8G8R8X8_TYPELESS then DXGI_FORMAT_B8G8R8X8_TYPELESS
  else DXGI_FORMAT_R16G16B16A16_FLOAT

/-- The UNORM member of the family of a whitelisted format; the format itself
for `R16G16B16A16_FLOAT`. -/
def unormMember (f : DXGI_FORMAT) : DXGI_FORMAT :=
  if f = DXGI_FORMAT_R8G8B8A8_UNORM ∨ f = DXGI_FORMAT_R8G8B8A8_UNORM_SRGB
      ∨ f = DXGI_FORMAT_R8G8B8A8_TYPELESS then DXGI_FORMAT_R8G8B8A8_UNORM
  else if f = DXGI_FORMAT_B8G8R8A8_UNORM ∨ f = DXGI_FORMAT_B8G8R8A8_UNORM_SRGB
      ∨ f = DXGI_FORMAT_B8G8R8A8_TYPELESS then DXGI_FORMAT_B8G8R8A8_UNORM
  else if f = DXGI_FORMAT_B8G8R8X8_UNORM ∨ f = DXGI_FORMAT_B8G8R8X8_UNORM_SRGB
      ∨ f = DXGI_FORMAT_B8G8R8X8_TYPELESS then DXGI_FORMAT_B8G8R8X8_UNORM
  else DXGI_FORMAT_R16G16B16A16_FLOAT

/-- An sRGB or TYPELESS format of the whitelist. -/
def isSrgbOrTypeless (f : DXGI_FORMAT) : Bool :=
  f == DXGI_FORMAT_R8G8B8A8_UNORM_SRGB || f == DXGI_FORMAT_R8G8B8A8_TYPELESS ||
  f == DXGI_FORMAT_B8G8R8A8_UNORM_SRGB || f == DXGI_FORMAT_B8G8R8A8_TYPELESS ||
  f == DXGI_FORMAT_B8G8R8X8_UNORM_SRGB || f == DXGI_FORMAT_B8G8R8X8_TYPELESS

/-- A texture creation uses format `res`, a view creation format `view`. -/
def DevCall.formatsAre (res view : DXGI_FORMAT) : DevCall → Bool
  | DevCall.createTexture2D desc _ => desc.Format == res
  | DevCall.createShaderResourceView _ f _ => f == view
  | DevCall.createUnorderedAccessView _ f _ => f == view
  | _ => true

/-- The subresource indices of texture `t` that the copies of a command list
address, in order: the source subresource of a copy out of `t` and the
destination subresource of a copy into `t`. -/
def subresourcesOf (t : Handle) : List Cmd → List Nat
  | [] => []
  | Cmd.copySubresourceRegion dst dstSubresource _ _ _ src srcSubresource _ :: rest =>
    (if src = some t then [srcSubresource] else []) ++
    (if dst = some t then [dstSubresource] else []) ++ subresourcesOf t rest
  | _ :: rest => subresourcesOf t rest

/-- A four-slice texture array with three mip levels per slice. -/
def threeMipArrayDesc : D3D11_TEXTURE2D_DESC := { colorDesc with MipLevels := 3, ArraySize := 4 }

/-- All of slice 2 of swapchain 7. -/
def sliceTwoView : XrSwapchainSubImage :=
  { swapchain := 7, offsetX := 0, offsetY := 0, extentWidth := 1024, extentHeight := 512,
    imageArrayIndex := 2 }

/-- The keys of the Levels section of the config file. -/
def levelsKeys : List Str :=
  ["levels_enable".toList, "levels_in_black".toList, "levels_in_white".toList,
   "levels_out_black".toList, "levels_out_white".toList, "levels_gamma".toList]

/-- The keys of the FakeHDR section of the config file. -/
def fakeHdrKeys : List Str :=
  ["fakehdr_enable".toList, "fakehdr_power".toList, "fakehdr_radius1".toList,
   "fakehdr_radius2".toList]

/-- The config text defines none of the keys. -/
def lacksKeys (keys : List Str) (text : Str) : Bool :=
  keys.all (fun k => (tryReadConfigValueFromFile (some text) k).isNone)

/-- A per-user config file written before the Levels section existed, to
which the FakeHDR section was added by hand. -/
def configWithoutLevels : Str := "sharpness=0.8\nfakehdr_enable=1\nfakehdr_power=1.5\n".toList

/-- A per-user config file with the sharpness only. -/
def sharpnessOnlyConfig : Str := "sharpness=0.8\n".toList

/-- A per-user config file that names `fakehdr_enable` in a comment line only. -/
def commentedFakeHdrConfig : Str := "sharpness=0.8\n# fakehdr_enable=1 is not set\n".toList

/-! ## Reading the dispatches of a command list -/

/-- What is bound when a dispatch is issued: the compute shader, the views in
slot 0, and whether the begin timestamp was issued and the end timestamp not yet. -/
structure Bindings where
  shader : ComPtr := none
  srv : Option View := none
  uav : Option View := none
  timed : Bool := false
  deriving DecidableEq

/-- One dispatch: the shader, the texture read through the shader-resource
view, the texture written through the unordered-access view (null when no
view is bound), whether it lies inside the timed bracket, and the group counts. -/
structure DispatchRecord where
  shader : ComPtr
  read : ComPtr
  write : ComPtr
  timed : Bool
  groups : Nat × Nat × Nat
  deriving DecidableEq

/-- The resource of a bound view; null when the slot holds no view. -/
def boundResource (v : Option View) : ComPtr := v.bind (fun w => w.resource)

/-- The dispatches of a command list, in order.  `qb` and `qe` are the queries
of the begin and the end timestamp: `End(qb)` opens the timed bracket and
`End(qe)` closes it. -/
def dispatchLog (qb qe : ComPtr) : Bindings → List Cmd → List DispatchRecord
  | _, [] => []
  | st, c :: rest =>
    match c with
    | Cmd.csSetShader sh => dispatchLog qb qe { st with shader := sh } rest
    | Cmd.csSetShaderResources slot v =>
      dispatchLog qb qe (if slot = 0 then { st with srv := v } else st) rest
    | Cmd.csSetUnorderedAccessViews slot v =>
      dispatchLog qb qe (if slot = 0 then { st with uav := v } else st) rest
    | Cmd.queryEnd q =>
      dispatchLog qb qe
        { st with timed := if q = qb then true else if q = qe then false else st.timed } rest
    | Cmd.dispatch x y z =>
      { shader := st.shader, read := boundResource st.srv, write := boundResource st.uav,
        timed := st.timed, groups := (x, y, z) } :: dispatchLog qb qe st rest
    | _ => dispatchLog qb qe st rest

/-- The textures read and written by `n` ping-pong passes that start with
read `a` and write `b`. -/
def alternating (n : Nat) (a b : ComPtr) : List (ComPtr × ComPtr) :=
  (List.range n).map (fun i => if i % 2 = 0 then (a, b) else (b, a))

/-- Commands that leave the bindings and the timed bracket alone and dispatch nothing. -/
def Cmd.isPlain : Cmd → Bool
  | Cmd.csSetShader _ => false
  | Cmd.csSetShaderResources _ _ => false
  | Cmd.csSetUnorderedAccessViews _ _ => false
  | Cmd.queryEnd _ => false
  | Cmd.dispatch _ _ _ => false
  | _ => true

/-- The expression of lines 612 and 652: the pool texture that is not `t`. -/
def otherTexture (slot : TempTextures) (t : ComPtr) : ComPtr :=
  if t = slot.input then slot.output else slot.input

/-- The test of lines 500 and 569: the three timing queries exist. -/
def timingQueriesExist (s : SessionState) : Bool :=
  s.qDisjoint.isSome && s.qBegin.isSome && s.qEnd.isSome

/-- The source texture of the last command of a list when that is a copy. -/
def lastCopySource (cmds : List Cmd) : Option ComPtr :=
  match cmds.getLast? with
  | some (Cmd.copySubresourceRegion _ _ _ _ _ src _ _) => some src
  | _ => none

/-- Follow a list of dispatches over the two pool textures `a` and `b` from
the texture `cur`: each dispatch must read the texture the chain is at and
write the other pool texture, which the chain is at afterwards.  The result
is the texture the chain ends at, `none` when a dispatch breaks the chain. -/
def followChain (a b : ComPtr) : ComPtr → List DispatchRecord → Option ComPtr
  | cur, [] => some cur
  | cur, r :: rest =>
    if r.read = cur ∧ r.write = (if cur = a then b else a) ∧ r.read ≠ r.write then
      followChain a b r.write rest
    else none

/-- The expression of lines 437-438 and 514-515: the extent of the
sub-rectangle, or the full size of the texture when the extent is zero. -/
def copyExtent (extent : Int) (full : Nat) : Nat := if extent ≠ 0 then toUINT extent else full

/-- The expression of lines 526-527: `(extent + 15) / 16` in `UINT` arithmetic. -/
def groupCount (extent : Nat) : Nat := addUINT extent 15 / 16

/-- The texture `readTex` after `n` completed primary passes on the entry `slot`. -/
def primaryFinal (n : Nat) (slot : TempTextures) : ComPtr :=
  if n % 2 = 0 then slot.input else slot.output

/-- The texture `casFinalTex` after the FakeHDR block, when it was `t` before. -/
def fakeHdrFinal (s : SessionState) (slot : TempTextures) (t : ComPtr) : ComPtr :=
  if fakeHdrActive s = true then otherTexture slot t else t

/-- The texture `casFinalTex` after the Levels block, when it was `t` before. -/
def levelsFinal (s : SessionState) (slot : TempTextures) (t : ComPtr) : ComPtr :=
  if levelsActive s = true then
    (if otherTexture slot t = slot.input then slot.input else slot.output)
  else t

/-- A pool entry with input texture 200 and output texture 201. -/
def twoTextures : TempTextures :=
  { input := some 200, output := some 201, width := 1024, height := 512,
    format := DXGI_FORMAT_R8G8B8A8_UNORM_SRGB }

/-- The session `levelsSession` with its three timing queries 15, 16 and 17. -/
def timedLevelsSession : SessionState :=
  { levelsSession with qDisjoint := some 15, qBegin := some 16, qEnd := some 17 }

/-- Every call succeeds except `CreateShaderResourceView` in the Levels pass. -/
def levelsSrvFails : DispatchEnv := { dispatchAllOk with levelsSrvOk := false }

/-! ## Extents and group counts as the specification words them -/

/-- The count `g` is the least with `16 * g ≥ extent`, that is `ceil(extent / 16)`. -/
def IsLeastGroupCount (extent g : Nat) : Prop :=
  extent ≤ 16 * g ∧ ∀ k, extent ≤ 16 * k → g ≤ k

/-- The command uses the extent `W x H`: a dispatch has the group counts
`(ceil(W/16), ceil(H/16), 1)`, the box of a copy is `W` wide and `H` high (in
`UINT` arithmetic), and the sub-rectangle constants written for the primary
passes (`DebugCB`) and for the FakeHDR pass hold the extent `(W, H)`. -/
def Cmd.UsesExtent (W H : Nat) : Cmd → Prop
  | Cmd.dispatch x y z => IsLeastGroupCount W x ∧ IsLeastGroupCount H y ∧ z = 1
  | Cmd.copySubresourceRegion _ _ _ _ _ _ _ box =>
    box.right = addUINT box.left W ∧ box.bottom = addUINT box.top H
  | Cmd.memcpy _ (CBData.debug _ _ _ extx exty) => extx = W ∧ exty = H
  | Cmd.memcpy _ (CBData.fakeHdr _ _ _ _ _ extx exty) => extx = W ∧ exty = H
  | _ => True

/-! ## A pool entry left half-created -/

/-- The texture `colorDesc` made 2048 wide. -/
def wideDesc : D3D11_TEXTURE2D_DESC := { colorDesc with Width := 2048 }

/-- Every call succeeds except `CreateTexture2D` for the output texture. -/
def outputCreationFails : DispatchEnv := { dispatchAllOk with createOutputOk := false }

/-- Three calls for slice 0 of swapchain handle 7: on a 1024x512 texture, then on
a 2048x512 texture with the creation of the output texture failing, then on
the 1024x512 texture again. -/
def staleEntryCalls : List DispatchCall :=
  [{ env := dispatchAllOk, swapchain := 7, source := 50, td := colorDesc, sub := leftView },
   { env := outputCreationFails, swapchain := 7, source := 51, td := wideDesc, sub := leftView },
   { env := dispatchAllOk, swapchain := 7, source := 50, td := colorDesc, sub := leftView }]

/-! ## The timing read-back of a run -/

/-- The elapsed time the read-back of lines 572-576 yields: `some ms` when the
three `GetData` calls return `S_OK` and the result is not disjoint. -/
def elapsedMs (env : DispatchEnv) : Option ℚ :=
  match env.disjointData, env.t0, env.t1 with
  | some (false, frequency), some t0, some t1 =>
    some ((((t1 + 18446744073709551616 - t0 % 18446744073709551616)
      % 18446744073709551616 : Nat) : ℚ) / (frequency : ℚ) * 1000)
  | _, _, _ => none

/-- The elapsed time of a run that counts: the run reaches the timing block with
the three queries existing, and its read-back succeeds with a non-disjoint
result. -/
def countedMs (x : DispatchCall × DispatchResult) : Option ℚ :=
  if x.2.completed = true ∧ timingQueriesExist x.2.state = true then elapsedMs x.1.env
  else none

/-- The elapsed times of the runs that count, newest first. -/
def countedTimes (runs : List (DispatchCall × DispatchResult)) : List ℚ :=
  (runs.filterMap countedMs).reverse

/-- Every call succeeds and the timing data is ready: a non-disjoint result at
1000 ticks per second, and timestamps 100 and 105. -/
def timingReadyEnv : DispatchEnv :=
  { dispatchAllOk with disjointData := some (false, 1000), t0 := some 100, t1 := some 105 }

/-- One call with `timingReadyEnv`, for the left view of swapchain 7. -/
def timedCall : DispatchCall :=
  { env := timingReadyEnv, swapchain := 7, source := 50, td := colorDesc, sub := leftView }

/-! # Theorems -/

/-! ## Pass count -/

theorem floatToInt_in_range (oor x : Int) (h0 : -2147483648 ≤ x) (h1 : x ≤ 2147483647) :
    floatToInt oor x = x := by
  unfold floatToInt
  rw [if_pos ⟨h0, h1⟩]

/-- Below `2^31` the pass count of the code is the one of the specification,
whatever an out-of-range conversion would give.  (At the `float` `2^31` the
subtraction of line 532 rounds `s - 1` up to `2^31`, which is out of the range
of `int`; the bound leaves that value out.) -/
theorem totalPasses_in_range (oor : Int) (s : ℚ) (h : s < 2147483648) :
    totalPasses oor s = specPassCount s := by
  unfold totalPasses specPassCount
  by_cases h1 : s > 1
  · have hf0 : (0 : Int) ≤ ⌊s - 1⌋ := Int.floor_nonneg.mpr (by linarith)
    have hf1 : ⌊s - 1⌋ ≤ 2147483647 := by
      have : ⌊s - 1⌋ < 2147483648 := Int.floor_lt.mpr (by push_cast; linarith)
      omega
    rw [if_pos h1, floatToInt_in_range oor _ (by omega) hf1]
    dsimp only
    split_ifs <;> omega
  · have hf : ⌊s - 1⌋ ≤ 0 := by
      have : ⌊s - 1⌋ < 1 := Int.floor_lt.mpr (by push_cast; linarith)
      omega
    rw [if_neg h1]
    omega

/-- The pass count is between 1 and 4 for every sharpness and every conversion result. -/
theorem totalPasses_bounds (oor : Int) (s : ℚ) :
    1 ≤ totalPasses oor s ∧ totalPasses oor s ≤ 4 := by
  unfold totalPasses
  dsimp only
  split_ifs <;> constructor <;> omega

theorem totalPasses_of_le_one (oor : Int) (s : ℚ) (h : s ≤ 1) : totalPasses oor s = 1 := by
  unfold totalPasses
  rw [if_neg (not_lt.mpr h)]

theorem totalPasses_of_lt_two (oor : Int) (s : ℚ) (h : s < 2) : totalPasses oor s = 1 := by
  rw [totalPasses_in_range oor s (by linarith)]
  unfold specPassCount
  have : ⌊s - 1⌋ < 1 := Int.floor_lt.mpr (by push_cast; linarith)
  omega

/-- C1 (at the failing input): for sharpness `2^32` the value `floorf(s - 1)` is
outside the range of `int`; with the x64 conversion result `INT_MIN` the code
clamps the extra passes to 0 and computes 1 pass, where the specification's
`1 + clamp(floor(s - 1), 0, 3)` is 4; a `dispatchCas` run that passes all checks
then issues 1 dispatch of the primary shader (object 100). -/
theorem totalPasses_huge_sharpness :
    totalPasses (-2147483648) 4294967296 = 1 ∧ specPassCount 4294967296 = 4 ∧
    countRuns (some 100) (steps none
      (dispatchCas dispatchAllOk ⟨100⟩ hugeSharpnessSession 7 50 colorDesc leftView
        (fun _ => none)).cmds) = 1 := by
  have h : totalPasses (-2147483648) 4294967296 = 1 := by
    unfold totalPasses floatToInt
    norm_num [Int.floor_eq_iff]
  refine ⟨h, ?_, ?_⟩
  · unfold specPassCount
    have : ⌊(4294967296 : ℚ) - 1⌋ = 4294967295 := by
      rw [Int.floor_eq_iff]; norm_num
    rw [this]; decide
  · simp [dispatchCas, runPassChain, ensureCasObjects, createPrimaryShader, createLevelsShader,
      createFakeHdrShader, createTimingQueries, Device.create, ensureAllOk, dispatchAllOk,
      hugeSharpnessSession, freshSession, colorDesc, leftView, supported, acquireTempTextures, h,
      primaryPasses, timingEnd, fakeHdrPass, levelsPass, updateBuffer, steps, countRuns]

theorem supported_iff (f : DXGI_FORMAT) :
    supported f = true ↔
      f ∈ [DXGI_FORMAT_R8G8B8A8_UNORM, DXGI_FORMAT_R8G8B8A8_UNORM_SRGB,
           DXGI_FORMAT_R8G8B8A8_TYPELESS, DXGI_FORMAT_B8G8R8A8_UNORM,
           DXGI_FORMAT_B8G8R8A8_UNORM_SRGB, DXGI_FORMAT_B8G8R8A8_TYPELESS,
           DXGI_FORMAT_B8G8R8X8_UNORM, DXGI_FORMAT_B8G8R8X8_UNORM_SRGB,
           DXGI_FORMAT_B8G8R8X8_TYPELESS, DXGI_FORMAT_R16G16B16A16_FLOAT] := by
  simp [supported, or_assoc]

/-- C3: a source whose format is outside the ten-format whitelist, or whose
sample count is not 1, makes `dispatchCas` return with no device-context
command issued (so nothing is copied, dispatched or written to the source),
the temp pool unchanged, and no work beyond that of `ensureCasObjects`. -/
theorem dispatchCas_rejected_source_no_gpu_write (env : DispatchEnv) (d : Device)
    (s : SessionState) (swapchain : Nat) (source : Handle) (td : D3D11_TEXTURE2D_DESC)
    (sub : XrSwapchainSubImage) (tempPool : TempPool)
    (h : td.Format ∉ [DXGI_FORMAT_R8G8B8A8_UNORM, DXGI_FORMAT_R8G8B8A8_UNORM_SRGB,
           DXGI_FORMAT_R8G8B8A8_TYPELESS, DXGI_FORMAT_B8G8R8A8_UNORM,
           DXGI_FORMAT_B8G8R8A8_UNORM_SRGB, DXGI_FORMAT_B8G8R8A8_TYPELESS,
           DXGI_FORMAT_B8G8R8X8_UNORM, DXGI_FORMAT_B8G8R8X8_UNORM_SRGB,
           DXGI_FORMAT_B8G8R8X8_TYPELESS, DXGI_FORMAT_R16G16B16A16_FLOAT]
         ∨ td.SampleCount ≠ 1) :
    (dispatchCas env d s swapchain source td sub tempPool).cmds = [] ∧
    (dispatchCas env d s swapchain source td sub tempPool).pool = tempPool ∧
    (dispatchCas env d s swapchain source td sub tempPool).work
      = (ensureCasObjects env.ensure d s).work ∧
    (dispatchCas env d s swapchain source td sub tempPool).completed = false := by
  unfold dispatchCas
  dsimp only
  by_cases he : (ensureCasObjects env.ensure d s).ok = true
  · by_cases hs : supported td.Format = true
    · have hc : td.SampleCount ≠ 1 := by
        rcases h with h | h
        · exact absurd ((supported_iff _).mp hs) h
        · exact h
      simp [he, hs, hc]
    · simp [he, hs]
  · simp [he]

/-- C3 (witness): a four-sample source and an `R32G32B32A32_FLOAT` source. -/
theorem dispatchCas_rejected_source_no_gpu_write_witness :
    ((dispatchCas dispatchAllOk ⟨100⟩ freshSession 7 50 msaaDesc leftView (fun _ => none)).cmds
      = [] ∧
     (dispatchCas dispatchAllOk ⟨100⟩ freshSession 7 50 msaaDesc leftView (fun _ => none)).pool
      = (fun _ => none) ∧
     (dispatchCas dispatchAllOk ⟨100⟩ freshSession 7 50 msaaDesc leftView (fun _ => none)).work
      = (ensureCasObjects dispatchAllOk.ensure ⟨100⟩ freshSession).work ∧
     (dispatchCas dispatchAllOk ⟨100⟩ freshSession 7 50 msaaDesc leftView
        (fun _ => none)).completed = false) ∧
    (dispatchCas dispatchAllOk ⟨100⟩ freshSession 7 50 { colorDesc with Format := 2 } leftView
        (fun _ => none)).cmds = [] :=
  ⟨dispatchCas_rejected_source_no_gpu_write dispatchAllOk ⟨100⟩ freshSession 7 50 msaaDesc
      leftView (fun _ => none) (Or.inr (by decide)),
   (dispatchCas_rejected_source_no_gpu_write dispatchAllOk ⟨100⟩ freshSession 7 50
      { colorDesc with Format := 2 } leftView (fun _ => none) (Or.inl (by decide))).1⟩

/-! ## Copy-back target -/

/-- C4 (at the failing input): for slice 1 of a texture array with two mips per
slice, the only copy into the source texture goes to subresource 1, which is
mip 1 of slice 0; mip 0 of slice 1 is subresource 2. -/
theorem dispatchCas_copy_back_subresource_mip_array :
    copiesInto 50 (dispatchCas dispatchAllOk ⟨100⟩ freshSession 7 50 mipArrayDesc sliceOneView
        (fun _ => none)).cmds
      = [Cmd.copySubresourceRegion (some 50) 1 0 0 0 (some 107) 0
          { left := 0, top := 0, front := 0, right := 1024, bottom := 512, back := 1 }] ∧
    D3D11CalcSubresource 0 sliceOneView.imageArrayIndex mipArrayDesc.MipLevels = 2 ∧
    subresourceArraySlice 1 mipArrayDesc.MipLevels = 0 ∧
    subresourceMipSlice 1 mipArrayDesc.MipLevels = 1 := by
  have h : totalPasses (-2147483648) (6 / 10) = 1 := totalPasses_of_le_one _ _ (by norm_num)
  refine ⟨?_, by decide, by decide, by decide⟩
  simp [dispatchCas, runPassChain, ensureCasObjects, createPrimaryShader, createLevelsShader,
    createFakeHdrShader, createTimingQueries, Device.create, ensureAllOk, dispatchAllOk,
    freshSession, mipArrayDesc, colorDesc, sliceOneView, supported, acquireTempTextures, h,
    primaryPasses, timingEnd, fakeHdrPass, levelsPass, toUINT, addUINT, D3D11CalcSubresource,
    UINT_MOD, updateBuffer, copiesInto]

/-! ## Swapchain image tracker -/

theorem applyCalls_cons (L : OpenXrLayer) (c : SwapchainCall) (rest : List SwapchainCall) :
    applyCalls L (c :: rest) = applyCalls (applyCall L c) rest := rfl

theorem applyCalls_tracker (sc : Nat) (calls : List SwapchainCall) :
    ∀ L : OpenXrLayer,
      releasesFollowAcquires sc ((L.m_acquired sc).getD []).length calls = true →
      ((applyCalls L calls).m_acquired sc).getD []
          = ((L.m_acquired sc).getD [] ++ acquiredIndices sc calls).drop (releaseCount sc calls) ∧
      releaseCount sc calls ≤ ((L.m_acquired sc).getD [] ++ acquiredIndices sc calls).length ∧
      (0 < releaseCount sc calls →
        (applyCalls L calls).m_lastReleased sc
          = some (((L.m_acquired sc).getD [] ++ acquiredIndices sc calls)[releaseCount sc calls - 1]?)) ∧
      (releaseCount sc calls = 0 →
        (applyCalls L calls).m_lastReleased sc = L.m_lastReleased sc) := by
  induction calls with
  | nil =>
    intro L _
    simp [applyCalls, acquiredIndices, releaseCount]
  | cons c rest ih =>
    intro L h
    rw [applyCalls_cons]
    cases c with
    | acquire r sc' index =>
      by_cases hc : XR_SUCCEEDED r = true ∧ sc' = sc
      · obtain ⟨hr, rfl⟩ := hc
        have hq : ((applyCall L (SwapchainCall.acquire r sc' index)).m_acquired sc').getD []
            = (L.m_acquired sc').getD [] ++ [index] := by
          simp [applyCall, xrAcquireSwapchainImage, hr, setKey]
        have hl : (applyCall L (SwapchainCall.acquire r sc' index)).m_lastReleased
            = L.m_lastReleased := by
          simp [applyCall, xrAcquireSwapchainImage, hr]
        have h' : releasesFollowAcquires sc'
            (((applyCall L (SwapchainCall.acquire r sc' index)).m_acquired sc').getD []).length
            rest = true := by
          rw [hq]
          simpa [releasesFollowAcquires, hr] using h
        have := ih _ h'
        rw [hq, hl] at this
        simpa [acquiredIndices, releaseCount, hr] using this
      · have hq : ((applyCall L (SwapchainCall.acquire r sc' index)).m_acquired sc)
            = L.m_acquired sc := by
          by_cases hr : XR_SUCCEEDED r = true
          · have hne : sc ≠ sc' := fun e => hc ⟨hr, e.symm⟩
            simp [applyCall, xrAcquireSwapchainImage, hr, setKey, hne]
          · simp [applyCall, xrAcquireSwapchainImage, hr]
        have hl : (applyCall L (SwapchainCall.acquire r sc' index)).m_lastReleased
            = L.m_lastReleased := by
          by_cases hr : XR_SUCCEEDED r = true <;> simp [applyCall, xrAcquireSwapchainImage, hr]
        have h' : releasesFollowAcquires sc
            (((applyCall L (SwapchainCall.acquire r sc' index)).m_acquired sc).getD []).length
            rest = true := by
          rw [hq]
          simpa [releasesFollowAcquires, hc] using h
        have := ih _ h'
        rw [hq, hl] at this
        simpa [acquiredIndices, releaseCount, hc] using this
    | release r sc' =>
      by_cases hc : XR_SUCCEEDED r = true ∧ sc' = sc
      · obtain ⟨hr, rfl⟩ := hc
        have hh : 0 < ((L.m_acquired sc').getD []).length ∧
            releasesFollowAcquires sc' (((L.m_acquired sc').getD []).length - 1) rest = true := by
          simpa [releasesFollowAcquires, hr] using h
        cases hq0 : (L.m_acquired sc').getD [] with
        | nil => rw [hq0] at hh; simp at hh
        | cons front q0 =>
          rw [hq0] at hh
          have hq : ((applyCall L (SwapchainCall.release r sc')).m_acquired sc').getD [] = q0 := by
            simp [applyCall, xrReleaseSwapchainImage, hr, hq0, setKey]
          have hl : (applyCall L (SwapchainCall.release r sc')).m_lastReleased sc'
              = some (some front) := by
            simp [applyCall, xrReleaseSwapchainImage, hr, hq0, setKey]
          have h' : releasesFollowAcquires sc'
              (((applyCall L (SwapchainCall.release r sc')).m_acquired sc').getD []).length
              rest = true := by
            rw [hq]
            simpa using hh.2
          obtain ⟨i1, i2, i3, i4⟩ := ih _ h'
          rw [hq] at i1 i2 i3
          rw [hl] at i4
          have hk : releaseCount sc' (SwapchainCall.release r sc' :: rest)
              = releaseCount sc' rest + 1 := by
            simp [releaseCount, hr]
          have ha : acquiredIndices sc' (SwapchainCall.release r sc' :: rest)
              = acquiredIndices sc' rest := rfl
          rw [hk, ha]
          refine ⟨?_, ?_, ?_, ?_⟩
          · simpa using i1
          · simp only [List.cons_append, List.length_cons]; omega
          · intro _
            by_cases hz : releaseCount sc' rest = 0
            · rw [i4 hz, hz]; simp
            · have hpos : 0 < releaseCount sc' rest := Nat.pos_of_ne_zero hz
              rw [i3 hpos]
              obtain ⟨m, hm⟩ : ∃ m, releaseCount sc' rest = m + 1 := ⟨_, (Nat.succ_pred_eq_of_pos hpos).symm⟩
              rw [hm]; simp
          · intro hz; omega
      · have hq : ((applyCall L (SwapchainCall.release r sc')).m_acquired sc)
            = L.m_acquired sc := by
          by_cases hr : XR_SUCCEEDED r = true
          · have hne : sc ≠ sc' := fun e => hc ⟨hr, e.symm⟩
            simp only [applyCall, xrReleaseSwapchainImage, hr, if_true]
            split <;> simp [setKey, hne]
          · simp [applyCall, xrReleaseSwapchainImage, hr]
        have hl : (applyCall L (SwapchainCall.release r sc')).m_lastReleased sc
            = L.m_lastReleased sc := by
          by_cases hr : XR_SUCCEEDED r = true
          · have hne : sc ≠ sc' := fun e => hc ⟨hr, e.symm⟩
            simp only [applyCall, xrReleaseSwapchainImage, hr, if_true]
            split <;> simp [setKey, hne]
          · simp [applyCall, xrReleaseSwapchainImage, hr]
        have h' : releasesFollowAcquires sc
            (((applyCall L (SwapchainCall.release r sc')).m_acquired sc).getD []).length
            rest = true := by
          rw [hq]
          simpa [releasesFollowAcquires, hc] using h
        have := ih _ h'
        rw [hq, hl] at this
        simpa [acquiredIndices, releaseCount, hc] using this

/-! ## Work and device counter of ensureCasObjects -/

theorem Device.create_next_le (d : Device) (ok : Bool) : d.next ≤ (d.create ok).2.next := by
  unfold Device.create; split_ifs <;> simp

theorem createPrimaryShader_facts (env : EnsureEnv) (d : Device) (s : SessionState) :
    d.next ≤ (createPrimaryShader env d s).device.next ∧
    (createPrimaryShader env d s).work.all (fun c => !c.isTextureCreation) = true := by
  unfold createPrimaryShader
  simp only [Device.create]
  split_ifs <;> simp [DevCall.isTextureCreation]

theorem createLevelsShader_facts (env : EnsureEnv) (d : Device) (s : SessionState) :
    d.next ≤ (createLevelsShader env d s).device.next ∧
    (createLevelsShader env d s).work.all (fun c => !c.isTextureCreation) = true := by
  unfold createLevelsShader
  simp only [Device.create]
  split_ifs <;> simp [DevCall.isTextureCreation] <;> omega

theorem createFakeHdrShader_facts (env : EnsureEnv) (d : Device) (s : SessionState) :
    d.next ≤ (createFakeHdrShader env d s).device.next ∧
    (createFakeHdrShader env d s).work.all (fun c => !c.isTextureCreation) = true := by
  unfold createFakeHdrShader
  simp only [Device.create]
  split_ifs <;> simp [DevCall.isTextureCreation] <;> omega

theorem createTimingQueries_facts (env : EnsureEnv) (d : Device) (s : SessionState) :
    d.next ≤ (createTimingQueries env d s).device.next ∧
    (createTimingQueries env d s).work.all (fun c => !c.isTextureCreation) = true := by
  unfold createTimingQueries
  simp only [Device.create]
  split_ifs <;> simp [DevCall.isTextureCreation] <;> omega

theorem isTextureCreation_createBuffer (n : Nat) (r : ComPtr) :
    (DevCall.createBuffer n r).isTextureCreation = false := rfl

theorem ensureCasObjects_facts (env : EnsureEnv) (d : Device) (s : SessionState) :
    d.next ≤ (ensureCasObjects env d s).device.next ∧
    (ensureCasObjects env d s).work.all (fun c => !c.isTextureCreation) = true := by
  unfold ensureCasObjects
  dsimp only
  generalize hpe : createPrimaryShader env d { s with shaderInitAttempted := true } = p
  have hp := createPrimaryShader_facts env d { s with shaderInitAttempted := true }
  rw [hpe] at hp
  generalize hle : createLevelsShader env p.device p.state = l
  have hl := createLevelsShader_facts env p.device p.state
  rw [hle] at hl
  generalize hhe : createFakeHdrShader env l.device l.state = h
  have hh := createFakeHdrShader_facts env l.device l.state
  rw [hhe] at hh
  have hc := Device.create_next_le h.device env.constBufferOk
  have hg := Device.create_next_le (h.device.create env.constBufferOk).2 env.debugBufferOk
  have hq := createTimingQueries_facts env
    ((h.device.create env.constBufferOk).2.create env.debugBufferOk).2
    { h.state with constCB := (h.device.create env.constBufferOk).1,
                   debugCB := ((h.device.create env.constBufferOk).2.create env.debugBufferOk).1 }
  dsimp only at hq
  obtain ⟨hp1, hp2⟩ := hp
  obtain ⟨hl1, hl2⟩ := hl
  obtain ⟨hh1, hh2⟩ := hh
  obtain ⟨hq1, hq2⟩ := hq
  split_ifs
  · simp
  · simp
  · simp
  · exact ⟨hp1, hp2⟩
  · constructor
    · dsimp only; omega
    · simp only [List.all_append, hp2, hl2, hh2, isTextureCreation_createBuffer, List.all_cons, List.all_nil, Bool.not_false, Bool.and_self]
  · constructor
    · dsimp only; omega
    · simp only [List.all_append, hp2, hl2, hh2, isTextureCreation_createBuffer, List.all_cons, List.all_nil, Bool.not_false, Bool.and_self]
  · constructor
    · dsimp only; omega
    · simp only [List.all_append, hp2, hl2, hh2, hq2, isTextureCreation_createBuffer, List.all_cons, List.all_nil, Bool.not_false, Bool.and_self]

theorem filter_isTextureCreation_eq_nil {w : List DevCall}
    (h : w.all (fun c => !c.isTextureCreation) = true) :
    w.filter DevCall.isTextureCreation = [] := by
  rw [List.filter_eq_nil_iff]
  intro c hc
  have := List.all_eq_true.mp h c hc
  simpa using this

theorem primaryPasses_work (env : DispatchEnv) (f g x y : Nat) (n : Nat) :
    ∀ (pass : Nat) (a b : ComPtr),
      (primaryPasses env f g x y n pass a b).work.all (fun c => !c.isTextureCreation) = true := by
  induction n with
  | zero => intro pass a b; simp [primaryPasses]
  | succ n ih =>
    intro pass a b
    unfold primaryPasses
    dsimp only
    split_ifs
    · simp [DevCall.isTextureCreation]
    · simp [DevCall.isTextureCreation]
    · have := ih (pass + 1) b a
      simp only [List.all_append, List.all_cons, List.all_nil, this, List.cons_append,
        List.nil_append]
      simp [DevCall.isTextureCreation]

theorem fakeHdrPass_work (env : DispatchEnv) (s : SessionState) (slot : TempTextures)
    (f g ox oy w h x y : Nat) (t : ComPtr) :
    (fakeHdrPass env s slot f g ox oy w h x y t).work.all (fun c => !c.isTextureCreation)
      = true := by
  unfold fakeHdrPass
  split_ifs <;> simp [DevCall.isTextureCreation]

theorem levelsPass_work (env : DispatchEnv) (s : SessionState) (slot : TempTextures)
    (f g x y : Nat) (t : ComPtr) :
    (levelsPass env s slot f g x y t).work.all (fun c => !c.isTextureCreation) = true := by
  unfold levelsPass
  split_ifs <;> simp [DevCall.isTextureCreation]

theorem runPassChain_work (env : DispatchEnv) (s : SessionState) (source : Handle)
    (td : D3D11_TEXTURE2D_DESC) (sub : XrSwapchainSubImage) (slot : TempTextures) :
    (runPassChain env s source td sub slot).work.all (fun c => !c.isTextureCreation) = true := by
  unfold runPassChain
  dsimp only
  generalize hp : primaryPasses _ _ _ _ _ _ _ _ _ = p
  have hpw : p.work.all (fun c => !c.isTextureCreation) = true := by
    rw [← hp]; exact primaryPasses_work _ _ _ _ _ _ _ _ _
  cases hc : p.completed
  · simpa using hpw
  · simp only [Bool.not_true, Bool.false_eq_true, if_false, List.all_append, hpw,
      fakeHdrPass_work, levelsPass_work, Bool.and_self]

/-- Past the three early returns, with the pool block succeeding, `dispatchCas` is the
pass chain run on the entry the pool block delivers. -/
theorem dispatchCas_of_pool_ok (env : DispatchEnv) (d : Device) (s : SessionState)
    (swapchain : Nat) (source : Handle) (td : D3D11_TEXTURE2D_DESC) (sub : XrSwapchainSubImage)
    (tempPool : TempPool)
    (he : (ensureCasObjects env.ensure d s).ok = true) (hf : supported td.Format = true)
    (hc : td.SampleCount = 1)
    (ha : (acquireTempTextures env.createInputOk env.createOutputOk
            (ensureCasObjects env.ensure d s).device td
            ((tempPool (makeTempKey swapchain sub.imageArrayIndex)).getD {})).ok = true) :
    dispatchCas env d s swapchain source td sub tempPool
      = { state := (runPassChain env (ensureCasObjects env.ensure d s).state source td sub
            (acquireTempTextures env.createInputOk env.createOutputOk
              (ensureCasObjects env.ensure d s).device td
              ((tempPool (makeTempKey swapchain sub.imageArrayIndex)).getD {})).slot).state,
          device := (acquireTempTextures env.createInputOk env.createOutputOk
              (ensureCasObjects env.ensure d s).device td
              ((tempPool (makeTempKey swapchain sub.imageArrayIndex)).getD {})).device,
          pool := fun k => if k = makeTempKey swapchain sub.imageArrayIndex then
              some (acquireTempTextures env.createInputOk env.createOutputOk
                (ensureCasObjects env.ensure d s).device td
                ((tempPool (makeTempKey swapchain sub.imageArrayIndex)).getD {})).slot
            else tempPool k,
          work := (ensureCasObjects env.ensure d s).work ++
            (acquireTempTextures env.createInputOk env.createOutputOk
              (ensureCasObjects env.ensure d s).device td
              ((tempPool (makeTempKey swapchain sub.imageArrayIndex)).getD {})).work ++
            (runPassChain env (ensureCasObjects env.ensure d s).state source td sub
              (acquireTempTextures env.createInputOk env.createOutputOk
                (ensureCasObjects env.ensure d s).device td
                ((tempPool (makeTempKey swapchain sub.imageArrayIndex)).getD {})).slot).work,
          cmds := (runPassChain env (ensureCasObjects env.ensure d s).state source td sub
            (acquireTempTextures env.createInputOk env.createOutputOk
              (ensureCasObjects env.ensure d s).device td
              ((tempPool (makeTempKey swapchain sub.imageArrayIndex)).getD {})).slot).cmds,
          logged := (runPassChain env (ensureCasObjects env.ensure d s).state source td sub
            (acquireTempTextures env.createInputOk env.createOutputOk
              (ensureCasObjects env.ensure d s).device td
              ((tempPool (makeTempKey swapchain sub.imageArrayIndex)).getD {})).slot).logged,
          completed := (runPassChain env (ensureCasObjects env.ensure d s).state source td sub
            (acquireTempTextures env.createInputOk env.createOutputOk
              (ensureCasObjects env.ensure d s).device td
              ((tempPool (makeTempKey swapchain sub.imageArrayIndex)).getD {})).slot).completed } := by
  have hn : (td.SampleCount != 1) = false := by simp [hc]
  unfold dispatchCas
  simp only [he, hf, hn, ha, Bool.not_true, Bool.false_eq_true, if_false]

/-- With both creations succeeding the pool block succeeds, and its entry has a
non-null input and records the geometry and format of the source. -/
theorem acquireTempTextures_created (d : Device) (td : D3D11_TEXTURE2D_DESC)
    (slot : TempTextures) :
    (acquireTempTextures true true d td slot).ok = true ∧
    (acquireTempTextures true true d td slot).slot.input.isSome = true ∧
    (acquireTempTextures true true d td slot).slot.width = td.Width ∧
    (acquireTempTextures true true d td slot).slot.height = td.Height ∧
    (acquireTempTextures true true d td slot).slot.format = td.Format ∧
    d.next ≤ (acquireTempTextures true true d td slot).device.next := by
  unfold acquireTempTextures
  by_cases h1 : (slot.input.isNone || slot.width != td.Width || slot.height != td.Height
      || slot.format != td.Format) = true
  · rw [if_pos h1]
    simp [Device.create]
    omega
  · rw [if_neg h1]
    simp only [Bool.or_eq_true, bne_iff_ne, ne_eq, not_or, Decidable.not_not] at h1
    obtain ⟨⟨⟨h1, h2⟩, h3⟩, h4⟩ := h1
    refine ⟨rfl, ?_, h2, h3, h4, le_refl _⟩
    cases hi : slot.input with
    | none => rw [hi] at h1; simp at h1
    | some _ => rfl

/-- An entry with non-null input whose record matches the source is reused as it is. -/
theorem acquireTempTextures_reuse (inputOk outputOk : Bool) (d : Device)
    (td : D3D11_TEXTURE2D_DESC) (slot : TempTextures)
    (hi : slot.input.isSome = true) (hw : slot.width = td.Width) (hh : slot.height = td.Height)
    (hf : slot.format = td.Format) :
    acquireTempTextures inputOk outputOk d td slot
      = { ok := true, slot := slot, device := d, work := [] } := by
  unfold acquireTempTextures
  have : slot.input.isNone = false := by
    cases h : slot.input with
    | none => rw [h] at hi; simp at hi
    | some _ => rfl
  simp [this, hw, hh, hf]

/-- An entry whose recorded width differs from the source is replaced by two new textures. -/
theorem acquireTempTextures_recreate (d : Device) (td : D3D11_TEXTURE2D_DESC)
    (slot : TempTextures) (hw : slot.width ≠ td.Width) :
    (acquireTempTextures true true d td slot).ok = true ∧
    (acquireTempTextures true true d td slot).slot
      = { input := some d.next, output := some (d.next + 1), width := td.Width,
          height := td.Height, format := td.Format } ∧
    (acquireTempTextures true true d td slot).work
      = [DevCall.createTexture2D
            { td with MiscFlags := 0, CPUAccessFlags := 0, Usage := D3D11_USAGE_DEFAULT,
                      ArraySize := 1, MipLevels := 1, Format := chooseTypeless td.Format,
                      BindFlags := D3D11_BIND_UNORDERED_ACCESS ||| D3D11_BIND_SHADER_RESOURCE }
            (some d.next),
         DevCall.createTexture2D
            { td with MiscFlags := 0, CPUAccessFlags := 0, Usage := D3D11_USAGE_DEFAULT,
                      ArraySize := 1, MipLevels := 1, Format := chooseTypeless td.Format,
                      BindFlags := D3D11_BIND_UNORDERED_ACCESS ||| D3D11_BIND_SHADER_RESOURCE }
            (some (d.next + 1))] := by
  unfold acquireTempTextures
  simp [Device.create, hw]



/-! ## Claims on the tracker and the pool -/

/-- C5: on a swapchain whose acquired-FIFO is empty, after any sequence of
acquire and release calls (on this and other swapchains, successful or not) in
which each successful release of the swapchain comes while an acquired image
is pending, with `a` the indices of its successful acquires and `k` the number
of its successful releases: `k ≤ |a|`, the FIFO holds `a` without its first
`k` elements, and if `k > 0` the last-released value is the `k`-th acquired
index. -/
theorem tracker_fifo_and_last_released (swapchain : Nat) (calls : List SwapchainCall)
    (L : OpenXrLayer)
    (hempty : (L.m_acquired swapchain).getD [] = [])
    (horder : releasesFollowAcquires swapchain 0 calls = true) :
    releaseCount swapchain calls ≤ (acquiredIndices swapchain calls).length ∧
    ((applyCalls L calls).m_acquired swapchain).getD []
      = (acquiredIndices swapchain calls).drop (releaseCount swapchain calls) ∧
    (0 < releaseCount swapchain calls →
      ∃ a, (acquiredIndices swapchain calls)[releaseCount swapchain calls - 1]? = some a ∧
        (applyCalls L calls).m_lastReleased swapchain = some (some a)) := by
  have h := applyCalls_tracker swapchain calls L (by rw [hempty]; exact horder)
  rw [hempty] at h
  simp only [List.nil_append] at h
  obtain ⟨h1, h2, h3, _⟩ := h
  refine ⟨h2, h1, ?_⟩
  intro hk
  have hlt : releaseCount swapchain calls - 1 < (acquiredIndices swapchain calls).length := by
    omega
  refine ⟨(acquiredIndices swapchain calls)[releaseCount swapchain calls - 1], ?_, ?_⟩
  · exact List.getElem?_eq_getElem hlt
  · rw [h3 hk, List.getElem?_eq_getElem hlt]

/-- C5 (witness): images 0, 1, 2 acquired and two releases on a new layer: the
last-released value is 1 and the FIFO is `[2]`. -/
theorem tracker_fifo_and_last_released_witness :
    releasesFollowAcquires 7 0 trackerCalls = true ∧
    acquiredIndices 7 trackerCalls = [0, 1, 2] ∧ releaseCount 7 trackerCalls = 2 ∧
    (applyCalls {} trackerCalls).m_acquired 7 = some [2] ∧
    (applyCalls {} trackerCalls).m_lastReleased 7 = some (some 1) ∧
    (releaseCount 7 trackerCalls ≤ (acquiredIndices 7 trackerCalls).length ∧
      ((applyCalls {} trackerCalls).m_acquired 7).getD []
        = (acquiredIndices 7 trackerCalls).drop (releaseCount 7 trackerCalls) ∧
      (0 < releaseCount 7 trackerCalls →
        ∃ a, (acquiredIndices 7 trackerCalls)[releaseCount 7 trackerCalls - 1]? = some a ∧
          (applyCalls {} trackerCalls).m_lastReleased 7 = some (some a))) :=
  ⟨by decide, by decide, by decide, by decide, by decide,
   tracker_fifo_and_last_released 7 trackerCalls {} (by decide) (by decide)⟩

/-- C6: two consecutive `dispatchCas` calls that reach the pool block and address the
same pool key, the textures of the first being created when needed.  After the
first call the entry has a non-null input and records the source's width,
height and format.  If the second source has the same width, height and
format, the entry (both textures) is unchanged and the second call creates no
texture.  If the second source has a different width (creation succeeding),
the entry holds two textures created by the second call, distinct and newer
than every object of the device before it, and records the new width, height
and format. -/
theorem pool_second_request (env1 env2 : DispatchEnv) (d : Device) (s : SessionState)
    (sc1 sc2 : Nat) (src1 src2 : Handle) (td1 td2 : D3D11_TEXTURE2D_DESC)
    (sub1 sub2 : XrSwapchainSubImage) (pool : TempPool) (r1 r2 : DispatchResult)
    (hr1 : dispatchCas env1 d s sc1 src1 td1 sub1 pool = r1)
    (hr2 : dispatchCas env2 r1.device r1.state sc2 src2 td2 sub2 r1.pool = r2)
    (he1 : (ensureCasObjects env1.ensure d s).ok = true)
    (hf1 : supported td1.Format = true) (hc1 : td1.SampleCount = 1)
    (hi1 : env1.createInputOk = true) (ho1 : env1.createOutputOk = true)
    (hkey : makeTempKey sc2 sub2.imageArrayIndex = makeTempKey sc1 sub1.imageArrayIndex)
    (he2 : (ensureCasObjects env2.ensure r1.device r1.state).ok = true)
    (hf2 : supported td2.Format = true) (hc2 : td2.SampleCount = 1) :
    (∃ slot, r1.pool (makeTempKey sc1 sub1.imageArrayIndex) = some slot ∧
        slot.input.isSome = true ∧ slot.width = td1.Width ∧ slot.height = td1.Height ∧
        slot.format = td1.Format) ∧
    (td2.Width = td1.Width → td2.Height = td1.Height → td2.Format = td1.Format →
      r2.pool (makeTempKey sc1 sub1.imageArrayIndex)
        = r1.pool (makeTempKey sc1 sub1.imageArrayIndex) ∧
      r2.work.filter DevCall.isTextureCreation = []) ∧
    (td2.Width ≠ td1.Width → env2.createInputOk = true → env2.createOutputOk = true →
      ∃ i o : Handle,
        r2.pool (makeTempKey sc1 sub1.imageArrayIndex)
          = some { input := some i, output := some o, width := td2.Width,
                   height := td2.Height, format := td2.Format } ∧
        i ≠ o ∧ r1.device.next ≤ i ∧ r1.device.next ≤ o ∧
        r2.work.filter DevCall.isTextureCreation
          = [DevCall.createTexture2D
              { td2 with MiscFlags := 0, CPUAccessFlags := 0, Usage := D3D11_USAGE_DEFAULT,
                         ArraySize := 1, MipLevels := 1, Format := chooseTypeless td2.Format,
                         BindFlags := D3D11_BIND_UNORDERED_ACCESS ||| D3D11_BIND_SHADER_RESOURCE }
              (some i),
             DevCall.createTexture2D
              { td2 with MiscFlags := 0, CPUAccessFlags := 0, Usage := D3D11_USAGE_DEFAULT,
                         ArraySize := 1, MipLevels := 1, Format := chooseTypeless td2.Format,
                         BindFlags := D3D11_BIND_UNORDERED_ACCESS ||| D3D11_BIND_SHADER_RESOURCE }
              (some o)]) := by
  subst hr2
  -- the first call
  obtain ⟨a1ok, a1in, a1w, a1h, a1f, _⟩ := acquireTempTextures_created
    (ensureCasObjects env1.ensure d s).device td1
    ((pool (makeTempKey sc1 sub1.imageArrayIndex)).getD {})
  have h1 := dispatchCas_of_pool_ok env1 d s sc1 src1 td1 sub1 pool he1 hf1 hc1
    (by rw [hi1, ho1]; exact a1ok)
  rw [hi1, ho1, hr1] at h1
  generalize acquireTempTextures true true (ensureCasObjects env1.ensure d s).device td1
    ((pool (makeTempKey sc1 sub1.imageArrayIndex)).getD {}) = a1 at h1 a1ok a1in a1w a1h a1f
  have hp1 : r1.pool (makeTempKey sc1 sub1.imageArrayIndex) = some a1.slot := by
    rw [h1]; simp
  have hg : (r1.pool (makeTempKey sc2 sub2.imageArrayIndex)).getD {} = a1.slot := by
    rw [hkey, hp1]; rfl
  refine ⟨⟨a1.slot, hp1, a1in, a1w, a1h, a1f⟩, ?_, ?_⟩
  · intro hw hh hf
    have hre := acquireTempTextures_reuse env2.createInputOk env2.createOutputOk
      (ensureCasObjects env2.ensure r1.device r1.state).device td2 a1.slot a1in
      (by rw [a1w, hw]) (by rw [a1h, hh]) (by rw [a1f, hf])
    have h2 := dispatchCas_of_pool_ok env2 r1.device r1.state sc2 src2 td2 sub2 r1.pool he2 hf2
      hc2 (by rw [hg, hre])
    rw [hg, hre] at h2
    rw [h2]
    refine ⟨by simp [hkey, hp1], ?_⟩
    simp only [List.filter_append, List.filter_nil,
      filter_isTextureCreation_eq_nil (ensureCasObjects_facts _ _ _).2,
      filter_isTextureCreation_eq_nil (runPassChain_work _ _ _ _ _ _), List.append_nil]
  · intro hw hi2 ho2
    have hne : a1.slot.width ≠ td2.Width := by rw [a1w]; exact fun e => hw e.symm
    obtain ⟨b1, b2, b3⟩ := acquireTempTextures_recreate
      (ensureCasObjects env2.ensure r1.device r1.state).device td2 a1.slot hne
    have h2 := dispatchCas_of_pool_ok env2 r1.device r1.state sc2 src2 td2 sub2 r1.pool he2 hf2
      hc2 (by rw [hg, hi2, ho2]; exact b1)
    rw [hg, hi2, ho2, b2, b3] at h2
    have hmono := (ensureCasObjects_facts env2.ensure r1.device r1.state).1
    refine ⟨(ensureCasObjects env2.ensure r1.device r1.state).device.next,
      (ensureCasObjects env2.ensure r1.device r1.state).device.next + 1, ?_, ?_, hmono, ?_, ?_⟩
    · rw [h2]; simp [hkey]
    · show (_ : Nat) ≠ _; omega
    · omega
    · rw [h2]
      simp only [List.filter_append,
        filter_isTextureCreation_eq_nil (ensureCasObjects_facts _ _ _).2,
        filter_isTextureCreation_eq_nil (runPassChain_work _ _ _ _ _ _), List.nil_append,
        List.append_nil]
      rfl

theorem firstRequest_state_ready :
    (ensureCasObjects dispatchAllOk.ensure firstRequest.device firstRequest.state).ok = true := by
  have h : totalPasses (-2147483648) (6 / 10) = 1 := totalPasses_of_le_one _ _ (by norm_num)
  simp [firstRequest, dispatchCas, runPassChain, ensureCasObjects, createPrimaryShader,
    createLevelsShader, createFakeHdrShader, createTimingQueries, Device.create, ensureAllOk,
    dispatchAllOk, freshSession, colorDesc, leftView, supported, acquireTempTextures, h,
    primaryPasses, timingEnd]

/-- C6 (witness): a second call on the same texture keeps the entry of the
first; a call on a texture of another width replaces it. -/
theorem pool_second_request_witness :
    (secondRequest.pool (makeTempKey 7 leftView.imageArrayIndex)
        = firstRequest.pool (makeTempKey 7 leftView.imageArrayIndex) ∧
      secondRequest.work.filter DevCall.isTextureCreation = []) ∧
    (∃ i o : Handle,
        resizedRequest.pool (makeTempKey 7 leftView.imageArrayIndex)
          = some { input := some i, output := some o, width := 2048,
                   height := 512, format := DXGI_FORMAT_R8G8B8A8_UNORM_SRGB } ∧
        i ≠ o ∧ firstRequest.device.next ≤ i ∧ firstRequest.device.next ≤ o ∧
        resizedRequest.work.filter DevCall.isTextureCreation
          = [DevCall.createTexture2D
              { colorDesc with Width := 2048, Format := DXGI_FORMAT_R8G8B8A8_TYPELESS,
                               BindFlags := 136 }
              (some i),
             DevCall.createTexture2D
              { colorDesc with Width := 2048, Format := DXGI_FORMAT_R8G8B8A8_TYPELESS,
                               BindFlags := 136 }
              (some o)]) :=
  ⟨(pool_second_request dispatchAllOk dispatchAllOk ⟨100⟩ freshSession 7 7 50 50 colorDesc
      colorDesc leftView rightView (fun _ => none) firstRequest secondRequest rfl rfl
      (by decide) (by decide) (by decide) rfl rfl (by decide) firstRequest_state_ready
      (by decide) (by decide)).2.1 rfl rfl rfl,
   (pool_second_request dispatchAllOk dispatchAllOk ⟨100⟩ freshSession 7 7 50 51 colorDesc
      { colorDesc with Width := 2048 } leftView rightView (fun _ => none) firstRequest
      resizedRequest rfl rfl
      (by decide) (by decide) (by decide) rfl rfl (by decide) firstRequest_state_ready
      (by decide) (by decide)).2.2 (by decide) rfl rfl⟩

/-! ## Calling ensureCasObjects twice -/

/-- A state on which `ensureCasObjects` decides at once: no device, the
fast-path test holds, or the sticky failure flag is set. -/
theorem ensureCasObjects_of_settled (env : EnsureEnv) (d : Device) (s : SessionState)
    (h : s.appD3DDevice.isNone = true ∨ casObjectsReady s = true ∨
      (s.shaderInitAttempted = true ∧ s.shaderInitFailed = true)) :
    ensureCasObjects env d s = { ok := casObjectsReady s, state := s, device := d, work := [] } := by
  unfold ensureCasObjects casObjectsReady
  cases hd : s.appD3DDevice with
  | none => simp
  | some dev =>
    simp only [Option.isNone_some, Bool.false_eq_true, if_false, Option.isSome_some,
      Bool.true_and]
    by_cases hr : (s.cs.isSome && (!s.levelsEnabled || s.levelsCS.isSome)
        && (!s.fakeHdrEnabled || s.fakeHdrCS.isSome)) = true
    · rw [if_pos hr, hr]
    · rw [if_neg hr]
      have hr' : (s.cs.isSome && (!s.levelsEnabled || s.levelsCS.isSome)
        && (!s.fakeHdrEnabled || s.fakeHdrCS.isSome)) = false := by simpa using hr
      rcases h with h | h | h
      · rw [hd] at h; simp at h
      · unfold casObjectsReady at h; rw [hd] at h
        simp only [Option.isSome_some, Bool.true_and] at h
        exact absurd h hr
      · rw [if_pos (by simp [h.1, h.2]), hr']

theorem createPrimaryShader_state (env : EnsureEnv) (d : Device) (s : SessionState) :
    (createPrimaryShader env d s).state.appD3DDevice = s.appD3DDevice ∧
    (createPrimaryShader env d s).state.shaderInitAttempted = s.shaderInitAttempted ∧
    (createPrimaryShader env d s).state.levelsEnabled = s.levelsEnabled ∧
    (createPrimaryShader env d s).state.levelsCS = s.levelsCS ∧
    (createPrimaryShader env d s).state.fakeHdrEnabled = s.fakeHdrEnabled ∧
    (createPrimaryShader env d s).state.fakeHdrCS = s.fakeHdrCS ∧
    ((createPrimaryShader env d s).ok = true →
      (createPrimaryShader env d s).state.cs.isSome = true) := by
  unfold createPrimaryShader
  simp only [Device.create]
  split_ifs <;> simp_all

theorem createLevelsShader_state (env : EnsureEnv) (d : Device) (s : SessionState) :
    (createLevelsShader env d s).state.appD3DDevice = s.appD3DDevice ∧
    (createLevelsShader env d s).state.cs = s.cs ∧
    (createLevelsShader env d s).state.fakeHdrEnabled = s.fakeHdrEnabled ∧
    (createLevelsShader env d s).state.fakeHdrCS = s.fakeHdrCS ∧
    (!(createLevelsShader env d s).state.levelsEnabled
      || (createLevelsShader env d s).state.levelsCS.isSome) = true := by
  unfold createLevelsShader
  simp only [Device.create]
  split_ifs <;> simp_all
  all_goals
    rename_i h
    cases hE : s.levelsEnabled <;> cases hC : s.levelsCS <;> simp_all

theorem createFakeHdrShader_state (env : EnsureEnv) (d : Device) (s : SessionState) :
    (createFakeHdrShader env d s).state.appD3DDevice = s.appD3DDevice ∧
    (createFakeHdrShader env d s).state.cs = s.cs ∧
    (createFakeHdrShader env d s).state.levelsEnabled = s.levelsEnabled ∧
    (createFakeHdrShader env d s).state.levelsCS = s.levelsCS ∧
    (!(createFakeHdrShader env d s).state.fakeHdrEnabled
      || (createFakeHdrShader env d s).state.fakeHdrCS.isSome) = true := by
  unfold createFakeHdrShader
  simp only [Device.create]
  split_ifs <;> simp_all
  all_goals
    rename_i h
    cases hE : s.fakeHdrEnabled <;> cases hC : s.fakeHdrCS <;> simp_all

theorem createTimingQueries_state (env : EnsureEnv) (d : Device) (s : SessionState) :
    casObjectsReady (createTimingQueries env d s).state = casObjectsReady s := by
  unfold createTimingQueries casObjectsReady
  split_ifs <;> rfl

/-- Whatever the first call did, a second `ensureCasObjects` call on the state
and device it left does no work, changes nothing, and returns the value of
the fast-path test on that state. -/
theorem ensureCasObjects_second_call (env env2 : EnsureEnv) (d : Device) (s : SessionState) :
    ensureCasObjects env2 (ensureCasObjects env d s).device (ensureCasObjects env d s).state
      = { ok := casObjectsReady (ensureCasObjects env d s).state,
          state := (ensureCasObjects env d s).state,
          device := (ensureCasObjects env d s).device, work := [] } := by
  apply ensureCasObjects_of_settled
  unfold ensureCasObjects
  dsimp only
  obtain ⟨p1, p2, p3, p4, p5, p6, p7⟩ :=
    createPrimaryShader_state env d { s with shaderInitAttempted := true }
  generalize createPrimaryShader env d { s with shaderInitAttempted := true } = p
    at p1 p2 p3 p4 p5 p6 p7 ⊢
  obtain ⟨l1, l2, l3, l4, l5⟩ := createLevelsShader_state env p.device p.state
  generalize createLevelsShader env p.device p.state = l at l1 l2 l3 l4 l5 ⊢
  obtain ⟨h1, h2, h3, h4, h5⟩ := createFakeHdrShader_state env l.device l.state
  generalize createFakeHdrShader env l.device l.state = h at h1 h2 h3 h4 h5 ⊢
  have hq := createTimingQueries_state env
    ((h.device.create env.constBufferOk).2.create env.debugBufferOk).2
    { h.state with constCB := (h.device.create env.constBufferOk).1,
                   debugCB := ((h.device.create env.constBufferOk).2.create env.debugBufferOk).1 }
  dsimp only at p1 p2 hq
  by_cases c1 : s.appD3DDevice.isNone = true
  · rw [if_pos c1]; exact Or.inl c1
  · rw [if_neg c1]
    have hdev : s.appD3DDevice.isSome = true := by
      cases hd : s.appD3DDevice with
      | none => rw [hd] at c1; simp at c1
      | some _ => rfl
    by_cases c2 : (s.cs.isSome && (!s.levelsEnabled || s.levelsCS.isSome)
        && (!s.fakeHdrEnabled || s.fakeHdrCS.isSome)) = true
    · rw [if_pos c2]
      exact Or.inr (Or.inl (by unfold casObjectsReady; rw [hdev, c2]; rfl))
    · rw [if_neg c2]
      by_cases c3 : (s.shaderInitAttempted && s.shaderInitFailed) = true
      · rw [if_pos c3]
        exact Or.inr (Or.inr (by simpa using c3))
      · rw [if_neg c3]
        have hready : casObjectsReady h.state = true ∨ p.ok = false := by
          cases hp : p.ok with
          | false => exact Or.inr rfl
          | true =>
            left
            unfold casObjectsReady
            rw [h1, l1, p1, hdev, h2, l2, p7 hp, h3, h4, l5, h5]
            rfl
        cases hp : p.ok with
        | false =>
          simp only [Bool.not_false, if_true]
          exact Or.inr (Or.inr ⟨p2, trivial⟩)
        | true =>
          have hr : casObjectsReady h.state = true := by
            rcases hready with h | h
            · exact h
            · rw [hp] at h; exact absurd h (by simp)
          simp only [Bool.not_true, Bool.false_eq_true, if_false]
          split_ifs
          · exact Or.inr (Or.inl hr)
          · exact Or.inr (Or.inl hr)
          · exact Or.inr (Or.inl (by rw [hq]; exact hr))

/-- C7 (at the failing input): on a new session, with `CAS.cso` loading and the
creation of the primary constant buffer failing, the first call returns
failure after creating the shader; the second call, made on the state the
first left and with the same outcomes, does no work and returns success,
with `constCB` still null. -/
theorem ensureCasObjects_twice_const_buffer_failure :
    (ensureCasObjects constBufferFails ⟨100⟩ freshSession).ok = false ∧
    (ensureCasObjects constBufferFails ⟨100⟩ freshSession).work
      = [DevCall.readFile ShaderFile.casCso, DevCall.createComputeShader (some 100),
         DevCall.createBuffer 32 none] ∧
    (ensureCasObjects constBufferFails
        (ensureCasObjects constBufferFails ⟨100⟩ freshSession).device
        (ensureCasObjects constBufferFails ⟨100⟩ freshSession).state).ok = true ∧
    (ensureCasObjects constBufferFails
        (ensureCasObjects constBufferFails ⟨100⟩ freshSession).device
        (ensureCasObjects constBufferFails ⟨100⟩ freshSession).state).work = [] ∧
    (ensureCasObjects constBufferFails
        (ensureCasObjects constBufferFails ⟨100⟩ freshSession).device
        (ensureCasObjects constBufferFails ⟨100⟩ freshSession).state).state.constCB = none := by
  decide

/-! ## Configuration precedence -/

theorem findSharpness_eq (stof : Str → Option ℚ) (lines : List Str) :
    findSharpness stof lines
      = match findConfigValue "sharpness".toList lines with
        | some val => (stof val).map (fun v => if v < 0 then 0 else v)
        | none => none := by
  induction lines with
  | nil => rfl
  | cons line rest ih =>
    unfold findSharpness findConfigValue
    cases hp : parseLine line with
    | none => simpa using ih
    | some kv =>
      obtain ⟨key, val⟩ := kv
      by_cases hk : key = "sharpness".toList
      · simp only [hk, if_true]
        cases stof val <;> rfl
      · simp only [hk, if_false]
        exact ih

theorem tryReadSharpnessFromConfigFile_eq (stof : Str → Option ℚ) (file : Option Str) :
    tryReadSharpnessFromConfigFile stof file
      = match tryReadConfigValueFromFile file "sharpness".toList with
        | some val => (stof val).map (fun v => if v < 0 then 0 else v)
        | none => none := by
  cases file with
  | none => rfl
  | some text => exact findSharpness_eq stof _

/-- A file that defines `sharpness` with a well-formed non-negative value yields that value. -/
theorem tryReadSharpnessFromConfigFile_defined (stof : Str → Option ℚ) (file : Option Str)
    (txt : Str) (v : ℚ) (hd : tryReadConfigValueFromFile file "sharpness".toList = some txt)
    (hv : stof txt = some v) (h0 : 0 ≤ v) :
    tryReadSharpnessFromConfigFile stof file = some v := by
  rw [tryReadSharpnessFromConfigFile_eq, hd]
  simp [hv, not_lt.mpr h0]

theorem tryReadSharpnessFromConfigFile_undefined (stof : Str → Option ℚ) (file : Option Str)
    (hd : tryReadConfigValueFromFile file "sharpness".toList = none) :
    tryReadSharpnessFromConfigFile stof file = none := by
  rw [tryReadSharpnessFromConfigFile_eq, hd]

/-- C8 (as stated, refuted): `XR_CAS_SHARPNESS` is set to a well-formed text of
value 2 (64 characters), yet the resolved sharpness is the default 0.6. -/
theorem resolveSharpness_long_env_value :
    longEnvHost.getenv "XR_CAS_SHARPNESS".toList = some longSharpnessText ∧
    longEnvHost.stof longSharpnessText = some 2 ∧
    resolveSharpnessFromConfigOrEnv longEnvHost = 6 / 10 ∧
    resolveSharpnessFromConfigOrEnv longEnvHost ≠ 2 := by
  have hlen : longSharpnessText.length = 64 := by decide
  have hget : longEnvHost.getenv "XR_CAS_SHARPNESS".toList = some longSharpnessText := by
    simp [longEnvHost]
  have hg : GetEnvironmentVariableA longEnvHost "XR_CAS_SHARPNESS".toList 64 = (65, []) := by
    unfold GetEnvironmentVariableA
    rw [hget]
    simp [hlen]
  have hres : resolveSharpnessFromConfigOrEnv longEnvHost = 6 / 10 := by
    unfold resolveSharpnessFromConfigOrEnv readSharpnessFromEnv
    rw [hg]
    simp
  refine ⟨hget, ?_, hres, ?_⟩
  · have hm : stofMantissa longSharpnessText = some (false, 2, 0, []) := by decide
    simp [longEnvHost, stofDecimal, hm, stofExponent]
  · rw [hres]; norm_num

/-- C8 (amended): the resolved sharpness, for well-formed non-negative values.
(1) `XR_CAS_SHARPNESS` set to a text of 1 to 63 characters: its value, whatever
the files contain.  (2) Set to a text of 64 characters or more: the default
0.6, whatever the files contain.  (3) Not set, the per-user file defines
`sharpness`: that value.  (4) Not set, the per-user file does not define it, the
per-install file does: that value.  (5) Defined nowhere: the default 0.6. -/
theorem resolveSharpness_precedence (host : Host) :
    (∀ txt v, host.getenv "XR_CAS_SHARPNESS".toList = some txt →
        0 < txt.length → txt.length < 64 → host.stof txt = some v → 0 ≤ v →
        resolveSharpnessFromConfigOrEnv host = v) ∧
    (∀ txt, host.getenv "XR_CAS_SHARPNESS".toList = some txt → 64 ≤ txt.length →
        resolveSharpnessFromConfigOrEnv host = 6 / 10) ∧
    (host.getenv "XR_CAS_SHARPNESS".toList = none →
      ∀ txt v, tryReadConfigValueFromFile host.localAppDataCfg "sharpness".toList = some txt →
        host.stof txt = some v → 0 ≤ v →
        resolveSharpnessFromConfigOrEnv host = v) ∧
    (host.getenv "XR_CAS_SHARPNESS".toList = none →
      tryReadConfigValueFromFile host.localAppDataCfg "sharpness".toList = none →
      ∀ txt v, tryReadConfigValueFromFile host.dllHomeCfg "sharpness".toList = some txt →
        host.stof txt = some v → 0 ≤ v →
        resolveSharpnessFromConfigOrEnv host = v) ∧
    (host.getenv "XR_CAS_SHARPNESS".toList = none →
      tryReadConfigValueFromFile host.localAppDataCfg "sharpness".toList = none →
      tryReadConfigValueFromFile host.dllHomeCfg "sharpness".toList = none →
      resolveSharpnessFromConfigOrEnv host = 6 / 10) := by
  refine ⟨?_, ?_, ?_, ?_, ?_⟩
  · intro txt v hget hpos hlen hv h0
    have hg : GetEnvironmentVariableA host "XR_CAS_SHARPNESS".toList 64 = (txt.length, txt) := by
      unfold GetEnvironmentVariableA
      rw [hget]
      simp [hlen]
    unfold resolveSharpnessFromConfigOrEnv readSharpnessFromEnv
    rw [hg]
    simp [hpos, hlen, hv, not_lt.mpr h0]
  · intro txt hget hlen
    have hg : GetEnvironmentVariableA host "XR_CAS_SHARPNESS".toList 64
        = (txt.length + 1, []) := by
      unfold GetEnvironmentVariableA
      rw [hget]
      simp [not_lt.mpr hlen]
    have h1 : ¬ (txt.length + 1 < 64) := by omega
    unfold resolveSharpnessFromConfigOrEnv readSharpnessFromEnv
    rw [hg]
    simp [h1]
  · intro hget txt v hd hv h0
    have hg : GetEnvironmentVariableA host "XR_CAS_SHARPNESS".toList 64 = (0, []) := by
      unfold GetEnvironmentVariableA
      rw [hget]
    unfold resolveSharpnessFromConfigOrEnv
    rw [hg]
    simp [
      tryReadSharpnessFromConfigFile_defined host.stof _ txt v hd hv h0]
  · intro hget hu txt v hd hv h0
    have hg : GetEnvironmentVariableA host "XR_CAS_SHARPNESS".toList 64 = (0, []) := by
      unfold GetEnvironmentVariableA
      rw [hget]
    unfold resolveSharpnessFromConfigOrEnv
    rw [hg]
    simp [
      tryReadSharpnessFromConfigFile_undefined host.stof _ hu,
      tryReadSharpnessFromConfigFile_defined host.stof _ txt v hd hv h0]
  · intro hget hu hi
    have hg : GetEnvironmentVariableA host "XR_CAS_SHARPNESS".toList 64 = (0, []) := by
      unfold GetEnvironmentVariableA
      rw [hget]
    unfold resolveSharpnessFromConfigOrEnv
    rw [hg]
    simp [
      tryReadSharpnessFromConfigFile_undefined host.stof _ hu,
      tryReadSharpnessFromConfigFile_undefined host.stof _ hi]
theorem stofDecimal_of_mantissa (s : Str) (m k : Nat)
    (h : stofMantissa s = some (false, m, k, [])) :
    stofDecimal s = some ((m : ℚ) * (10 : ℚ) ^ (-(k : Int))) := by
  unfold stofDecimal
  rw [h]
  simp [stofExponent]

theorem stofDecimal_examples :
    stofDecimal "2.5".toList = some (25 / 10) ∧ stofDecimal "0.8".toList = some (8 / 10) ∧
    stofDecimal "0.3".toList = some (3 / 10) := by
  refine ⟨?_, ?_, ?_⟩
  · rw [stofDecimal_of_mantissa _ 25 1 (by decide)]; norm_num
  · rw [stofDecimal_of_mantissa _ 8 1 (by decide)]; norm_num
  · rw [stofDecimal_of_mantissa _ 3 1 (by decide)]; norm_num

/-- C8 (witness): with all three sources defining sharpness the environment
value 2.5 wins; without the variable the per-user value 0.8; without that the
per-install value 0.3; with nothing the default 0.6. -/
theorem resolveSharpness_precedence_witness :
    resolveSharpnessFromConfigOrEnv layeredHost = 25 / 10 ∧
    resolveSharpnessFromConfigOrEnv { layeredHost with getenv := fun _ => none } = 8 / 10 ∧
    resolveSharpnessFromConfigOrEnv
      { layeredHost with getenv := fun _ => none, localAppDataCfg := none } = 3 / 10 ∧
    resolveSharpnessFromConfigOrEnv
      { layeredHost with getenv := fun _ => none, localAppDataCfg := none, dllHomeCfg := none }
      = 6 / 10 :=
  ⟨(resolveSharpness_precedence layeredHost).1 "2.5".toList (25 / 10) (by decide) (by decide)
      (by decide) stofDecimal_examples.1 (by norm_num),
   (resolveSharpness_precedence { layeredHost with getenv := fun _ => none }).2.2.1 rfl
      "0.8".toList (8 / 10) (by decide) stofDecimal_examples.2.1 (by norm_num),
   (resolveSharpness_precedence
      { layeredHost with getenv := fun _ => none, localAppDataCfg := none }).2.2.2.1 rfl rfl
      "0.3".toList (3 / 10) (by decide) stofDecimal_examples.2.2 (by norm_num),
   (resolveSharpness_precedence
      { layeredHost with getenv := fun _ => none, localAppDataCfg := none,
                         dllHomeCfg := none }).2.2.2.2 rfl rfl rfl⟩

/-- C9 (at the failing input): with `XR_CAS_DEBUG_FRAMES=5` and
`XR_CAS_DEBUG_OVERLAY=1` in the environment and `debug_frames=60`,
`debug_overlay=0` in the per-user config file, the session registered by
`xrCreateSession` has `debugFramesMax = 60` and `debugOverlay = false`: the
values of the file, read after those of the environment, replace them. -/
theorem xrCreateSession_debug_controls_file_over_env :
    debugEnvHost.stoi "5".toList = some 5 ∧
    ((xrCreateSession debugEnvHost 0 XR_TYPE_SESSION_CREATE_INFO
        [ChainItem.graphicsBindingD3D11 (some 1) 2] 1 false {}).2.m_sessions 1).map
      (fun st => (st.debugFramesMax, st.debugOverlay)) = some (60, false) ∧
    ((xrCreateSession { debugEnvHost with localAppDataCfg := none } 0
        XR_TYPE_SESSION_CREATE_INFO
        [ChainItem.graphicsBindingD3D11 (some 1) 2] 1 false {}).2.m_sessions 1).map
      (fun st => (st.debugFramesMax, st.debugOverlay)) = some (5, true) := by
  decide

/-! ## The scenario: sharpness 1.5 with Levels -/

theorem steps_nil (cur : ComPtr) : steps cur [] = [] := rfl

theorem steps_cons_copy (cur dst src : ComPtr) (a b c d e : Nat) (box : D3D11_BOX)
    (l : List Cmd) :
    steps cur (Cmd.copySubresourceRegion dst a b c d src e box :: l)
      = Step.copy dst src :: steps cur l := rfl

theorem steps_cons_csSetShader (cur sh : ComPtr) (l : List Cmd) :
    steps cur (Cmd.csSetShader sh :: l) = steps sh l := rfl

theorem steps_cons_dispatch (cur : ComPtr) (x y z : Nat) (l : List Cmd) :
    steps cur (Cmd.dispatch x y z :: l) = Step.run cur :: steps cur l := rfl

theorem steps_cons_csSetConstantBuffers (cur b : ComPtr) (n : Nat) (l : List Cmd) :
    steps cur (Cmd.csSetConstantBuffers n b :: l) = steps cur l := rfl

theorem steps_cons_csSetShaderResources (cur : ComPtr) (n : Nat) (v : Option View)
    (l : List Cmd) :
    steps cur (Cmd.csSetShaderResources n v :: l) = steps cur l := rfl

theorem steps_cons_csSetUnorderedAccessViews (cur : ComPtr) (n : Nat) (v : Option View)
    (l : List Cmd) :
    steps cur (Cmd.csSetUnorderedAccessViews n v :: l) = steps cur l := rfl

theorem steps_append_inert (cur : ComPtr) (l1 l2 : List Cmd)
    (h : l1.all Cmd.isInert = true) : steps cur (l1 ++ l2) = steps cur l2 := by
  induction l1 with
  | nil => rfl
  | cons c rest ih =>
    simp only [List.all_cons, Bool.and_eq_true] at h
    obtain ⟨hc, hr⟩ := h
    rw [List.cons_append]
    cases c <;> first | (simp [Cmd.isInert] at hc; done) | (simp only [steps]; exact ih hr)

theorem updateBuffer_inert (b : ComPtr) (ok : Bool) (data : CBData) :
    (updateBuffer b ok data).all Cmd.isInert = true := by
  cases ok <;> rfl

theorem timingEnd_inert (env : DispatchEnv) (s : SessionState) :
    (timingEnd env s).cmds.all Cmd.isInert = true := by
  unfold timingEnd
  split_ifs
  · split
    · split
      · rfl
      · split
        · rfl
        · dsimp only
          split_ifs <;> rfl
    · rfl
  · rfl

/-- The timing read-back changes the two timing counters only. -/
theorem timingEnd_state (env : DispatchEnv) (s : SessionState) :
    ∃ n acc, (timingEnd env s).state
      = { s with timingFrameCounter := n, timingAccumMs := acc } := by
  unfold timingEnd
  split_ifs
  · split
    · split
      · exact ⟨_, _, rfl⟩
      · split
        · exact ⟨_, _, rfl⟩
        · dsimp only
          split_ifs
          · exact ⟨_, _, rfl⟩
          · exact ⟨_, _, rfl⟩
    · exact ⟨_, _, rfl⟩
  · exact ⟨_, _, rfl⟩

/-- With both creations succeeding, on an entry that has its output whenever it
has its input, the pool block delivers an entry with both textures. -/
theorem acquireTempTextures_complete (d : Device) (td : D3D11_TEXTURE2D_DESC)
    (slot : TempTextures) (h : slot.input.isSome = true → slot.output.isSome = true) :
    (acquireTempTextures true true d td slot).ok = true ∧
    ∃ a b, (acquireTempTextures true true d td slot).slot.input = some a ∧
      (acquireTempTextures true true d td slot).slot.output = some b := by
  unfold acquireTempTextures
  by_cases h1 : (slot.input.isNone || slot.width != td.Width || slot.height != td.Height
      || slot.format != td.Format) = true
  · rw [if_pos h1]
    simp [Device.create]
  · rw [if_neg h1]
    simp only [Bool.or_eq_true, bne_iff_ne, ne_eq, not_or, Decidable.not_not] at h1
    obtain ⟨⟨⟨h1, _⟩, _⟩, _⟩ := h1
    refine ⟨rfl, ?_⟩
    cases hi : slot.input with
    | none => rw [hi] at h1; simp at h1
    | some a =>
      have ho := h (by rw [hi]; rfl)
      cases hout : slot.output with
      | none => rw [hout] at ho; simp at ho
      | some b => exact ⟨a, b, rfl, rfl⟩

theorem LevelsScenario.timingEnd {st : SessionState} {c lc lb : Handle}
    (h : LevelsScenario st c lc lb) (env : DispatchEnv) :
    LevelsScenario (timingEnd env st).state c lc lb := by
  obtain ⟨n, acc, ht⟩ := timingEnd_state env st
  rw [ht]
  exact h

/-- C18: after `xrDestroySwapchain` on `sc`, whatever the runtime returned, the
maps `m_acquired`, `m_lastReleased` and `m_swapchainImages` have no entry for
`sc` and their entries for every other swapchain are unchanged; a view that
references `sc` in a later frame is skipped for want of a last-released index,
with no fallback enumeration and no change of the layer. -/
theorem xrDestroySwapchain_forgets_swapchain (r : Int) (sc : Nat) (L : OpenXrLayer) :
    (xrDestroySwapchain r sc L).1 = r ∧
    (xrDestroySwapchain r sc L).2.m_acquired sc = none ∧
    (xrDestroySwapchain r sc L).2.m_lastReleased sc = none ∧
    (xrDestroySwapchain r sc L).2.m_swapchainImages sc = none ∧
    (∀ other, other ≠ sc →
      (xrDestroySwapchain r sc L).2.m_acquired other = L.m_acquired other ∧
      (xrDestroySwapchain r sc L).2.m_lastReleased other = L.m_lastReleased other ∧
      (xrDestroySwapchain r sc L).2.m_swapchainImages other = L.m_swapchainImages other) ∧
    (∀ (env : FrameEnv) (session vi : Nat) (sub : XrSwapchainSubImage) (d : Device),
      sub.swapchain = sc →
      processView env session vi sub (xrDestroySwapchain r sc L).2 d
        = ((xrDestroySwapchain r sc L).2, d, ViewOutcome.noLastReleased)) := by
  refine ⟨rfl, ?_, ?_, ?_, ?_, ?_⟩
  · simp [xrDestroySwapchain, eraseKey]
  · simp [xrDestroySwapchain, eraseKey]
  · simp [xrDestroySwapchain, eraseKey]
  · intro other h
    simp [xrDestroySwapchain, eraseKey, h]
  · intro env session vi sub d h
    have hl : (xrDestroySwapchain r sc L).2.m_lastReleased sub.swapchain = none := by
      simp [xrDestroySwapchain, eraseKey, h]
    unfold processView
    rw [hl]

/-- C18 (witness): swapchain 7 of `levelsLayer` is destroyed; swapchain 8 and
the left view serve as the other swapchain and the later view. -/
theorem xrDestroySwapchain_forgets_swapchain_witness :
    (xrDestroySwapchain 0 7 levelsLayer).2.m_lastReleased 7 = none ∧
    (xrDestroySwapchain 0 7 levelsLayer).2.m_lastReleased 8 = levelsLayer.m_lastReleased 8 ∧
    processView frameAllOk 1 0 leftView (xrDestroySwapchain 0 7 levelsLayer).2 ⟨100⟩
      = ((xrDestroySwapchain 0 7 levelsLayer).2, ⟨100⟩, ViewOutcome.noLastReleased) :=
  ⟨(xrDestroySwapchain_forgets_swapchain 0 7 levelsLayer).2.2.1,
   ((xrDestroySwapchain_forgets_swapchain 0 7 levelsLayer).2.2.2.2.1 8 (by decide)).2.1,
   (xrDestroySwapchain_forgets_swapchain 0 7 levelsLayer).2.2.2.2.2 frameAllOk 1 0 leftView
     ⟨100⟩ rfl⟩

/-- C19 (at the failing input): the pool of `pooledLayer` has an entry for slice 0
of swapchain 7, with the textures 200 and 201.  After `xrDestroySwapchain` on
swapchain 7 the three tracker maps have no entry for the swapchain, and the
pool entry is still there, with its two textures. -/
theorem xrDestroySwapchain_pool_entry_remains :
    pooledLayer.m_tempPool (makeTempKey 7 0)
      = some { input := some 200, output := some 201, width := 1024, height := 512,
               format := DXGI_FORMAT_R8G8B8A8_UNORM_SRGB } ∧
    (xrDestroySwapchain 0 7 pooledLayer).2.m_acquired 7 = none ∧
    (xrDestroySwapchain 0 7 pooledLayer).2.m_lastReleased 7 = none ∧
    (xrDestroySwapchain 0 7 pooledLayer).2.m_swapchainImages 7 = none ∧
    (xrDestroySwapchain 0 7 pooledLayer).2.m_tempPool (makeTempKey 7 0)
      = some { input := some 200, output := some 201, width := 1024, height := 512,
               format := DXGI_FORMAT_R8G8B8A8_UNORM_SRGB } := by
  decide

/-- The method `xrDestroySwapchain` does not touch the temp pool or the sessions. -/
theorem xrDestroySwapchain_keeps_pool (r : Int) (sc : Nat) (L : OpenXrLayer) :
    (xrDestroySwapchain r sc L).2.m_tempPool = L.m_tempPool ∧
    (xrDestroySwapchain r sc L).2.m_sessions = L.m_sessions := ⟨rfl, rfl⟩

/-! ## Forwarding the frame -/

/-- C12: whatever the layer list, the tracker state, the session, the outcomes
of the external calls and the exceptions raised in the processing, the call
sequence of `xrEndFrame` contains the runtime's `xrEndFrame` exactly once, as
its last call, with the session and `frameEndInfo` that were passed in, and
the value returned is the runtime's result. -/
theorem xrEndFrame_forwards_once (env : FrameEnv) (r : Int) (session : Nat)
    (frameEndInfo : Option (List (Option Layer))) (L : OpenXrLayer) (d : Device) :
    (xrEndFrame env r session frameEndInfo L d).result = r ∧
    (xrEndFrame env r session frameEndInfo L d).calls.filter FrameCall.isRuntimeEndFrame
      = [FrameCall.runtimeEndFrame session frameEndInfo] ∧
    (xrEndFrame env r session frameEndInfo L d).calls.getLast?
      = some (FrameCall.runtimeEndFrame session frameEndInfo) := by
  unfold xrEndFrame
  cases hs : L.m_sessions session with
  | none => exact ⟨rfl, rfl, rfl⟩
  | some st =>
    dsimp only
    generalize processViews env session 0 _ L d = p
    generalize (match p.1.m_sessions session with
      | some st1 => st1.composition
      | none => false) = c
    cases st.composition <;> cases env.preCompositionRaises <;> cases p.2.2.2 <;> cases c <;>
      simp [FrameCall.isRuntimeEndFrame]

/-! ## The views a frame processes -/

theorem firstProjection_append (before after : List (Option Layer))
    (views : List XrSwapchainSubImage)
    (h : ∀ x ∈ before, isProjection x = false) :
    firstProjection (before ++ some (Layer.projection views) :: after) = some views := by
  induction before with
  | nil => rfl
  | cons x rest ih =>
    have hx : isProjection x = false := h x (List.mem_cons_self _ _)
    have hr := ih (fun y hy => h y (List.mem_cons_of_mem _ hy))
    match x, hx with
    | none, _ => exact hr
    | some (Layer.other _), _ => exact hr
    | some (Layer.projection _), hx => simp [isProjection] at hx

theorem firstProjection_none (layers : List (Option Layer))
    (h : ∀ x ∈ layers, isProjection x = false) : firstProjection layers = none := by
  induction layers with
  | nil => rfl
  | cons x rest ih =>
    have hx : isProjection x = false := h x (List.mem_cons_self _ _)
    have hr := ih (fun y hy => h y (List.mem_cons_of_mem _ hy))
    match x, hx with
    | none, _ => exact hr
    | some (Layer.other _), _ => exact hr
    | some (Layer.projection _), hx => simp [isProjection] at hx

/-- The body of the loop calls `dispatchCas` exactly on the eligible texture of
the view; it leaves the last-released map and the texture list each
swapchain has available as they were. -/
theorem processView_source (env : FrameEnv) (session vi : Nat) (sub : XrSwapchainSubImage)
    (L : OpenXrLayer) (d : Device) :
    (processView env session vi sub L d).2.2.source = eligibleTexture env L sub ∧
    (processView env session vi sub L d).1.m_lastReleased = L.m_lastReleased ∧
    (∀ sc, availableImages env (processView env session vi sub L d).1 sc
      = availableImages env L sc) := by
  unfold processView eligibleTexture
  cases hrel : L.m_lastReleased sub.swapchain with
  | none => exact ⟨rfl, rfl, fun _ => rfl⟩
  | some o =>
    cases o with
    | none => exact ⟨rfl, rfl, fun _ => rfl⟩
    | some idx =>
      dsimp only
      cases himg : L.m_swapchainImages sub.swapchain with
      | some images =>
        simp only [availableImages, himg]
        by_cases hidx : idx < images.length
        · simp only [hidx, if_true]
          cases htex : images.getD idx none with
          | none => exact ⟨rfl, rfl, fun _ => rfl⟩
          | some tex =>
            cases hs : L.m_sessions session with
            | none => exact ⟨rfl, rfl, fun _ => rfl⟩
            | some st => exact ⟨rfl, rfl, fun _ => rfl⟩
        · simp only [hidx, if_false]
          exact ⟨rfl, trivial, fun _ => trivial⟩
      | none =>
        cases hen : env.enumerate sub.swapchain with
        | none =>
          simp only [availableImages, himg, hen]
          exact ⟨rfl, trivial, fun _ => trivial⟩
        | some texList =>
          have hav : ∀ sc, availableImages env
              { L with m_swapchainImages := setKey L.m_swapchainImages sub.swapchain texList } sc
              = availableImages env L sc := by
            intro sc
            unfold availableImages setKey
            by_cases hsc : sc = sub.swapchain
            · subst hsc
              simp [himg, hen]
            · simp [hsc]
          simp only [availableImages, himg, hen, setKey, if_true]
          by_cases hidx : idx < texList.length
          · simp only [hidx, if_true]
            cases htex : texList.getD idx none with
            | none => exact ⟨rfl, rfl, hav⟩
            | some tex =>
              cases hs : L.m_sessions session with
              | none => exact ⟨rfl, rfl, hav⟩
              | some st => exact ⟨rfl, rfl, hav⟩
          · simp only [hidx, if_false]
            exact ⟨rfl, trivial, hav⟩

/-- A body that an exception leaves has called `dispatchCas` only when the
exception is raised in its last call, and then exactly on the eligible
texture of the view. -/
theorem processViewRaising_source (env : FrameEnv) (session : Nat) (sub : XrSwapchainSubImage)
    (L : OpenXrLayer) (d : Device) (point : RaisePoint) :
    (processViewRaising env session sub L d point).2.2.map ViewOutcome.source
      = if point.isInCall = true then [eligibleTexture env L sub] else [] := by
  cases point with
  | bodyStart => rfl
  | beforeCall => rfl
  | inCall left =>
    unfold processViewRaising eligibleTexture
    simp only [RaisePoint.isInCall, if_true]
    cases hrel : L.m_lastReleased sub.swapchain with
    | none => rfl
    | some o =>
      cases o with
      | none => rfl
      | some idx =>
        dsimp only
        cases himg : L.m_swapchainImages sub.swapchain with
        | some images =>
          simp only [availableImages, himg]
          by_cases hidx : idx < images.length
          · simp only [hidx, if_true]
            cases htex : images.getD idx none with
            | none => rfl
            | some tex =>
              cases hs : L.m_sessions session with
              | none => rfl
              | some st => rfl
          · simp only [hidx, if_false]
            rfl
        | none =>
          cases hen : env.enumerate sub.swapchain with
          | none =>
            simp only [availableImages, himg, hen]
            rfl
          | some texList =>
            simp only [availableImages, himg, hen, setKey, if_true]
            by_cases hidx : idx < texList.length
            · simp only [hidx, if_true]
              cases htex : texList.getD idx none with
              | none => rfl
              | some tex =>
                cases hs : L.m_sessions session with
                | none => rfl
                | some st => rfl
            · simp only [hidx, if_false]
              rfl

theorem eligibleTexture_congr (env : FrameEnv) (L L0 : OpenXrLayer)
    (hrel : L.m_lastReleased = L0.m_lastReleased)
    (hav : ∀ sc, availableImages env L sc = availableImages env L0 sc)
    (sub : XrSwapchainSubImage) : eligibleTexture env L sub = eligibleTexture env L0 sub := by
  unfold eligibleTexture
  rw [hrel, hav]

/-- The loop calls `dispatchCas` on the eligible texture of each view it
reaches, eligibility being that of the layer at the start of the frame. -/
theorem processViews_sources (env : FrameEnv) (session : Nat) (L0 : OpenXrLayer)
    (views : List XrSwapchainSubImage) :
    ∀ (vi : Nat) (L : OpenXrLayer) (d : Device),
      L.m_lastReleased = L0.m_lastReleased →
      (∀ sc, availableImages env L sc = availableImages env L0 sc) →
      (processViews env session vi views L d).2.2.1.map ViewOutcome.source
        = (reachedViews env vi views).map (eligibleTexture env L0) := by
  induction views with
  | nil => intro vi L d _ _; rfl
  | cons sub rest ih =>
    intro vi L d hrel hav
    unfold processViews reachedViews
    by_cases hr : env.viewRaises vi = true
    · simp only [hr, if_true]
      rw [processViewRaising_source env session sub L d (env.raisePoint vi),
        eligibleTexture_congr env L L0 hrel hav]
      cases (env.raisePoint vi).isInCall <;> rfl
    · simp only [hr, if_false, Bool.false_eq_true, List.map_cons]
      obtain ⟨h1, h2, h3⟩ := processView_source env session vi sub L d
      rw [h1, eligibleTexture_congr env L L0 hrel hav]
      congr 1
      exact ih (vi + 1) _ _ (h2.trans hrel) (fun sc => (h3 sc).trans (hav sc))
theorem reachedViews_of_no_raise (env : FrameEnv) (h : ∀ vi, env.viewRaises vi = false)
    (views : List XrSwapchainSubImage) : ∀ vi, reachedViews env vi views = views := by
  induction views with
  | nil => intro vi; rfl
  | cons sub rest ih =>
    intro vi
    unfold reachedViews
    rw [h vi, ih (vi + 1)]
    rfl

/-- When view `k` is the first whose processing raises an exception, the views
reached are the `k` views before it, and view `k` too when the exception is
raised in the last call of its body. -/
theorem reachedViews_first_raise (env : FrameEnv) :
    ∀ (views : List XrSwapchainSubImage) (vi k : Nat), k < views.length →
      env.viewRaises (vi + k) = true → (∀ j, j < k → env.viewRaises (vi + j) = false) →
      reachedViews env vi views
        = views.take (if (env.raisePoint (vi + k)).isInCall = true then k + 1 else k) := by
  intro views
  induction views with
  | nil => intro vi k hk; simp at hk
  | cons sub rest ih =>
    intro vi k hk hr hb
    unfold reachedViews
    cases k with
    | zero =>
      simp only [Nat.add_zero] at hr ⊢
      rw [hr]
      simp only [if_true]
      by_cases hc : (env.raisePoint vi).isInCall = true
      · rw [if_pos hc, if_pos hc]
        rfl
      · rw [if_neg hc, if_neg hc]
        rfl
    | succ k =>
      have h0 : env.viewRaises vi = false := hb 0 (Nat.succ_pos k)
      have hvi : vi + (k + 1) = vi + 1 + k := by omega
      rw [h0, hvi]
      rw [hvi] at hr
      simp only [Bool.false_eq_true, if_false]
      rw [ih (vi + 1) k (by simpa using hk) hr (fun j hj => by
        have := hb (j + 1) (by omega)
        rwa [show vi + (j + 1) = vi + 1 + j by omega] at this)]
      by_cases hc : (env.raisePoint (vi + 1 + k)).isInCall = true
      · rw [if_pos hc, if_pos hc]
        rfl
      · rw [if_neg hc, if_neg hc]
        rfl

/-- The outcomes of a frame on a known session: one per view reached. -/
theorem xrEndFrame_views (env : FrameEnv) (r : Int) (session : Nat)
    (frameEndInfo : Option (List (Option Layer))) (L : OpenXrLayer) (d : Device)
    (st : SessionState) (hs : L.m_sessions session = some st) :
    (xrEndFrame env r session frameEndInfo L d).views
      = if (st.composition && env.preCompositionRaises) = true then []
        else (processViews env session 0
          (match frameEndInfo with
            | some layers => (firstProjection layers).getD []
            | none => []) L d).2.2.1 := by
  unfold xrEndFrame
  rw [hs]
  dsimp only
  split_ifs <;> rfl

/-- C11 (as stated, refuted): session 1 is known and has a composition
framework, the left view of the only projection layer has last-released index
1 into a cached list of three textures with texture 51 at index 1, and
`serializePreComposition` raises: the handler runs and `dispatchCas` is not
called for the view. -/
theorem xrEndFrame_exception_skips_eligible_view :
    (compositionLayer.m_sessions 1).isSome = true ∧
    compositionLayer.m_lastReleased leftView.swapchain = some (some 1) ∧
    compositionLayer.m_swapchainImages leftView.swapchain = some [some 50, some 51, some 52] ∧
    (xrEndFrame preCompositionFails 0 1 (some [some (Layer.projection [leftView])])
      compositionLayer ⟨100⟩).views = [] ∧
    (xrEndFrame preCompositionFails 0 1 (some [some (Layer.projection [leftView])])
      compositionLayer ⟨100⟩).caught = true := by
  decide

/-- C11 (amended): for an `xrEndFrame` call on a known session, `dispatchCas` is
called for exactly those views of the first projection layer of the list whose
processing gets to the call before an exception leaves the processing, and for
which the swapchain has a last-released index `i`, a texture list is cached
or delivered by the fallback enumeration, `i` is less than its length and the
texture at `i` is non-null; it is called on that texture, in view order.  No
view is reached when `serializePreComposition` raises.  When the processing of
view `k` is the first to raise, the views before `k` are reached, and view `k`
itself exactly when the exception is raised inside its `dispatchCas` call
(which was then invoked).  Without an exception every view of that layer is
reached.  No view of a later layer or of a layer of another type is
processed, and a list without a projection layer gives no call. -/
theorem xrEndFrame_dispatch_selection (env : FrameEnv) (r : Int) (session : Nat)
    (L : OpenXrLayer) (d : Device) (st : SessionState)
    (hs : L.m_sessions session = some st) :
    (∀ (before after : List (Option Layer)) (views : List XrSwapchainSubImage),
      (∀ x ∈ before, isProjection x = false) →
      (xrEndFrame env r session (some (before ++ some (Layer.projection views) :: after))
          L d).views.map ViewOutcome.source
        = (if (st.composition && env.preCompositionRaises) = true then []
           else reachedViews env 0 views).map (eligibleTexture env L)) ∧
    (∀ (before after : List (Option Layer)) (views : List XrSwapchainSubImage),
      (∀ x ∈ before, isProjection x = false) →
      (st.composition && env.preCompositionRaises) = false →
      (∀ vi, env.viewRaises vi = false) →
      (xrEndFrame env r session (some (before ++ some (Layer.projection views) :: after))
          L d).views.map ViewOutcome.source
        = views.map (eligibleTexture env L)) ∧
    (∀ (before after : List (Option Layer)) (views : List XrSwapchainSubImage) (k : Nat),
      (∀ x ∈ before, isProjection x = false) →
      (st.composition && env.preCompositionRaises) = false →
      k < views.length → env.viewRaises k = true → (∀ j, j < k → env.viewRaises j = false) →
      (xrEndFrame env r session (some (before ++ some (Layer.projection views) :: after))
          L d).views.map ViewOutcome.source
        = (views.take (if (env.raisePoint k).isInCall = true then k + 1 else k)).map
            (eligibleTexture env L)) ∧
    (∀ layers : List (Option Layer), (∀ x ∈ layers, isProjection x = false) →
      (xrEndFrame env r session (some layers) L d).views = []) ∧
    (xrEndFrame env r session none L d).views = [] := by
  have key : ∀ (before after : List (Option Layer)) (views : List XrSwapchainSubImage),
      (∀ x ∈ before, isProjection x = false) →
      (xrEndFrame env r session (some (before ++ some (Layer.projection views) :: after))
          L d).views.map ViewOutcome.source
        = (if (st.composition && env.preCompositionRaises) = true then []
           else reachedViews env 0 views).map (eligibleTexture env L) := by
    intro before after views hb
    rw [xrEndFrame_views env r session _ L d st hs]
    dsimp only
    rw [firstProjection_append before after views hb]
    split_ifs
    · rfl
    · exact processViews_sources env session L views 0 L d rfl (fun _ => rfl)
  refine ⟨key, ?_, ?_, ?_, ?_⟩
  · intro before after views hb hpre hview
    rw [key before after views hb, hpre, reachedViews_of_no_raise env hview]
    rfl
  · intro before after views k hb hpre hk hr hbefore
    have hfirst := reachedViews_first_raise env views 0 k hk (by rwa [Nat.zero_add])
      (fun j hj => by rw [Nat.zero_add]; exact hbefore j hj)
    rw [Nat.zero_add] at hfirst
    rw [key before after views hb, hpre, hfirst]
    rfl
  · intro layers hl
    rw [xrEndFrame_views env r session _ L d st hs]
    dsimp only
    rw [firstProjection_none layers hl]
    split_ifs <;> rfl
  · rw [xrEndFrame_views env r session _ L d st hs]
    split_ifs <;> rfl

/-- C11 (witness): session 1 of `levelsLayer`.  Without an exception, on a list
that holds a null entry, a layer of another type, the projection layer of the
left and right view, and a second projection layer, `dispatchCas` is called
for the two views of the first projection layer.  When the `dispatchCas` call
of the left view raises, it was called for the left view and is not called
for the right view. -/
theorem xrEndFrame_dispatch_selection_witness :
    (xrEndFrame frameAllOk 0 1
        (some ([none, some (Layer.other 1)] ++
          some (Layer.projection [leftView, rightView]) ::
            [some (Layer.projection [sliceOneView])]))
        levelsLayer ⟨100⟩).views.map ViewOutcome.source = [some 51, some 51] ∧
    (xrEndFrame firstDispatchRaises 0 1
        (some ([] ++ some (Layer.projection [leftView, rightView]) :: []))
        levelsLayer ⟨100⟩).views.map ViewOutcome.source = [some 51] ∧
    (xrEndFrame firstDispatchRaises 0 1
        (some ([] ++ some (Layer.projection [leftView, rightView]) :: []))
        levelsLayer ⟨100⟩).caught = true :=
  ⟨((xrEndFrame_dispatch_selection frameAllOk 0 1 levelsLayer ⟨100⟩ levelsSession rfl).2.1
      [none, some (Layer.other 1)] [some (Layer.projection [sliceOneView])]
      [leftView, rightView] (by decide) rfl (fun _ => rfl)).trans (by decide),
   ((xrEndFrame_dispatch_selection firstDispatchRaises 0 1 levelsLayer ⟨100⟩ levelsSession
      rfl).2.2.1 [] [] [leftView, rightView] 0 (by decide) rfl (by decide) rfl
      (fun j hj => absurd hj (Nat.not_lt_zero j))).trans (by decide),
   rfl⟩

/-! ## Failure of the primary shader -/

theorem createPrimaryShader_ok (env : EnsureEnv) (d : Device) (s : SessionState) :
    (createPrimaryShader env d s).ok = primaryBuilds env := by
  unfold createPrimaryShader primaryBuilds
  simp only [Device.create]
  split_ifs <;> simp_all

/-- A failed creation of the primary shader leaves the shader as it was or
null, and changes nothing else in the session. -/
theorem createPrimaryShader_failed (env : EnsureEnv) (d : Device) (s : SessionState)
    (h : (createPrimaryShader env d s).ok = false) :
    (createPrimaryShader env d s).state = s ∨
    (createPrimaryShader env d s).state = { s with cs := none } := by
  revert h
  unfold createPrimaryShader
  simp only [Device.create]
  split_ifs <;> simp_all

/-- On a settled state every later `ensureCasObjects` call returns the value of
the fast-path test, does no work and leaves the state unchanged. -/
theorem ensureCasObjectsCalls_of_settled (s : SessionState)
    (h : s.appD3DDevice.isNone = true ∨ casObjectsReady s = true ∨
      (s.shaderInitAttempted = true ∧ s.shaderInitFailed = true)) :
    ∀ (envs : List EnsureEnv) (d : Device) (x : EnsureResult),
      x ∈ ensureCasObjectsCalls envs d s →
      x.ok = casObjectsReady s ∧ x.work = [] ∧ x.state = s ∧ x.device = d := by
  intro envs
  induction envs with
  | nil => intro d x hx; simp [ensureCasObjectsCalls] at hx
  | cons env rest ih =>
    intro d x hx
    unfold ensureCasObjectsCalls at hx
    rw [ensureCasObjects_of_settled env d s h] at hx
    rcases List.mem_cons.mp hx with hx | hx
    · subst hx
      exact ⟨rfl, rfl, rfl, rfl⟩
    · exact ih d x hx

/-- C13: a call of `ensureCasObjects` on a session with a device whose objects
are not ready, in which the primary shader can neither be created from
`CAS.cso` nor compiled and created from `CAS.hlsl`, returns failure and leaves
`shaderInitFailed` set; every later `ensureCasObjects` call on the session,
whatever its external calls would deliver, returns failure, performs no load,
compilation or creation, and leaves the session state unchanged. -/
theorem ensureCasObjects_primary_failure_sticky (env : EnsureEnv) (d : Device)
    (s : SessionState) (hdev : s.appD3DDevice.isSome = true)
    (hnot : casObjectsReady s = false)
    (hcso : (env.csoExists && env.csoBytesNonEmpty && env.csoCreateOk) = false)
    (hsrc : ((env.loadCompilerSystem || env.loadCompilerLocal) && env.getProcOk
      && env.compileCasOk && env.blobCreateOk) = false) :
    (ensureCasObjects env d s).ok = false ∧
    (ensureCasObjects env d s).state.shaderInitFailed = true ∧
    ∀ (later : List EnsureEnv) (x : EnsureResult),
      x ∈ ensureCasObjectsCalls later (ensureCasObjects env d s).device
        (ensureCasObjects env d s).state →
      x.ok = false ∧ x.work = [] ∧ x.state = (ensureCasObjects env d s).state := by
  have hb : primaryBuilds env = false := by
    unfold primaryBuilds
    rw [hcso, hsrc]
    rfl
  have main : (ensureCasObjects env d s).ok = false ∧
      (ensureCasObjects env d s).state.shaderInitAttempted = true ∧
      (ensureCasObjects env d s).state.shaderInitFailed = true ∧
      casObjectsReady (ensureCasObjects env d s).state = false := by
    by_cases hst : (s.shaderInitAttempted = true ∧ s.shaderInitFailed = true)
    · rw [ensureCasObjects_of_settled env d s (Or.inr (Or.inr hst))]
      exact ⟨hnot, hst.1, hst.2, hnot⟩
    · have hd : s.appD3DDevice.isNone = false := by
        cases hx : s.appD3DDevice with
        | none => rw [hx] at hdev; simp at hdev
        | some _ => rfl
      have hfast : (s.cs.isSome && (!s.levelsEnabled || s.levelsCS.isSome)
          && (!s.fakeHdrEnabled || s.fakeHdrCS.isSome)) = false := by
        unfold casObjectsReady at hnot
        rw [hdev] at hnot
        simpa using hnot
      have hst2 : (s.shaderInitAttempted && s.shaderInitFailed) = false := by
        cases ha : s.shaderInitAttempted <;> cases hf : s.shaderInitFailed <;> simp_all
      have hp := createPrimaryShader_ok env d { s with shaderInitAttempted := true }
      rw [hb] at hp
      have hf := createPrimaryShader_failed env d { s with shaderInitAttempted := true } hp
      unfold ensureCasObjects
      simp only [hd, hfast, hst2, hp, Bool.false_eq_true, if_false, Bool.not_false, if_true]
      rcases hf with hf | hf
      · rw [hf]
        refine ⟨by trivial, by trivial, by trivial, ?_⟩
        simpa [casObjectsReady] using hnot
      · rw [hf]
        refine ⟨by trivial, by trivial, by trivial, ?_⟩
        simp [casObjectsReady]
  refine ⟨main.1, main.2.2.1, ?_⟩
  intro later x hx
  obtain ⟨h1, h2, h3, _⟩ := ensureCasObjectsCalls_of_settled (ensureCasObjects env d s).state
    (Or.inr (Or.inr ⟨main.2.1, main.2.2.1⟩)) later _ x hx
  exact ⟨h1.trans main.2.2.2, h2, h3⟩

/-- C13 (witness): a new session, with neither `CAS.cso` nor a compiler found;
the two later calls are made where everything would succeed. -/
theorem ensureCasObjects_primary_failure_sticky_witness :
    (ensureCasObjects primaryShaderFails ⟨100⟩ freshSession).ok = false ∧
    (ensureCasObjects primaryShaderFails ⟨100⟩ freshSession).state.shaderInitFailed = true ∧
    ∀ x ∈ ensureCasObjectsCalls [ensureAllOk, ensureAllOk]
        (ensureCasObjects primaryShaderFails ⟨100⟩ freshSession).device
        (ensureCasObjects primaryShaderFails ⟨100⟩ freshSession).state,
      x.ok = false ∧ x.work = [] ∧
        x.state = (ensureCasObjects primaryShaderFails ⟨100⟩ freshSession).state :=
  have h := ensureCasObjects_primary_failure_sticky primaryShaderFails ⟨100⟩ freshSession
    rfl rfl rfl rfl
  ⟨h.1, h.2.1, fun x hx => h.2.2 [ensureAllOk, ensureAllOk] x hx⟩

/-! ## A session without a D3D11 device -/

/-- Reading the configuration leaves the device, the context, the composition
framework and the primary shader of the state as they are. -/
theorem readSessionConfig_objects (host : Host) (state : SessionState) :
    (readSessionConfig host state).appD3DDevice = state.appD3DDevice ∧
    (readSessionConfig host state).appD3DContext = state.appD3DContext ∧
    (readSessionConfig host state).composition = state.composition ∧
    (readSessionConfig host state).cs = state.cs := by
  have key : (fun s : SessionState => (s.appD3DDevice, s.appD3DContext, s.composition, s.cs))
      (readSessionConfig host state)
      = (state.appD3DDevice, state.appD3DContext, state.composition, state.cs) := by
    unfold readSessionConfig
    lift_lets
    extract_lets s1 ef s2 s3 eo s4 s5 s6 s7 s8 s9 s10 s11 s12 s13 s14 s15
    have h2 : (s2.appD3DDevice, s2.appD3DContext, s2.composition, s2.cs)
        = (state.appD3DDevice, state.appD3DContext, state.composition, state.cs) := by
      simp only [s2]; repeat' split
      all_goals rfl
    have h3 : (s3.appD3DDevice, s3.appD3DContext, s3.composition, s3.cs)
        = (s2.appD3DDevice, s2.appD3DContext, s2.composition, s2.cs) := by
      simp only [s3]; repeat' split
      all_goals rfl
    have h4 : (s4.appD3DDevice, s4.appD3DContext, s4.composition, s4.cs)
        = (s3.appD3DDevice, s3.appD3DContext, s3.composition, s3.cs) := by
      simp only [s4]; repeat' split
      all_goals rfl
    have h5 : (s5.appD3DDevice, s5.appD3DContext, s5.composition, s5.cs)
        = (s4.appD3DDevice, s4.appD3DContext, s4.composition, s4.cs) := by
      simp only [s5]; repeat' split
      all_goals rfl
    have h6 : (s6.appD3DDevice, s6.appD3DContext, s6.composition, s6.cs)
        = (s5.appD3DDevice, s5.appD3DContext, s5.composition, s5.cs) := by
      simp only [s6]; repeat' split
      all_goals rfl
    have h7 : (s7.appD3DDevice, s7.appD3DContext, s7.composition, s7.cs)
        = (s6.appD3DDevice, s6.appD3DContext, s6.composition, s6.cs) := by
      simp only [s7]; repeat' split
      all_goals rfl
    have h8 : (s8.appD3DDevice, s8.appD3DContext, s8.composition, s8.cs)
        = (s7.appD3DDevice, s7.appD3DContext, s7.composition, s7.cs) := by
      simp only [s8]; repeat' split
      all_goals rfl
    have h9 : (s9.appD3DDevice, s9.appD3DContext, s9.composition, s9.cs)
        = (s8.appD3DDevice, s8.appD3DContext, s8.composition, s8.cs) := by
      simp only [s9]; repeat' split
      all_goals rfl
    have h10 : (s10.appD3DDevice, s10.appD3DContext, s10.composition, s10.cs)
        = (s9.appD3DDevice, s9.appD3DContext, s9.composition, s9.cs) := by
      simp only [s10]; repeat' split
      all_goals rfl
    have h11 : (s11.appD3DDevice, s11.appD3DContext, s11.composition, s11.cs)
        = (s10.appD3DDevice, s10.appD3DContext, s10.composition, s10.cs) := by
      simp only [s11]; repeat' split
      all_goals rfl
    have h12 : (s12.appD3DDevice, s12.appD3DContext, s12.composition, s12.cs)
        = (s11.appD3DDevice, s11.appD3DContext, s11.composition, s11.cs) := by
      simp only [s12]; repeat' split
      all_goals rfl
    have h13 : (s13.appD3DDevice, s13.appD3DContext, s13.composition, s13.cs)
        = (s12.appD3DDevice, s12.appD3DContext, s12.composition, s12.cs) := by
      simp only [s13]; repeat' split
      all_goals rfl
    have h14 : (s14.appD3DDevice, s14.appD3DContext, s14.composition, s14.cs)
        = (s13.appD3DDevice, s13.appD3DContext, s13.composition, s13.cs) := by
      simp only [s14]; repeat' split
      all_goals rfl
    have h15 : (s15.appD3DDevice, s15.appD3DContext, s15.composition, s15.cs)
        = (s14.appD3DDevice, s14.appD3DContext, s14.composition, s14.cs) := by
      simp only [s15]; repeat' split
      all_goals rfl
    exact h15.trans (h14.trans (h13.trans (h12.trans (h11.trans (h10.trans (h9.trans
      (h8.trans (h7.trans (h6.trans (h5.trans (h4.trans (h3.trans h2))))))))))))
  simp only [Prod.mk.injEq] at key
  exact key

theorem findD3D11Binding_none (chain : List ChainItem)
    (h : ∀ dev ctx, ChainItem.graphicsBindingD3D11 dev ctx ∈ chain → dev = none) :
    findD3D11Binding chain = (none, none) := by
  induction chain with
  | nil => rfl
  | cons item rest ih =>
    cases item with
    | graphicsBindingD3D11 dev ctx =>
      have hd : dev = none := h dev ctx (List.mem_cons_self _ _)
      subst hd
      rfl
    | other t =>
      exact ih (fun dev ctx hm => h dev ctx (List.mem_cons_of_mem _ hm))

/-- On a session without device `dispatchCas` returns at its first check: no
command, no work, the state and the pool unchanged. -/
theorem dispatchCas_without_device (env : DispatchEnv) (d : Device) (s : SessionState)
    (swapchain : Nat) (source : Handle) (td : D3D11_TEXTURE2D_DESC) (sub : XrSwapchainSubImage)
    (pool : TempPool) (h : s.appD3DDevice = none) :
    dispatchCas env d s swapchain source td sub pool
      = { state := s, device := d, pool := pool, work := [], cmds := [], logged := [],
          completed := false } := by
  have hr : casObjectsReady s = false := by simp [casObjectsReady, h]
  unfold dispatchCas
  rw [ensureCasObjects_of_settled env.ensure d s (Or.inl (by simp [h])), hr]
  rfl

theorem dispatchCasCalls_without_device (s : SessionState) (h : s.appD3DDevice = none) :
    ∀ (calls : List DispatchCall) (d : Device) (pool : TempPool)
      (x : DispatchCall × DispatchResult),
      x ∈ dispatchCasCalls calls d s pool →
      x.2.cmds = [] ∧ x.2.work = [] ∧ x.2.state = s ∧ x.2.pool = pool ∧
        x.2.completed = false := by
  intro calls
  induction calls with
  | nil => intro d pool x hx; simp [dispatchCasCalls] at hx
  | cons c rest ih =>
    intro d pool x hx
    unfold dispatchCasCalls at hx
    rw [dispatchCas_without_device c.env d s c.swapchain c.source c.td c.sub pool h] at hx
    rcases List.mem_cons.mp hx with hx | hx
    · subst hx
      exact ⟨rfl, rfl, rfl, rfl, rfl⟩
    · exact ih d pool x hx

/-- C15: when no D3D11 graphics binding of the chain has a non-null device,
`xrCreateSession` (called with a create-info structure of the right type)
returns the runtime's result, and when that result is a success it registers
a session state without device; on that state every `ensureCasObjects` call
returns failure, does no work and changes nothing, and every `dispatchCas`
call issues no command, does no work and leaves state and pool unchanged. -/
theorem xrCreateSession_without_device (host : Host) (r : Int) (chain : List ChainItem)
    (session : Nat) (framework : Bool) (L : OpenXrLayer)
    (hchain : ∀ dev ctx, ChainItem.graphicsBindingD3D11 dev ctx ∈ chain → dev = none) :
    (xrCreateSession host r XR_TYPE_SESSION_CREATE_INFO chain session framework L).1 = r ∧
    (XR_SUCCEEDED r = true →
      ∃ st, (xrCreateSession host r XR_TYPE_SESSION_CREATE_INFO chain session framework
          L).2.m_sessions session = some st ∧
        st.appD3DDevice = none ∧
        (∀ (envs : List EnsureEnv) (d : Device) (x : EnsureResult),
          x ∈ ensureCasObjectsCalls envs d st →
          x.ok = false ∧ x.work = [] ∧ x.state = st) ∧
        (∀ (calls : List DispatchCall) (d : Device) (pool : TempPool)
          (x : DispatchCall × DispatchResult),
          x ∈ dispatchCasCalls calls d st pool →
          x.2.cmds = [] ∧ x.2.work = [] ∧ x.2.state = st ∧ x.2.pool = pool ∧
            x.2.completed = false)) := by
  constructor
  · unfold xrCreateSession
    split_ifs <;> first | rfl | contradiction
  · intro hr
    have hb := findD3D11Binding_none chain hchain
    have hdev : (readSessionConfig host
        { composition := L.m_compFactory && framework,
          appD3DDevice := (findD3D11Binding chain).1,
          appD3DContext := (findD3D11Binding chain).2 }).appD3DDevice = none := by
      rw [(readSessionConfig_objects host _).1, hb]
    refine ⟨_, ?_, hdev, ?_, ?_⟩
    · unfold xrCreateSession
      simp [hr, setKey]
    · intro envs d x hx
      obtain ⟨h1, h2, h3, _⟩ := ensureCasObjectsCalls_of_settled _
        (Or.inl (by rw [hdev]; rfl)) envs d x hx
      refine ⟨?_, h2, h3⟩
      rw [h1]
      simp [casObjectsReady, hdev]
    · exact dispatchCasCalls_without_device _ hdev

/-- C15 (witness): a chain with a binding of another graphics API and a D3D11
binding whose device is null; the runtime returns `XR_SUCCESS` and session 1. -/
theorem xrCreateSession_without_device_witness :
    (xrCreateSession layeredHost 0 XR_TYPE_SESSION_CREATE_INFO
      [ChainItem.other 5, ChainItem.graphicsBindingD3D11 none 2] 1 false {}).1 = 0 ∧
    ∃ st, (xrCreateSession layeredHost 0 XR_TYPE_SESSION_CREATE_INFO
        [ChainItem.other 5, ChainItem.graphicsBindingD3D11 none 2] 1 false {}).2.m_sessions 1
          = some st ∧
      st.appD3DDevice = none ∧
      (∀ (envs : List EnsureEnv) (d : Device) (x : EnsureResult),
        x ∈ ensureCasObjectsCalls envs d st →
        x.ok = false ∧ x.work = [] ∧ x.state = st) ∧
      (∀ (calls : List DispatchCall) (d : Device) (pool : TempPool)
        (x : DispatchCall × DispatchResult),
        x ∈ dispatchCasCalls calls d st pool →
        x.2.cmds = [] ∧ x.2.work = [] ∧ x.2.state = st ∧ x.2.pool = pool ∧
          x.2.completed = false) :=
  have h := xrCreateSession_without_device layeredHost 0
    [ChainItem.other 5, ChainItem.graphicsBindingD3D11 none 2] 1 false {}
    (by intro dev ctx h; simp at h; exact h.1)
  ⟨h.1, h.2 (by decide)⟩

/-! ## Failure of a secondary shader -/

/-- The primary loop issues one dispatch per pass it runs, with the shader
bound before the loop; it runs all `n` passes when it completes. -/
theorem primaryPasses_steps (env : DispatchEnv) (f g : DXGI_FORMAT) (x y : Nat) :
    ∀ (n pass : Nat) (a b : ComPtr),
      ∃ k, k ≤ n ∧ ((primaryPasses env f g x y n pass a b).completed = true → k = n) ∧
        ∀ (cur : ComPtr) (l : List Cmd),
          steps cur ((primaryPasses env f g x y n pass a b).cmds ++ l)
            = List.replicate k (Step.run cur) ++ steps cur l := by
  intro n
  induction n with
  | zero =>
    intro pass a b
    exact ⟨0, le_refl _, fun _ => rfl, fun _ _ => rfl⟩
  | succ n ih =>
    intro pass a b
    unfold primaryPasses
    by_cases h1 : (env.srvOk pass && a.isSome) = true
    · by_cases h2 : (env.uavOk pass && b.isSome) = true
      · obtain ⟨k, hk, hc, hs⟩ := ih (pass + 1) b a
        refine ⟨k + 1, Nat.succ_le_succ hk, ?_, ?_⟩
        · simp only [h1, h2, Bool.not_true, Bool.false_eq_true, if_false]
          intro h
          rw [hc h]
        · intro cur l
          simp only [h1, h2, Bool.not_true, Bool.false_eq_true, if_false, List.cons_append,
            List.nil_append, List.append_assoc, steps_cons_dispatch,
            steps_cons_csSetShaderResources, steps_cons_csSetUnorderedAccessViews, hs,
            List.replicate_succ]
      · refine ⟨0, Nat.zero_le _, ?_, ?_⟩
        · simp [h1, h2]
        · intro cur l
          simp only [h1, h2, Bool.not_true, Bool.false_eq_true, if_false, Bool.not_false,
            if_true, List.cons_append, List.nil_append, steps_cons_csSetShaderResources,
            List.replicate_zero]
    · refine ⟨0, Nat.zero_le _, ?_, ?_⟩
      · simp [h1]
      · intro cur l
        simp only [h1, Bool.not_false, if_true, List.nil_append, List.replicate_zero]

/-- The primary loop completes when the views of every pass can be created and
both textures exist. -/
theorem primaryPasses_completes (env : DispatchEnv) (f g : DXGI_FORMAT) (x y : Nat)
    (hv : ∀ pass, env.srvOk pass = true ∧ env.uavOk pass = true) :
    ∀ (n pass : Nat) (a b : ComPtr), a.isSome = true → b.isSome = true →
      (primaryPasses env f g x y n pass a b).completed = true := by
  intro n
  induction n with
  | zero => intro pass a b _ _; rfl
  | succ n ih =>
    intro pass a b ha hb
    unfold primaryPasses
    simp only [(hv pass).1, (hv pass).2, ha, hb, Bool.and_self, Bool.not_true,
      Bool.false_eq_true, if_false]
    exact ih (pass + 1) b a hb ha

/-- The FakeHDR pass issues one dispatch of its shader when it runs, and nothing otherwise. -/
theorem fakeHdrPass_steps (env : DispatchEnv) (s : SessionState) (slot : TempTextures)
    (f g : DXGI_FORMAT) (ox oy w h x y : Nat) (t : ComPtr) (cur : ComPtr) (l : List Cmd) :
    steps cur ((fakeHdrPass env s slot f g ox oy w h x y t).cmds ++ l)
      = if fakeHdrActive s = true then Step.run s.fakeHdrCS :: steps s.fakeHdrCS l
        else steps cur l := by
  unfold fakeHdrPass fakeHdrActive
  by_cases h1 : (s.fakeHdrEnabled && s.fakeHdrCS.isSome && s.fakeHdrCB.isSome) = true
  · rw [if_pos h1, if_pos h1]
    simp only [List.append_assoc, steps_append_inert _ _ _ (updateBuffer_inert _ _ _),
      List.cons_append, List.nil_append, steps_cons_csSetShader, steps_cons_dispatch,
      steps_cons_csSetConstantBuffers, steps_cons_csSetShaderResources,
      steps_cons_csSetUnorderedAccessViews]
  · rw [if_neg h1, if_neg h1]
    rfl

/-- The Levels pass issues one dispatch of its shader when it runs, and nothing otherwise. -/
theorem levelsPass_steps (env : DispatchEnv) (s : SessionState) (slot : TempTextures)
    (f g : DXGI_FORMAT) (x y : Nat) (t : ComPtr) (cur : ComPtr) (l : List Cmd) :
    steps cur ((levelsPass env s slot f g x y t).cmds ++ l)
      = if levelsActive s = true then Step.run s.levelsCS :: steps s.levelsCS l
        else steps cur l := by
  unfold levelsPass levelsActive
  by_cases h1 : (s.levelsEnabled && s.levelsCS.isSome && s.levelsCB.isSome) = true
  · rw [if_pos h1, if_pos h1]
    simp only [List.append_assoc, steps_append_inert _ _ _ (updateBuffer_inert _ _ _),
      List.cons_append, List.nil_append, steps_cons_csSetShader, steps_cons_dispatch,
      steps_cons_csSetConstantBuffers, steps_cons_csSetShaderResources,
      steps_cons_csSetUnorderedAccessViews]
  · rw [if_neg h1, if_neg h1]
    rfl
/-- The copies and dispatches of the pass chain.  A completed chain copies the
source into `input`, runs every primary pass, then each secondary pass that
is active, and copies the result back; a chain that returns early has copied
the source in and run some of the primary passes.  The state changes in the
timing counters only, and the chain completes when the views of every
primary pass can be created on an entry with both textures. -/
theorem runPassChain_steps (env : DispatchEnv) (s : SessionState) (source : Handle)
    (td : D3D11_TEXTURE2D_DESC) (sub : XrSwapchainSubImage) (slot : TempTextures) :
    sameObjects s (runPassChain env s source td sub slot).state ∧
    ((runPassChain env s source td sub slot).completed = true →
      ∃ final, steps none (runPassChain env s source td sub slot).cmds
        = Step.copy slot.input (some source) ::
          (List.replicate (totalPasses env.intOverflow s.sharpness).toNat (Step.run s.cs) ++
           (if fakeHdrActive s = true then [Step.run s.fakeHdrCS] else []) ++
           (if levelsActive s = true then [Step.run s.levelsCS] else []) ++
           [Step.copy (some source) final])) ∧
    ((runPassChain env s source td sub slot).completed = false →
      ∃ k, k ≤ (totalPasses env.intOverflow s.sharpness).toNat ∧
        steps none (runPassChain env s source td sub slot).cmds
          = Step.copy slot.input (some source) :: List.replicate k (Step.run s.cs)) ∧
    ((∀ pass, env.srvOk pass = true ∧ env.uavOk pass = true) →
      slot.input.isSome = true → slot.output.isSome = true →
      (runPassChain env s source td sub slot).completed = true) := by
  obtain ⟨k, hk, hc, hs⟩ := primaryPasses_steps env (mapSrvFormat td.Format)
    (mapUavFormat td.Format)
    (addUINT (if sub.extentWidth ≠ 0 then toUINT sub.extentWidth else td.Width) 15 / 16)
    (addUINT (if sub.extentHeight ≠ 0 then toUINT sub.extentHeight else td.Height) 15 / 16)
    (totalPasses env.intOverflow s.sharpness).toNat 0 slot.input slot.output
  have hcomp := fun hv => primaryPasses_completes env (mapSrvFormat td.Format)
    (mapUavFormat td.Format)
    (addUINT (if sub.extentWidth ≠ 0 then toUINT sub.extentWidth else td.Width) 15 / 16)
    (addUINT (if sub.extentHeight ≠ 0 then toUINT sub.extentHeight else td.Height) 15 / 16)
    hv (totalPasses env.intOverflow s.sharpness).toNat 0 slot.input slot.output
  obtain ⟨m, acc, ht⟩ := timingEnd_state env s
  have hti := timingEnd_inert env s
  have hb : ∀ l : List Cmd,
      steps none ((if (s.qDisjoint.isSome && s.qBegin.isSome && s.qEnd.isSome) = true then
          [Cmd.queryBegin s.qDisjoint, Cmd.queryEnd s.qBegin] else []) ++ l) = steps none l := by
    intro l
    split_ifs <;> rfl
  unfold runPassChain
  dsimp only
  generalize primaryPasses env (mapSrvFormat td.Format) (mapUavFormat td.Format)
    (addUINT (if sub.extentWidth ≠ 0 then toUINT sub.extentWidth else td.Width) 15 / 16)
    (addUINT (if sub.extentHeight ≠ 0 then toUINT sub.extentHeight else td.Height) 15 / 16)
    (totalPasses env.intOverflow s.sharpness).toNat 0 slot.input slot.output = p
    at hc hs hcomp ⊢
  generalize timingEnd env s = t at ht hti ⊢
  have e1 : fakeHdrActive t.state = fakeHdrActive s := by rw [ht]; rfl
  have e2 : levelsActive t.state = levelsActive s := by rw [ht]; rfl
  have e3 : t.state.fakeHdrCS = s.fakeHdrCS := by rw [ht]
  have e4 : t.state.levelsCS = s.levelsCS := by rw [ht]
  cases hp : p.completed with
  | false =>
    simp only [Bool.not_false, if_true]
    refine ⟨⟨s.timingFrameCounter, s.timingAccumMs, rfl⟩, fun h => by simp at h, ?_, ?_⟩
    · intro _
      refine ⟨k, hk, ?_⟩
      have hs2 := hs s.cs []
      rw [List.append_nil] at hs2
      simp only [List.append_assoc, List.cons_append, List.nil_append, steps_cons_copy,
        steps_append_inert _ _ _ (updateBuffer_inert _ _ _), hb, steps_cons_csSetShader,
        steps_cons_csSetConstantBuffers, hs2, steps_nil, List.append_nil]
    · intro hv hi ho
      rw [hcomp hv hi ho] at hp
      exact absurd hp (by simp)
  | true =>
    simp only [Bool.not_true, Bool.false_eq_true, if_false]
    refine ⟨⟨m, acc, ht⟩, ?_, fun h => by simp at h, fun _ _ _ => trivial⟩
    intro _
    have hkn : k = (totalPasses env.intOverflow s.sharpness).toNat := hc hp
    apply Exists.intro
    simp only [List.append_assoc, List.cons_append, List.nil_append, steps_cons_copy,
      steps_append_inert _ _ _ (updateBuffer_inert _ _ _), hb, steps_cons_csSetShader,
      steps_cons_csSetConstantBuffers, hs, steps_append_inert _ _ _ hti,
      steps_cons_csSetShaderResources, steps_cons_csSetUnorderedAccessViews,
      fakeHdrPass_steps, levelsPass_steps, e1, e2, e3, e4, steps_nil, hkn]
    by_cases a1 : fakeHdrActive s = true <;> by_cases a2 : levelsActive s = true <;>
      simp only [a1, a2, if_true, if_false, steps_cons_copy, steps_nil, List.append_nil,
        List.cons_append, List.nil_append, levelsPass_steps, e2, e4] <;> rfl
theorem sameObjects_refl (s : SessionState) : sameObjects s s :=
  ⟨s.timingFrameCounter, s.timingAccumMs, rfl⟩

theorem sameObjects_trans {s0 s1 s2 : SessionState} (h1 : sameObjects s0 s1)
    (h2 : sameObjects s1 s2) : sameObjects s0 s2 := by
  obtain ⟨n1, a1, rfl⟩ := h1
  obtain ⟨n2, a2, rfl⟩ := h2
  exact ⟨n2, a2, rfl⟩

theorem entryComplete_getD (pool : TempPool) (k : Nat) (h : entryComplete pool k = true) :
    ((pool k).getD {}).input.isSome = true → ((pool k).getD {}).output.isSome = true := by
  unfold entryComplete at h
  cases hp : pool k with
  | none => intro h1; simp at h1
  | some slot =>
    rw [hp] at h
    intro h1
    have h2 : slot.input.isSome = true := h1
    simp only [h2, Bool.not_true, Bool.false_or] at h
    exact h

/-- One `dispatchCas` call on a session whose objects are ready. -/
theorem dispatchCas_ready (env : DispatchEnv) (d : Device) (s : SessionState)
    (swapchain : Nat) (source : Handle) (td : D3D11_TEXTURE2D_DESC) (sub : XrSwapchainSubImage)
    (pool : TempPool) (hr : casObjectsReady s = true) :
    sameObjects s (dispatchCas env d s swapchain source td sub pool).state ∧
    ((dispatchCas env d s swapchain source td sub pool).completed = true →
      ∃ a final, steps none (dispatchCas env d s swapchain source td sub pool).cmds
        = Step.copy a (some source) ::
          (List.replicate (totalPasses env.intOverflow s.sharpness).toNat (Step.run s.cs) ++
           (if fakeHdrActive s = true then [Step.run s.fakeHdrCS] else []) ++
           (if levelsActive s = true then [Step.run s.levelsCS] else []) ++
           [Step.copy (some source) final])) ∧
    ((dispatchCas env d s swapchain source td sub pool).completed = false →
      steps none (dispatchCas env d s swapchain source td sub pool).cmds = [] ∨
      ∃ a k, k ≤ (totalPasses env.intOverflow s.sharpness).toNat ∧
        steps none (dispatchCas env d s swapchain source td sub pool).cmds
          = Step.copy a (some source) :: List.replicate k (Step.run s.cs)) ∧
    (supported td.Format = true → td.SampleCount = 1 → env.createInputOk = true →
      env.createOutputOk = true → (∀ pass, env.srvOk pass = true ∧ env.uavOk pass = true) →
      (∀ k, entryComplete pool k = true) →
      (dispatchCas env d s swapchain source td sub pool).completed = true ∧
      ∀ k, entryComplete (dispatchCas env d s swapchain source td sub pool).pool k = true) := by
  have he := ensureCasObjects_of_settled env.ensure d s (Or.inr (Or.inl hr))
  rw [hr] at he
  by_cases hgo : supported td.Format = true ∧ td.SampleCount = 1 ∧
      (acquireTempTextures env.createInputOk env.createOutputOk d td
        ((pool (makeTempKey swapchain sub.imageArrayIndex)).getD {})).ok = true
  · obtain ⟨hf, hc, ha⟩ := hgo
    have h := dispatchCas_of_pool_ok env d s swapchain source td sub pool (by rw [he]) hf hc
      (by rw [he]; exact ha)
    rw [he] at h
    dsimp only at h
    obtain ⟨c1, c2, c3, c4⟩ := runPassChain_steps env s source td sub
      (acquireTempTextures env.createInputOk env.createOutputOk d td
        ((pool (makeTempKey swapchain sub.imageArrayIndex)).getD {})).slot
    rw [h]
    refine ⟨c1, ?_, ?_, ?_⟩
    · intro hx
      obtain ⟨final, hfin⟩ := c2 hx
      exact ⟨_, final, hfin⟩
    · intro hx
      obtain ⟨k, hk, hst⟩ := c3 hx
      exact Or.inr ⟨_, k, hk, hst⟩
    · intro _ _ hi ho hv hpool
      have hslot := entryComplete_getD pool (makeTempKey swapchain sub.imageArrayIndex)
        (hpool _)
      obtain ⟨_, a, b, hia, hib⟩ := acquireTempTextures_complete d td _ hslot
      rw [hi, ho] at c4
      refine ⟨?_, ?_⟩
      · rw [hi, ho]
        exact c4 hv (by rw [hia]; rfl) (by rw [hib]; rfl)
      · intro k
        by_cases hk : k = makeTempKey swapchain sub.imageArrayIndex
        · simp [entryComplete, hk, hi, ho, hia, hib]
        · simp only [entryComplete, hk, if_false]
          exact hpool k
  · have hx : dispatchCas env d s swapchain source td sub pool
        = { state := s, device := (dispatchCas env d s swapchain source td sub pool).device,
            pool := (dispatchCas env d s swapchain source td sub pool).pool,
            work := (dispatchCas env d s swapchain source td sub pool).work, cmds := [],
            logged := [], completed := false } := by
      unfold dispatchCas
      rw [he]
      dsimp only
      by_cases hf : supported td.Format = true
      · by_cases hc : td.SampleCount = 1
        · have ha : (acquireTempTextures env.createInputOk env.createOutputOk d td
              ((pool (makeTempKey swapchain sub.imageArrayIndex)).getD {})).ok = false := by
            cases hok : (acquireTempTextures env.createInputOk env.createOutputOk d td
              ((pool (makeTempKey swapchain sub.imageArrayIndex)).getD {})).ok with
            | false => rfl
            | true => exact absurd ⟨hf, hc, hok⟩ hgo
          simp [hf, hc, ha]
        · simp [hf, hc]
      · simp [hf]
    rw [hx]
    refine ⟨sameObjects_refl s, fun h => by simp at h, fun _ => Or.inl rfl, ?_⟩
    intro hf hc hi ho _ hpool
    have hslot := entryComplete_getD pool (makeTempKey swapchain sub.imageArrayIndex)
      (hpool _)
    obtain ⟨aok, _⟩ := acquireTempTextures_complete d td _ hslot
    rw [hi, ho] at hgo
    exact absurd ⟨hf, hc, aok⟩ hgo
/-- Every later `dispatchCas` call on a session whose objects are ready. -/
theorem dispatchCasCalls_ready (s0 : SessionState) (hr : casObjectsReady s0 = true) :
    ∀ (calls : List DispatchCall) (d : Device) (s : SessionState) (pool : TempPool),
      sameObjects s0 s →
      (∀ x ∈ dispatchCasCalls calls d s pool,
        sameObjects s0 x.2.state ∧
        (x.2.completed = true →
          ∃ a final, steps none x.2.cmds
            = Step.copy a (some x.1.source) ::
              (List.replicate (totalPasses x.1.env.intOverflow s0.sharpness).toNat
                  (Step.run s0.cs) ++
               (if fakeHdrActive s0 = true then [Step.run s0.fakeHdrCS] else []) ++
               (if levelsActive s0 = true then [Step.run s0.levelsCS] else []) ++
               [Step.copy (some x.1.source) final])) ∧
        (x.2.completed = false →
          steps none x.2.cmds = [] ∨
          ∃ a k, k ≤ (totalPasses x.1.env.intOverflow s0.sharpness).toNat ∧
            steps none x.2.cmds
              = Step.copy a (some x.1.source) :: List.replicate k (Step.run s0.cs))) ∧
      ((∀ c ∈ calls, c.succeeds) → (∀ k, entryComplete pool k = true) →
        ∀ x ∈ dispatchCasCalls calls d s pool, x.2.completed = true) := by
  intro calls
  induction calls with
  | nil =>
    intro d s pool _
    exact ⟨fun x hx => by simp [dispatchCasCalls] at hx,
      fun _ _ x hx => by simp [dispatchCasCalls] at hx⟩
  | cons c rest ih =>
    intro d s pool hs
    obtain ⟨n, acc, rfl⟩ := hs
    obtain ⟨r1, r2, r3, r4⟩ := dispatchCas_ready c.env d
      { s0 with timingFrameCounter := n, timingAccumMs := acc } c.swapchain c.source c.td c.sub
      pool hr
    have hs1 : sameObjects s0 (dispatchCas c.env d
        { s0 with timingFrameCounter := n, timingAccumMs := acc } c.swapchain c.source c.td
        c.sub pool).state := sameObjects_trans ⟨n, acc, rfl⟩ r1
    obtain ⟨i1, i2⟩ := ih (dispatchCas c.env d
        { s0 with timingFrameCounter := n, timingAccumMs := acc } c.swapchain c.source c.td
        c.sub pool).device _ (dispatchCas c.env d
        { s0 with timingFrameCounter := n, timingAccumMs := acc } c.swapchain c.source c.td
        c.sub pool).pool hs1
    constructor
    · intro x hx
      unfold dispatchCasCalls at hx
      rcases List.mem_cons.mp hx with hx | hx
      · subst hx
        exact ⟨hs1, r2, r3⟩
      · exact i1 x hx
    · intro hall hpool x hx
      have hc : c.succeeds := hall c (List.mem_cons_self _ _)
      obtain ⟨q1, q2⟩ := r4 hc.1 hc.2.1 hc.2.2.1 hc.2.2.2.1 hc.2.2.2.2 hpool
      unfold dispatchCasCalls at hx
      rcases List.mem_cons.mp hx with hx | hx
      · subst hx
        exact q1
      · exact i2 (fun c1 h1 => hall c1 (List.mem_cons_of_mem _ h1)) q2 x hx

theorem createLevelsShader_flags (env : EnsureEnv) (d : Device) (s : SessionState) :
    (createLevelsShader env d s).state.levelsEnabled
      = (s.levelsEnabled && (s.levelsCS.isSome || levelsBuilds env)) ∧
    (createLevelsShader env d s).state.levelsCS.isSome
      = (s.levelsCS.isSome || (s.levelsEnabled && levelsBuilds env)) := by
  unfold createLevelsShader levelsBuilds
  simp only [Device.create]
  cases hE : s.levelsEnabled <;> cases hC : s.levelsCS <;>
    cases env.levelsLoadCompiler <;> cases env.levelsGetProcOk <;>
    cases env.levelsCompileOk <;> cases env.levelsCreateOk <;> simp [hC, hE]

theorem createFakeHdrShader_flags (env : EnsureEnv) (d : Device) (s : SessionState) :
    (createFakeHdrShader env d s).state.fakeHdrEnabled
      = (s.fakeHdrEnabled && (s.fakeHdrCS.isSome || fakeHdrBuilds env)) ∧
    (createFakeHdrShader env d s).state.fakeHdrCS.isSome
      = (s.fakeHdrCS.isSome || (s.fakeHdrEnabled && fakeHdrBuilds env)) := by
  unfold createFakeHdrShader fakeHdrBuilds
  simp only [Device.create]
  cases hE : s.fakeHdrEnabled <;> cases hC : s.fakeHdrCS <;>
    cases env.fakeHdrLoadCompiler <;> cases env.fakeHdrGetProcOk <;>
    cases env.fakeHdrCompileOk <;> cases env.fakeHdrCreateOk <;> simp [hC, hE]

theorem createTimingQueries_flags (env : EnsureEnv) (d : Device) (s : SessionState) :
    (createTimingQueries env d s).state.levelsEnabled = s.levelsEnabled ∧
    (createTimingQueries env d s).state.levelsCS = s.levelsCS ∧
    (createTimingQueries env d s).state.fakeHdrEnabled = s.fakeHdrEnabled ∧
    (createTimingQueries env d s).state.fakeHdrCS = s.fakeHdrCS := by
  unfold createTimingQueries
  split_ifs <;> exact ⟨rfl, rfl, rfl, rfl⟩

/-- A call that creates the primary shader and the two constant buffers returns
success with ready objects; each secondary feature stays enabled exactly when
it was enabled and its shader was there or could be built, whatever happened
to the other one. -/
theorem ensureCasObjects_built (env : EnsureEnv) (d : Device) (s : SessionState)
    (hdev : s.appD3DDevice.isSome = true) (hnot : casObjectsReady s = false)
    (hsticky : (s.shaderInitAttempted && s.shaderInitFailed) = false)
    (hprimary : primaryBuilds env = true)
    (hconst : env.constBufferOk = true) (hdebug : env.debugBufferOk = true) :
    (ensureCasObjects env d s).ok = true ∧
    casObjectsReady (ensureCasObjects env d s).state = true ∧
    (ensureCasObjects env d s).state.levelsEnabled
      = (s.levelsEnabled && (s.levelsCS.isSome || levelsBuilds env)) ∧
    (ensureCasObjects env d s).state.levelsCS.isSome
      = (s.levelsCS.isSome || (s.levelsEnabled && levelsBuilds env)) ∧
    (ensureCasObjects env d s).state.fakeHdrEnabled
      = (s.fakeHdrEnabled && (s.fakeHdrCS.isSome || fakeHdrBuilds env)) ∧
    (ensureCasObjects env d s).state.fakeHdrCS.isSome
      = (s.fakeHdrCS.isSome || (s.fakeHdrEnabled && fakeHdrBuilds env)) := by
  have hd : s.appD3DDevice.isNone = false := by
    cases hx : s.appD3DDevice with
    | none => rw [hx] at hdev; simp at hdev
    | some _ => rfl
  have hfast : (s.cs.isSome && (!s.levelsEnabled || s.levelsCS.isSome)
      && (!s.fakeHdrEnabled || s.fakeHdrCS.isSome)) = false := by
    unfold casObjectsReady at hnot
    rw [hdev] at hnot
    simpa using hnot
  have hp := createPrimaryShader_ok env d { s with shaderInitAttempted := true }
  rw [hprimary] at hp
  obtain ⟨p1, _, p3, p4, p5, p6, p7⟩ :=
    createPrimaryShader_state env d { s with shaderInitAttempted := true }
  have p7 := p7 hp
  unfold ensureCasObjects
  simp only [hd, hfast, hsticky, Bool.false_eq_true, if_false]
  generalize createPrimaryShader env d { s with shaderInitAttempted := true } = p
    at hp p1 p3 p4 p5 p6 p7 ⊢
  obtain ⟨l1, l2, l3, l4, l5⟩ := createLevelsShader_state env p.device p.state
  obtain ⟨l6, l7⟩ := createLevelsShader_flags env p.device p.state
  generalize createLevelsShader env p.device p.state = l at l1 l2 l3 l4 l5 l6 l7 ⊢
  obtain ⟨h1, h2, h3, h4, h5⟩ := createFakeHdrShader_state env l.device l.state
  obtain ⟨h6, h7⟩ := createFakeHdrShader_flags env l.device l.state
  generalize createFakeHdrShader env l.device l.state = h at h1 h2 h3 h4 h5 h6 h7 ⊢
  simp only [hp, hconst, hdebug, Device.create, if_true, Bool.not_true, Bool.false_eq_true,
    if_false, Option.isNone_some]
  have e1 : h.state.levelsEnabled = (s.levelsEnabled && (s.levelsCS.isSome || levelsBuilds env)) := by
    rw [h3, l6, p3, p4]
  have e2 : h.state.levelsCS.isSome = (s.levelsCS.isSome || (s.levelsEnabled && levelsBuilds env)) := by
    rw [h4, l7, p3, p4]
  have e3 : h.state.fakeHdrEnabled
      = (s.fakeHdrEnabled && (s.fakeHdrCS.isSome || fakeHdrBuilds env)) := by
    rw [h6, l3, l4, p5, p6]
  have e4 : h.state.fakeHdrCS.isSome
      = (s.fakeHdrCS.isSome || (s.fakeHdrEnabled && fakeHdrBuilds env)) := by
    rw [h7, l3, l4, p5, p6]
  have e5 : h.state.cs.isSome = true := by rw [h2, l2]; exact p7
  have e6 : h.state.appD3DDevice.isSome = true := by rw [h1, l1, p1]; exact hdev
  have e7 : (!h.state.levelsEnabled || h.state.levelsCS.isSome) = true := by
    rw [h3, h4]; exact l5
  refine ⟨trivial, ?_, ?_, ?_, ?_, ?_⟩
  · rw [createTimingQueries_state]
    unfold casObjectsReady
    simp only [e5, e6, e7, h5, Bool.and_self]
  · rw [(createTimingQueries_flags _ _ _).1]
    exact e1
  · rw [(createTimingQueries_flags _ _ _).2.1]
    exact e2
  · rw [(createTimingQueries_flags _ _ _).2.2.1]
    exact e3
  · rw [(createTimingQueries_flags _ _ _).2.2.2]
    exact e4
theorem laterDispatches_of_ready (d : Device) (st : SessionState)
    (hr : casObjectsReady st = true) :
    LaterDispatches d st
      ((if fakeHdrActive st = true then [Step.run st.fakeHdrCS] else []) ++
       (if levelsActive st = true then [Step.run st.levelsCS] else [])) := by
  intro calls pool
  obtain ⟨i1, i2⟩ := dispatchCasCalls_ready st hr calls d st pool (sameObjects_refl st)
  refine ⟨?_, i2⟩
  intro x hx
  obtain ⟨j1, j2, j3⟩ := i1 x hx
  refine ⟨j1, ?_, j3⟩
  intro hc
  obtain ⟨a, final, hfin⟩ := j2 hc
  refine ⟨a, final, ?_⟩
  rw [hfin]
  simp only [List.append_assoc]

/-- C14: a call of `ensureCasObjects` that gets to the creations (a device,
objects not ready, no sticky failure) and creates the primary shader and the
two primary constant buffers returns success.  When Levels is enabled without
shader and its shader cannot be built, the call clears `levelsEnabled`, the
FakeHDR flag and shader are what the FakeHDR block alone makes of them, and
every later `dispatchCas` call that completes runs the copy-in, the primary
passes, the FakeHDR pass if that is active, and the copy-back, with no Levels
dispatch; calls with accepted sources and successful creations do complete.
The same holds with the two features exchanged. -/
theorem ensureCasObjects_secondary_failure (env : EnsureEnv) (d : Device) (s : SessionState)
    (hdev : s.appD3DDevice.isSome = true) (hnot : casObjectsReady s = false)
    (hsticky : (s.shaderInitAttempted && s.shaderInitFailed) = false)
    (hprimary : primaryBuilds env = true)
    (hconst : env.constBufferOk = true) (hdebug : env.debugBufferOk = true) :
    (ensureCasObjects env d s).ok = true ∧
    (s.levelsEnabled = true → s.levelsCS = none → levelsBuilds env = false →
      (ensureCasObjects env d s).state.levelsEnabled = false ∧
      (ensureCasObjects env d s).state.fakeHdrEnabled
        = (s.fakeHdrEnabled && (s.fakeHdrCS.isSome || fakeHdrBuilds env)) ∧
      (ensureCasObjects env d s).state.fakeHdrCS.isSome
        = (s.fakeHdrCS.isSome || (s.fakeHdrEnabled && fakeHdrBuilds env)) ∧
      LaterDispatches (ensureCasObjects env d s).device (ensureCasObjects env d s).state
        (if fakeHdrActive (ensureCasObjects env d s).state = true
          then [Step.run (ensureCasObjects env d s).state.fakeHdrCS] else [])) ∧
    (s.fakeHdrEnabled = true → s.fakeHdrCS = none → fakeHdrBuilds env = false →
      (ensureCasObjects env d s).state.fakeHdrEnabled = false ∧
      (ensureCasObjects env d s).state.levelsEnabled
        = (s.levelsEnabled && (s.levelsCS.isSome || levelsBuilds env)) ∧
      (ensureCasObjects env d s).state.levelsCS.isSome
        = (s.levelsCS.isSome || (s.levelsEnabled && levelsBuilds env)) ∧
      LaterDispatches (ensureCasObjects env d s).device (ensureCasObjects env d s).state
        (if levelsActive (ensureCasObjects env d s).state = true
          then [Step.run (ensureCasObjects env d s).state.levelsCS] else [])) := by
  obtain ⟨b1, b2, b3, b4, b5, b6⟩ :=
    ensureCasObjects_built env d s hdev hnot hsticky hprimary hconst hdebug
  have later := laterDispatches_of_ready (ensureCasObjects env d s).device
    (ensureCasObjects env d s).state b2
  refine ⟨b1, ?_, ?_⟩
  · intro hE hC hB
    have hoff : (ensureCasObjects env d s).state.levelsEnabled = false := by
      rw [b3, hE, hC, hB]; rfl
    have hla : levelsActive (ensureCasObjects env d s).state = false := by
      unfold levelsActive
      rw [hoff]; rfl
    refine ⟨hoff, b5, b6, ?_⟩
    rw [hla] at later
    simpa using later
  · intro hE hC hB
    have hoff : (ensureCasObjects env d s).state.fakeHdrEnabled = false := by
      rw [b5, hE, hC, hB]; rfl
    have hla : fakeHdrActive (ensureCasObjects env d s).state = false := by
      unfold fakeHdrActive
      rw [hoff]; rfl
    refine ⟨hoff, b3, b4, ?_⟩
    rw [hla] at later
    simpa using later

/-- C14 (witness): a new session with both features enabled; the compilation of
`Levels.hlsl` fails and everything else succeeds, so Levels is switched off,
FakeHDR stays on with its shader, and later calls run the primary passes, the
FakeHDR pass and the copy-back. -/
theorem ensureCasObjects_secondary_failure_witness :
    (ensureCasObjects levelsCompileFails ⟨100⟩ bothEnabledSession).ok = true ∧
    (ensureCasObjects levelsCompileFails ⟨100⟩ bothEnabledSession).state.levelsEnabled = false ∧
    (ensureCasObjects levelsCompileFails ⟨100⟩ bothEnabledSession).state.fakeHdrEnabled = true ∧
    (ensureCasObjects levelsCompileFails ⟨100⟩ bothEnabledSession).state.fakeHdrCS.isSome
      = true ∧
    LaterDispatches (ensureCasObjects levelsCompileFails ⟨100⟩ bothEnabledSession).device
      (ensureCasObjects levelsCompileFails ⟨100⟩ bothEnabledSession).state
      (if fakeHdrActive (ensureCasObjects levelsCompileFails ⟨100⟩ bothEnabledSession).state
          = true
        then [Step.run (ensureCasObjects levelsCompileFails ⟨100⟩ bothEnabledSession).state.fakeHdrCS]
        else []) :=
  have h := ensureCasObjects_secondary_failure levelsCompileFails ⟨100⟩ bothEnabledSession
    rfl rfl rfl rfl rfl rfl
  have h2 := h.2.1 rfl rfl rfl
  ⟨h.1, h2.1, h2.2.1.trans rfl, h2.2.2.1.trans rfl, h2.2.2.2⟩

/-! ## The config file format -/

theorem all_ne_eq_not_any (l : Str) :
    l.all (fun ch => ch != '=') = !l.any (fun ch => ch == '=') := by
  induction l with
  | nil => rfl
  | cons c rest ih =>
    rw [List.all_cons, List.any_cons, ih]
    simp only [bne]
    cases c == '=' <;> cases rest.any (fun ch => ch == '=') <;> rfl

theorem getlines_cons_newline (cur rest : Str) (c : Char) (h : c.toNat = 10) :
    getlines cur (c :: rest) = cur.reverse :: getlines [] rest := by
  rw [getlines, if_pos h]

theorem getlines_cons_other (cur rest : Str) (c : Char) (h : c.toNat ≠ 10) :
    getlines cur (c :: rest) = getlines (c :: cur) rest := by
  rw [getlines, if_neg h]

theorem findConfigValue_cons (k line : Str) (rest : List Str) :
    findConfigValue k (line :: rest)
      = match parseLine line with
        | some (key, val) => if key = k then some val else findConfigValue k rest
        | none => findConfigValue k rest := rfl

theorem parseLine_of_ignored (line : Str) (h : lineIgnored line = true) :
    parseLine line = none := by
  unfold lineIgnored at h
  unfold parseLine
  dsimp only at h ⊢
  cases ht : trim line with
  | nil => rfl
  | cons c rest =>
    rw [ht] at h
    by_cases hc : c = '#' ∨ c = ';'
    · simp only [hc, if_true]
    · simp only [hc, if_false]
      have hany : (c :: rest).any (fun ch => ch == '=') = false := by
        rcases not_or.mp hc with ⟨h1, h2⟩
        simpa [h1, h2] using h
      have hall : (c :: rest).all (fun ch => ch != '=') = true := by
        rw [all_ne_eq_not_any, hany]
        rfl
      simp only [hall, if_true]

theorem parseLine_of_defines (k line : Str) (h : lineDefines k line = true) :
    parseLine line = some (k, lineValue line) := by
  unfold lineDefines at h
  unfold parseLine lineValue
  dsimp only at h ⊢
  cases ht : trim line with
  | nil => rw [ht] at h; simp at h
  | cons c rest =>
    rw [ht] at h
    simp only [List.isEmpty_cons, Bool.not_false, List.head?_cons, Bool.true_and,
      Bool.and_eq_true, Bool.not_eq_true', Bool.or_eq_false_iff, decide_eq_true_eq] at h
    obtain ⟨⟨⟨h1, h2⟩, hany⟩, hkey⟩ := h
    have hc : ¬ (c = '#' ∨ c = ';') := by
      intro hc
      rcases hc with hc | hc
      · subst hc; simp at h1
      · subst hc; simp at h2
    have hall : (c :: rest).all (fun ch => ch != '=') = false := by
      rw [all_ne_eq_not_any, hany]
      rfl
    simp only [hc, if_false, hall, Bool.false_eq_true, hkey]

theorem parseLine_of_not_defines (k line : Str) (h : lineDefines k line = false)
    (key val : Str) (hp : parseLine line = some (key, val)) : key ≠ k := by
  intro hk
  subst hk
  revert hp
  unfold lineDefines at h
  unfold parseLine
  dsimp only at h ⊢
  cases ht : trim line with
  | nil => simp
  | cons c rest =>
    rw [ht] at h
    by_cases hc : c = '#' ∨ c = ';'
    · simp [hc]
    · simp only [hc, if_false]
      by_cases hall : (c :: rest).all (fun ch => ch != '=') = true
      · simp [hall]
      · simp only [hall, Bool.false_eq_true, if_false, Option.some.injEq, Prod.mk.injEq]
        intro hkv
        have hany : (c :: rest).any (fun ch => ch == '=') = true := by
          rw [all_ne_eq_not_any] at hall
          cases hx : (c :: rest).any (fun ch => ch == '=') with
          | true => rfl
          | false => rw [hx] at hall; exact absurd rfl hall
        rcases not_or.mp hc with ⟨h1, h2⟩
        rw [hany] at h
        simp [h1, h2, hkv.1] at h

/-- The search returns the value of the first line that defines the key. -/
theorem findConfigValue_eq_find (k : Str) (lines : List Str) :
    findConfigValue k lines = (lines.find? (lineDefines k)).map lineValue := by
  induction lines with
  | nil => rfl
  | cons line rest ih =>
    rw [findConfigValue_cons]
    cases hd : lineDefines k line with
    | true =>
      rw [parseLine_of_defines k line hd]
      simp [List.find?, hd]
    | false =>
      rw [List.find?_cons_of_neg _ (by simp [hd])]
      cases hp : parseLine line with
      | none => exact ih
      | some kv =>
        obtain ⟨key, val⟩ := kv
        have hne := parseLine_of_not_defines k line hd key val hp
        simp only [hne, if_false]
        exact ih

/-- An ignored line changes nothing, wherever it stands among the lines. -/
theorem findConfigValue_ignored (k : Str) (line : Str) (h : lineIgnored line = true)
    (before after : List Str) :
    findConfigValue k (before ++ line :: after) = findConfigValue k (before ++ after) := by
  induction before with
  | nil =>
    show findConfigValue k (line :: after) = findConfigValue k after
    rw [findConfigValue_cons, parseLine_of_ignored line h]
  | cons b rest ih =>
    show findConfigValue k (b :: (rest ++ line :: after))
      = findConfigValue k (b :: (rest ++ after))
    rw [findConfigValue_cons, findConfigValue_cons, ih]

theorem getlines_line (line : Str) (h : ∀ c ∈ line, c.toNat ≠ 10) (rest : Str) :
    ∀ cur : Str, getlines cur (line ++ '\n' :: rest)
      = (cur.reverse ++ line) :: getlines [] rest := by
  induction line with
  | nil =>
    intro cur
    rw [List.nil_append, getlines_cons_newline _ _ _ (by decide), List.append_nil]
  | cons c tail ih =>
    intro cur
    have hc : c.toNat ≠ 10 := h c (List.mem_cons_self _ _)
    have ht := ih (fun x hx => h x (List.mem_cons_of_mem _ hx)) (c :: cur)
    rw [List.cons_append, getlines_cons_other _ _ _ hc, ht, List.reverse_cons,
      List.append_assoc, List.singleton_append]

theorem getlines_append (a rest : Str) :
    ∀ cur : Str, getlines cur (a ++ '\n' :: rest)
      = getlines cur (a ++ ['\n']) ++ getlines [] rest := by
  induction a with
  | nil =>
    intro cur
    rw [List.nil_append, List.nil_append, getlines_cons_newline _ _ _ (by decide),
      getlines_cons_newline _ _ _ (by decide)]
    rfl
  | cons c tail ih =>
    intro cur
    by_cases hc : c.toNat = 10
    · rw [List.cons_append, List.cons_append, getlines_cons_newline _ _ _ hc,
        getlines_cons_newline _ _ _ hc, ih [], List.cons_append]
    · rw [List.cons_append, List.cons_append, getlines_cons_other _ _ _ hc,
        getlines_cons_other _ _ _ hc, ih (c :: cur)]
/-- C16: for every config text and key `k`, `tryReadConfigValueFromFile` returns
the trimmed text after the first `=` of the first line that, after trimming,
is non-empty, does not begin with `#` or `;`, contains `=` and has `k` as its
trimmed, lower-cased text before the first `=`; it returns nothing when no
line is such, or when there is no file.  A blank line, a comment line or a
line without `=`, put at the start of the text or after any line break,
does not change the result. -/
theorem tryReadConfigValueFromFile_first_defining_line (k : Str) :
    (∀ text : Str, tryReadConfigValueFromFile (some text) k
        = ((getlines [] text).find? (lineDefines k)).map lineValue) ∧
    (∀ text : Str, (∀ line ∈ getlines [] text, lineDefines k line = false) →
        tryReadConfigValueFromFile (some text) k = none) ∧
    tryReadConfigValueFromFile none k = none ∧
    (∀ line : Str, lineIgnored line = true → (∀ c ∈ line, c.toNat ≠ 10) →
      (∀ rest : Str, tryReadConfigValueFromFile (some (line ++ '\n' :: rest)) k
          = tryReadConfigValueFromFile (some rest) k) ∧
      (∀ before rest : Str,
        tryReadConfigValueFromFile (some (before ++ '\n' :: (line ++ '\n' :: rest))) k
          = tryReadConfigValueFromFile (some (before ++ '\n' :: rest)) k)) := by
  refine ⟨fun text => findConfigValue_eq_find k _, ?_, rfl, ?_⟩
  · intro text h
    show findConfigValue k (getlines [] text) = none
    rw [findConfigValue_eq_find, List.find?_eq_none.mpr (fun x hx => by simp [h x hx])]
    rfl
  · intro line hi hn
    constructor
    · intro rest
      show findConfigValue k (getlines [] (line ++ '\n' :: rest))
        = findConfigValue k (getlines [] rest)
      rw [getlines_line line hn rest []]
      exact findConfigValue_ignored k line hi [] _
    · intro before rest
      show findConfigValue k (getlines [] (before ++ '\n' :: (line ++ '\n' :: rest)))
        = findConfigValue k (getlines [] (before ++ '\n' :: rest))
      rw [getlines_append before (line ++ '\n' :: rest) [], getlines_append before rest [],
        getlines_line line hn rest []]
      exact findConfigValue_ignored k line hi _ _

/-- C16 (witness): in `sampleConfigText` the first line defining `sharpness` is
`  SharpNess =  0.8  `, after a blank line, two comments and a line without
`=`; the value of `mode = a=b` is `a=b`; and a comment line put in front of
the text changes nothing. -/
theorem tryReadConfigValueFromFile_first_defining_line_witness :
    tryReadConfigValueFromFile (some sampleConfigText) "sharpness".toList
      = some "0.8".toList ∧
    tryReadConfigValueFromFile (some sampleConfigText) "mode".toList = some "a=b".toList ∧
    tryReadConfigValueFromFile (some ("# sharpness=9".toList ++ '\n' :: sampleConfigText))
        "sharpness".toList
      = tryReadConfigValueFromFile (some sampleConfigText) "sharpness".toList :=
  ⟨((tryReadConfigValueFromFile_first_defining_line "sharpness".toList).1
      sampleConfigText).trans (by decide),
   ((tryReadConfigValueFromFile_first_defining_line "mode".toList).1
      sampleConfigText).trans (by decide),
   ((tryReadConfigValueFromFile_first_defining_line "sharpness".toList).2.2.2
      "# sharpness=9".toList (by decide) (by decide)).1 sampleConfigText⟩

/-! ## The sharpness clamp -/

theorem clamp_eq_max (v : ℚ) : (if v < 0 then 0 else v) = max v 0 := by
  split_ifs with h
  · exact (max_eq_right (le_of_lt h)).symm
  · exact (max_eq_left (not_lt.mp h)).symm

theorem tryReadSharpnessFromConfigFile_clamped (stof : Str → Option ℚ) (file : Option Str)
    (txt : Str) (v : ℚ) (hd : tryReadConfigValueFromFile file "sharpness".toList = some txt)
    (hv : stof txt = some v) :
    tryReadSharpnessFromConfigFile stof file = some (max v 0) := by
  rw [tryReadSharpnessFromConfigFile_eq, hd]
  simp only [hv, Option.map_some', clamp_eq_max]

theorem stofDecimal_of_negative_mantissa (s : Str) (m k : Nat)
    (h : stofMantissa s = some (true, m, k, [])) :
    stofDecimal s = some (-((m : ℚ) * (10 : ℚ) ^ (-(k : Int)))) := by
  unfold stofDecimal
  rw [h]
  simp [stofExponent]

/-- C17 (as stated, refuted): `XR_CAS_SHARPNESS` holds a well-formed numeric
text of value 3.5 that is 65 characters long; the resolved sharpness is the
default 0.6, not `max(3.5, 0) = 3.5`. -/
theorem resolveSharpness_padded_env_value :
    paddedEnvHost.getenv "XR_CAS_SHARPNESS".toList = some paddedSharpnessText ∧
    paddedSharpnessText.length = 65 ∧
    paddedEnvHost.stof paddedSharpnessText = some (35 / 10) ∧
    resolveSharpnessFromConfigOrEnv paddedEnvHost = 6 / 10 ∧
    resolveSharpnessFromConfigOrEnv paddedEnvHost ≠ max (35 / 10) 0 := by
  have hlen : paddedSharpnessText.length = 65 := by decide
  have hget : paddedEnvHost.getenv "XR_CAS_SHARPNESS".toList = some paddedSharpnessText := by
    simp [paddedEnvHost]
  have hg : GetEnvironmentVariableA paddedEnvHost "XR_CAS_SHARPNESS".toList 64
      = (66, []) := by
    unfold GetEnvironmentVariableA
    rw [hget]
    simp [hlen]
  have hres : resolveSharpnessFromConfigOrEnv paddedEnvHost = 6 / 10 := by
    unfold resolveSharpnessFromConfigOrEnv readSharpnessFromEnv
    rw [hg]
    simp
  refine ⟨hget, hlen, ?_, hres, ?_⟩
  · show stofDecimal paddedSharpnessText = some (35 / 10)
    rw [stofDecimal_of_mantissa _ 35 1 (by decide)]
    norm_num
  · rw [hres]
    norm_num

/-- C17 (amended): a well-formed numeric sharpness text that `std::stof` converts
to the value `v` resolves to `max(v, 0)` when it is the value of
`XR_CAS_SHARPNESS` and has at most 63 characters, when the variable is not set
and the per-user file defines it, and when neither does and the per-install
file defines it; a negative value becomes 0, a value above 1 is kept, and the
resolved sharpness of such a text is at least 0. -/
theorem resolveSharpness_clamp (host : Host) :
    (∀ txt v, host.getenv "XR_CAS_SHARPNESS".toList = some txt →
        0 < txt.length → txt.length < 64 → host.stof txt = some v →
        resolveSharpnessFromConfigOrEnv host = max v 0 ∧
        (v < 0 → resolveSharpnessFromConfigOrEnv host = 0) ∧
        (1 < v → resolveSharpnessFromConfigOrEnv host = v) ∧
        0 ≤ resolveSharpnessFromConfigOrEnv host) ∧
    (host.getenv "XR_CAS_SHARPNESS".toList = none →
      ∀ txt v, tryReadConfigValueFromFile host.localAppDataCfg "sharpness".toList = some txt →
        host.stof txt = some v →
        resolveSharpnessFromConfigOrEnv host = max v 0 ∧
        (v < 0 → resolveSharpnessFromConfigOrEnv host = 0) ∧
        (1 < v → resolveSharpnessFromConfigOrEnv host = v) ∧
        0 ≤ resolveSharpnessFromConfigOrEnv host) ∧
    (host.getenv "XR_CAS_SHARPNESS".toList = none →
      tryReadConfigValueFromFile host.localAppDataCfg "sharpness".toList = none →
      ∀ txt v, tryReadConfigValueFromFile host.dllHomeCfg "sharpness".toList = some txt →
        host.stof txt = some v →
        resolveSharpnessFromConfigOrEnv host = max v 0 ∧
        (v < 0 → resolveSharpnessFromConfigOrEnv host = 0) ∧
        (1 < v → resolveSharpnessFromConfigOrEnv host = v) ∧
        0 ≤ resolveSharpnessFromConfigOrEnv host) := by
  have hmax : ∀ v : ℚ, resolveSharpnessFromConfigOrEnv host = max v 0 →
      resolveSharpnessFromConfigOrEnv host = max v 0 ∧
      (v < 0 → resolveSharpnessFromConfigOrEnv host = 0) ∧
      (1 < v → resolveSharpnessFromConfigOrEnv host = v) ∧
      0 ≤ resolveSharpnessFromConfigOrEnv host := by
    intro v h
    refine ⟨h, ?_, ?_, ?_⟩
    · intro hv
      rw [h]
      exact max_eq_right (le_of_lt hv)
    · intro hv
      rw [h]
      exact max_eq_left (by linarith)
    · rw [h]
      exact le_max_right _ _
  refine ⟨?_, ?_, ?_⟩
  · intro txt v hget hpos hlen hv
    apply hmax
    have hg : GetEnvironmentVariableA host "XR_CAS_SHARPNESS".toList 64 = (txt.length, txt) := by
      unfold GetEnvironmentVariableA
      rw [hget]
      simp [hlen]
    unfold resolveSharpnessFromConfigOrEnv readSharpnessFromEnv
    rw [hg]
    simp only [hpos, hlen, and_self, if_true, hv, gt_iff_lt, clamp_eq_max]
  · intro hget txt v hd hv
    apply hmax
    have hg : GetEnvironmentVariableA host "XR_CAS_SHARPNESS".toList 64 = (0, []) := by
      unfold GetEnvironmentVariableA
      rw [hget]
    unfold resolveSharpnessFromConfigOrEnv
    rw [hg, tryReadSharpnessFromConfigFile_clamped host.stof _ txt v hd hv]
    simp
  · intro hget hu txt v hd hv
    apply hmax
    have hg : GetEnvironmentVariableA host "XR_CAS_SHARPNESS".toList 64 = (0, []) := by
      unfold GetEnvironmentVariableA
      rw [hget]
    unfold resolveSharpnessFromConfigOrEnv
    rw [hg, tryReadSharpnessFromConfigFile_undefined host.stof _ hu,
      tryReadSharpnessFromConfigFile_clamped host.stof _ txt v hd hv]
    simp

/-- C17 (witness): `XR_CAS_SHARPNESS=-2.5` resolves to 0; without the variable,
`sharpness=0.8` in the per-user file resolves to 0.8. -/
theorem resolveSharpness_clamp_witness :
    resolveSharpnessFromConfigOrEnv negativeEnvHost = 0 ∧
    resolveSharpnessFromConfigOrEnv { layeredHost with getenv := fun _ => none } = 8 / 10 ∧
    0 ≤ resolveSharpnessFromConfigOrEnv negativeEnvHost :=
  ⟨(((resolveSharpness_clamp negativeEnvHost).1 "-2.5".toList (-(25 / 10)) (by decide)
      (by decide) (by decide)
      (show stofDecimal "-2.5".toList = some (-(25 / 10)) from
        (stofDecimal_of_negative_mantissa _ 25 1 (by decide)).trans (by norm_num))).1).trans
      (by norm_num),
   (((resolveSharpness_clamp { layeredHost with getenv := fun _ => none }).2.1 rfl
      "0.8".toList (8 / 10) (by decide) stofDecimal_examples.2.1).1).trans (by norm_num),
   ((resolveSharpness_clamp negativeEnvHost).1 "-2.5".toList (-(25 / 10)) (by decide)
      (by decide) (by decide)
      (show stofDecimal "-2.5".toList = some (-(25 / 10)) from
        (stofDecimal_of_negative_mantissa _ 25 1 (by decide)).trans (by norm_num))).2.2.2⟩

/-! ## The default config file -/

/-- The default text, read back key by key. -/
theorem defaultConfigText_entries :
    defaultConfigEntries.all (fun e =>
      decide (tryReadConfigValueFromFile (some defaultConfigText) e.1 = some e.2)) = true := by
  set_option maxRecDepth 100000 in decide

theorem defaultConfigText_entry (key val : Str) (h : (key, val) ∈ defaultConfigEntries) :
    tryReadConfigValueFromFile (some defaultConfigText) key = some val := by
  have h1 := List.all_eq_true.mp defaultConfigText_entries (key, val) h
  exact of_decide_eq_true h1

theorem tryReadConfigValue_of_local (host : Host) (key val : Str)
    (h : tryReadConfigValueFromFile host.localAppDataCfg key = some val) :
    tryReadConfigValue host key = some val := by
  unfold tryReadConfigValue
  rw [h]

theorem tryReadConfigValue_generated (dll : Option Str) (key val : Str)
    (h : (key, val) ∈ defaultConfigEntries) :
    tryReadConfigValue (generatedConfigHost dll) key = some val :=
  tryReadConfigValue_of_local _ key val (defaultConfigText_entry key val h)

theorem stofDecimal_default_texts :
    stofDecimal "0.6".toList = some (6 / 10) ∧ stofDecimal "0.0".toList = some 0 ∧
    stofDecimal "1.0".toList = some 1 ∧ stofDecimal "1.30".toList = some (13 / 10) ∧
    stofDecimal "0.793".toList = some (793 / 1000) ∧
    stofDecimal "0.87".toList = some (87 / 100) := by
  refine ⟨?_, ?_, ?_, ?_, ?_, ?_⟩
  · rw [stofDecimal_of_mantissa _ 6 1 (by decide)]; norm_num
  · rw [stofDecimal_of_mantissa _ 0 1 (by decide)]; norm_num
  · rw [stofDecimal_of_mantissa _ 10 1 (by decide)]; norm_num
  · rw [stofDecimal_of_mantissa _ 130 2 (by decide)]; norm_num
  · rw [stofDecimal_of_mantissa _ 793 3 (by decide)]; norm_num
  · rw [stofDecimal_of_mantissa _ 87 2 (by decide)]; norm_num

/-- When every source resolves every key to the value the state already has,
reading the configuration leaves the state as it is. -/
theorem readSessionConfig_neutral (host : Host) (st : SessionState)
    (t1 t2 t3 t4 : Str)
    (hs : resolveSharpnessFromConfigOrEnv host = st.sharpness)
    (hef : GetEnvironmentVariableA host "XR_CAS_DEBUG_FRAMES".toList 32 = (0, []))
    (heo : GetEnvironmentVariableA host "XR_CAS_DEBUG_OVERLAY".toList 8 = (0, []))
    (h1 : tryReadConfigValue host "debug_frames".toList = some t1)
    (h1v : host.stoi t1 = some (st.debugFramesMax : Int))
    (h2 : tryReadConfigValue host "debug_overlay".toList = some t2)
    (h2v : boolLike t2 = st.debugOverlay)
    (h3 : tryReadConfigValue host "levels_enable".toList = some t3)
    (h3v : boolLike t3 = st.levelsEnabled)
    (h4 : (tryReadConfigValue host "levels_in_black".toList).bind host.stof
      = some st.levelsInBlack)
    (h5 : (tryReadConfigValue host "levels_in_white".toList).bind host.stof
      = some st.levelsInWhite)
    (h6 : (tryReadConfigValue host "levels_out_black".toList).bind host.stof
      = some st.levelsOutBlack)
    (h7 : (tryReadConfigValue host "levels_out_white".toList).bind host.stof
      = some st.levelsOutWhite)
    (h8 : (tryReadConfigValue host "levels_gamma".toList).bind host.stof
      = some st.levelsGamma)
    (h9 : tryReadConfigValue host "fakehdr_enable".toList = some t4)
    (h9v : boolLike t4 = st.fakeHdrEnabled)
    (h10 : (tryReadConfigValue host "fakehdr_power".toList).bind host.stof
      = some st.fakeHdrPower)
    (h11 : (tryReadConfigValue host "fakehdr_radius1".toList).bind host.stof
      = some st.fakeHdrRadius1)
    (h12 : (tryReadConfigValue host "fakehdr_radius2".toList).bind host.stof
      = some st.fakeHdrRadius2) :
    readSessionConfig host st = st := by
  unfold readSessionConfig
  simp only [hs, hef, heo, h1, h1v, h2, h2v, h3, h3v, h4, h5, h6, h7, h8, h9, h9v, h10, h11,
    h12, gt_iff_lt, lt_self_iff_false, if_false, ge_iff_le, Int.ofNat_zero_le, if_true,
    Int.toNat_ofNat]

/-- Without environment variable and config file, reading the configuration
sets the default sharpness and nothing else. -/
theorem readSessionConfig_bare (st : SessionState) :
    readSessionConfig bareHost st = { st with sharpness := 6 / 10 } := by
  have hk : ∀ key, tryReadConfigValue bareHost key = none := fun _ => rfl
  have hg : ∀ name n, GetEnvironmentVariableA bareHost name n = (0, []) := fun _ _ => rfl
  have hs : resolveSharpnessFromConfigOrEnv bareHost = 6 / 10 := by
    unfold resolveSharpnessFromConfigOrEnv
    rw [hg]
    rfl
  unfold readSessionConfig
  rw [hs, hg, hg, hk, hk, hk, hk, hk, hk, hk, hk, hk, hk, hk, hk]
  rfl
/-- With the default file and no environment variable every key resolves to
the default of its field, so a new state is left as it is. -/
theorem readSessionConfig_generated (dll : Option Str) (c : Bool) (dev ctx : ComPtr) :
    readSessionConfig (generatedConfigHost dll)
        { composition := c, appD3DDevice := dev, appD3DContext := ctx }
      = { composition := c, appD3DDevice := dev, appD3DContext := ctx } := by
  have hk := fun key val h => tryReadConfigValue_generated dll key val h
  have hsd : (generatedConfigHost dll).stof = stofDecimal := rfl
  obtain ⟨f1, f2, f3, f4, f5, f6⟩ := stofDecimal_default_texts
  have hs : resolveSharpnessFromConfigOrEnv (generatedConfigHost dll) = 6 / 10 := by
    have hg : GetEnvironmentVariableA (generatedConfigHost dll) "XR_CAS_SHARPNESS".toList 64
        = (0, []) := rfl
    have hl : tryReadSharpnessFromConfigFile (generatedConfigHost dll).stof
        (generatedConfigHost dll).localAppDataCfg = some (6 / 10) :=
      tryReadSharpnessFromConfigFile_defined stofDecimal (some defaultConfigText)
        "0.6".toList (6 / 10) (defaultConfigText_entry _ _ (by decide)) f1 (by norm_num)
    unfold resolveSharpnessFromConfigOrEnv
    rw [hg, hl]
    rfl
  have hi : stoiDecimal "60".toList = some 60 := by decide
  have hb : boolLike "0".toList = false := by decide
  refine readSessionConfig_neutral _ _ "60".toList "0".toList "0".toList "0".toList hs rfl rfl
    (hk _ _ (by decide)) hi (hk _ _ (by decide)) hb
    (hk _ _ (by decide)) hb ?_ ?_ ?_ ?_ ?_ (hk _ _ (by decide)) hb ?_ ?_ ?_
  · rw [hk _ "0.0".toList (by decide), hsd]; exact f2
  · rw [hk _ "1.0".toList (by decide), hsd]; exact f3
  · rw [hk _ "0.0".toList (by decide), hsd]; exact f2
  · rw [hk _ "1.0".toList (by decide), hsd]; exact f3
  · rw [hk _ "1.0".toList (by decide), hsd]; exact f3
  · rw [hk _ "1.30".toList (by decide), hsd]; exact f4
  · rw [hk _ "0.793".toList (by decide), hsd]; exact f5
  · rw [hk _ "0.87".toList (by decide), hsd]; exact f6

/-- C20 (at the failing input): `xrCreateInstance` writes `defaultConfigText`
when there is no per-user file; each of the 13 keys reads back from it with
the text of its default; and without environment variables a session
resolved from that file has the configuration of a session resolved with no
file at all, the defaults of `SessionState`.  With `XR_CAS_DEBUG_FRAMES=5` and
`XR_CAS_DEBUG_OVERLAY=1` in the environment the two differ: resolved with no
file the session has `debugFramesMax = 5` and the overlay on, resolved from
the generated file it has `debugFramesMax = 60` and the overlay off. -/
theorem defaultConfig_read_back_and_debug_env :
    ensureDefaultConfig none true = some defaultConfigText ∧
    defaultConfigEntries.map
        (fun e => tryReadConfigValueFromFile (some defaultConfigText) e.1)
      = defaultConfigEntries.map (fun e => some e.2) ∧
    defaultConfigEntries.length = 13 ∧
    (∀ (dll : Option Str) (c : Bool) (dev ctx : ComPtr),
      readSessionConfig (generatedConfigHost dll)
          { composition := c, appD3DDevice := dev, appD3DContext := ctx }
        = readSessionConfig bareHost
          { composition := c, appD3DDevice := dev, appD3DContext := ctx } ∧
      readSessionConfig bareHost
          { composition := c, appD3DDevice := dev, appD3DContext := ctx }
        = { composition := c, appD3DDevice := dev, appD3DContext := ctx }) ∧
    ((xrCreateSession { debugEnvHost with localAppDataCfg := none, dllHomeCfg := none } 0
        XR_TYPE_SESSION_CREATE_INFO
        [ChainItem.graphicsBindingD3D11 (some 1) 2] 1 false {}).2.m_sessions 1).map
      (fun st => (st.debugFramesMax, st.debugOverlay)) = some (5, true) ∧
    ((xrCreateSession debugEnvGeneratedHost 0 XR_TYPE_SESSION_CREATE_INFO
        [ChainItem.graphicsBindingD3D11 (some 1) 2] 1 false {}).2.m_sessions 1).map
      (fun st => (st.debugFramesMax, st.debugOverlay)) = some (60, false) := by
  refine ⟨rfl, ?_, rfl, ?_, ?_, ?_⟩
  · set_option maxRecDepth 100000 in decide
  · intro dll c dev ctx
    rw [readSessionConfig_generated, readSessionConfig_bare]
    exact ⟨rfl, rfl⟩
  · decide
  · set_option maxRecDepth 100000 in decide

/-! ## Resource and view formats -/

theorem primaryPasses_formats (env : DispatchEnv) (f g : DXGI_FORMAT) (x y : Nat) (r v : Nat)
    (hf : f = v) (hg : g = v) (n : Nat) :
    ∀ (pass : Nat) (a b : ComPtr),
      (primaryPasses env f g x y n pass a b).work.all (DevCall.formatsAre r v) = true := by
  subst hf
  subst hg
  induction n with
  | zero => intro pass a b; simp [primaryPasses]
  | succ n ih =>
    intro pass a b
    unfold primaryPasses
    dsimp only
    split_ifs
    · simp [DevCall.formatsAre]
    · simp [DevCall.formatsAre]
    · have := ih (pass + 1) b a
      simp only [List.all_append, List.all_cons, List.all_nil, this, List.cons_append,
        List.nil_append]
      simp [DevCall.formatsAre]

theorem secondaryPasses_formats (env : DispatchEnv) (s : SessionState) (slot : TempTextures)
    (f g : DXGI_FORMAT) (ox oy w h x y : Nat) (t : ComPtr) (r v : Nat)
    (hf : f = v) (hg : g = v) :
    (fakeHdrPass env s slot f g ox oy w h x y t).work.all (DevCall.formatsAre r v) = true ∧
    (levelsPass env s slot f g x y t).work.all (DevCall.formatsAre r v) = true := by
  subst hf
  subst hg
  unfold fakeHdrPass levelsPass
  constructor <;> split_ifs <;> simp [DevCall.formatsAre]

/-- C26: for every whitelisted source format `f`, `chooseTypeless` gives the
TYPELESS member of the family of `f` (and `f` for `R16G16B16A16_FLOAT`);
`mapSrvFormat` and `mapUavFormat` agree on `f` and give the UNORM member of
the family (`R16G16B16A16_FLOAT` for the float format), which is neither an
sRGB nor a TYPELESS format; and the view formats computed from `f` are those
computed from the resource format `chooseTypeless f`.  In `dispatchCas`, on a
source of format `f`, the pool block creates its textures with the first
format and the pass chain creates every view with the second. -/
theorem pool_and_view_formats (f : DXGI_FORMAT) (h : supported f = true) :
    chooseTypeless f = typelessMember f ∧
    mapSrvFormat f = mapUavFormat f ∧
    mapSrvFormat f = unormMember f ∧
    isSrgbOrTypeless (mapSrvFormat f) = false ∧
    mapSrvFormat (chooseTypeless f) = mapSrvFormat f ∧
    mapUavFormat (chooseTypeless f) = mapUavFormat f ∧
    (∀ (inputOk outputOk : Bool) (d : Device) (td : D3D11_TEXTURE2D_DESC) (slot : TempTextures),
      td.Format = f →
      (acquireTempTextures inputOk outputOk d td slot).work.all
        (DevCall.formatsAre (typelessMember f) (unormMember f)) = true) ∧
    (∀ (env : DispatchEnv) (s : SessionState) (source : Handle) (td : D3D11_TEXTURE2D_DESC)
      (sub : XrSwapchainSubImage) (slot : TempTextures),
      td.Format = f →
      (runPassChain env s source td sub slot).work.all
        (DevCall.formatsAre (typelessMember f) (unormMember f)) = true) := by
  have hmem := (supported_iff f).mp h
  have core : chooseTypeless f = typelessMember f ∧ mapSrvFormat f = mapUavFormat f ∧
      mapSrvFormat f = unormMember f ∧ isSrgbOrTypeless (mapSrvFormat f) = false ∧
      mapSrvFormat (chooseTypeless f) = mapSrvFormat f ∧
      mapUavFormat (chooseTypeless f) = mapUavFormat f := by
    simp only [List.mem_cons, List.mem_singleton, List.not_mem_nil, or_false] at hmem
    rcases hmem with h | h | h | h | h | h | h | h | h | h <;> subst h <;> decide
  obtain ⟨c1, c2, c3, c4, c5, c6⟩ := core
  refine ⟨c1, c2, c3, c4, c5, c6, ?_, ?_⟩
  · intro inputOk outputOk d td slot htd
    subst htd
    unfold acquireTempTextures
    dsimp only
    split_ifs <;> simp [DevCall.formatsAre, c1]
  · intro env s source td sub slot htd
    subst htd
    have hs : mapSrvFormat td.Format = unormMember td.Format := c3
    have hu : mapUavFormat td.Format = unormMember td.Format := c2 ▸ c3
    unfold runPassChain
    dsimp only
    generalize hp : primaryPasses _ _ _ _ _ _ _ _ _ = p
    have hpw : p.work.all (DevCall.formatsAre (typelessMember td.Format)
        (unormMember td.Format)) = true := by
      rw [← hp]
      exact primaryPasses_formats _ _ _ _ _ _ _ hs hu _ _ _ _
    cases hc : p.completed
    · simpa using hpw
    · simp only [Bool.not_true, Bool.false_eq_true, if_false, List.all_append, hpw,
        (secondaryPasses_formats _ _ _ _ _ _ _ _ _ _ _ _ _ _ hs hu).1,
        (secondaryPasses_formats _ _ _ _ _ 0 0 0 0 _ _ _ _ _ hs hu).2, Bool.and_self]

/-- C26 (witness): the sRGB format of the `R8G8B8A8` family. -/
theorem pool_and_view_formats_witness :
    chooseTypeless DXGI_FORMAT_R8G8B8A8_UNORM_SRGB = DXGI_FORMAT_R8G8B8A8_TYPELESS ∧
    mapSrvFormat DXGI_FORMAT_R8G8B8A8_UNORM_SRGB = DXGI_FORMAT_R8G8B8A8_UNORM ∧
    mapUavFormat DXGI_FORMAT_R8G8B8A8_UNORM_SRGB = DXGI_FORMAT_R8G8B8A8_UNORM ∧
    (acquireTempTextures true true ⟨100⟩ colorDesc {}).work.all
      (DevCall.formatsAre DXGI_FORMAT_R8G8B8A8_TYPELESS DXGI_FORMAT_R8G8B8A8_UNORM) = true :=
  have h := pool_and_view_formats DXGI_FORMAT_R8G8B8A8_UNORM_SRGB (by decide)
  ⟨h.1, h.2.2.1, h.2.1.symm.trans h.2.2.1, h.2.2.2.2.2.2.1 true true ⟨100⟩ colorDesc {} rfl⟩

/-! ## The pool key -/

theorem makeTempKey_eq (sc a : Nat) (hs : sc < 18446744073709551616) (ha : a < 4294967296) :
    makeTempKey sc a = sc ^^^ (a * 4294967296) := by
  unfold makeTempKey
  have h1 : a % UINT_MOD = a := Nat.mod_eq_of_lt ha
  have h2 : (a * 4294967296) % 18446744073709551616 = a * 4294967296 :=
    Nat.mod_eq_of_lt (by omega)
  rw [h1, Nat.mod_eq_of_lt hs, Nat.shiftLeft_eq, show (2 : Nat) ^ 32 = 4294967296 by norm_num,
    h2]

theorem testBit_mul_two_pow_32 (a i : Nat) :
    (a * 4294967296).testBit i = (decide (32 ≤ i) && a.testBit (i - 32)) := by
  have h : a * 4294967296 = a <<< 32 := by
    rw [Nat.shiftLeft_eq]
  rw [h, Nat.testBit_shiftLeft]

/-- C28 (at the failing input): slice 0 of the swapchain with the 64-bit handle
`2^32 + 1` and slice 1 of the swapchain with the handle `1` have the same
key, so the two requests address the same pool entry. -/
theorem makeTempKey_collision :
    makeTempKey 4294967297 0 = makeTempKey 1 1 ∧
    (4294967297 : Nat) < 18446744073709551616 ∧ (1 : Nat) < 18446744073709551616 ∧
    (0 : Nat) < 4294967296 ∧ (1 : Nat) < 4294967296 ∧
    (4294967297 : Nat) ≠ 1 ∧ (0 : Nat) ≠ 1 := by
  decide

/-- Equal pool keys: for 64-bit handles and 32-bit slices, two requests have the
same key exactly when the XOR of the two handles is the XOR of the two slices
shifted left by 32.  So requests on one swapchain with equal keys name the
same slice, requests for one slice with equal keys name the same swapchain,
and for handles below `2^32` equal keys mean the same swapchain and the same
slice. -/
theorem makeTempKey_equal_keys (sc1 sc2 a1 a2 : Nat)
    (h1 : sc1 < 18446744073709551616) (h2 : sc2 < 18446744073709551616)
    (k1 : a1 < 4294967296) (k2 : a2 < 4294967296) :
    (makeTempKey sc1 a1 = makeTempKey sc2 a2 ↔ sc1 ^^^ sc2 = (a1 ^^^ a2) * 4294967296) ∧
    (sc1 = sc2 → makeTempKey sc1 a1 = makeTempKey sc2 a2 → a1 = a2) ∧
    (a1 = a2 → makeTempKey sc1 a1 = makeTempKey sc2 a2 → sc1 = sc2) ∧
    (sc1 < 4294967296 → sc2 < 4294967296 → makeTempKey sc1 a1 = makeTempKey sc2 a2 →
      sc1 = sc2 ∧ a1 = a2) := by
  rw [makeTempKey_eq sc1 a1 h1 k1, makeTempKey_eq sc2 a2 h2 k2]
  have hx : (a1 ^^^ a2) * 4294967296 = (a1 * 4294967296) ^^^ (a2 * 4294967296) := by
    apply Nat.eq_of_testBit_eq
    intro i
    simp only [testBit_mul_two_pow_32, Nat.testBit_xor]
    by_cases hi : 32 ≤ i <;> simp [hi]
  have hiff : sc1 ^^^ (a1 * 4294967296) = sc2 ^^^ (a2 * 4294967296) ↔
      sc1 ^^^ sc2 = (a1 ^^^ a2) * 4294967296 := by
    rw [hx]
    have key : ∀ p q r s : Bool, (p ^^ r) = (q ^^ s) ↔ (p ^^ q) = (r ^^ s) := by decide
    constructor
    · intro h
      apply Nat.eq_of_testBit_eq
      intro i
      have hb := congrArg (fun n => n.testBit i) h
      simp only [Nat.testBit_xor] at hb ⊢
      exact (key _ _ _ _).mp hb
    · intro h
      apply Nat.eq_of_testBit_eq
      intro i
      have hb := congrArg (fun n => n.testBit i) h
      simp only [Nat.testBit_xor] at hb ⊢
      exact (key _ _ _ _).mpr hb
  have hslice : sc1 = sc2 → sc1 ^^^ (a1 * 4294967296) = sc2 ^^^ (a2 * 4294967296) →
      a1 = a2 := by
    intro hs h
    subst hs
    have := Nat.xor_right_inj.mp h
    omega
  refine ⟨hiff, hslice, ?_, ?_⟩
  · intro ha h
    subst ha
    exact Nat.xor_left_inj.mp h
  · intro l1 l2 h
    have hs : sc1 = sc2 := by
      apply Nat.eq_of_testBit_eq
      intro i
      have hb := congrArg (fun n => n.testBit i) h
      simp only [Nat.testBit_xor, testBit_mul_two_pow_32] at hb
      by_cases hi : 32 ≤ i
      · have p1 : sc1 < 2 ^ i :=
          lt_of_lt_of_le l1 (by
            calc (4294967296 : Nat) = 2 ^ 32 := by norm_num
              _ ≤ 2 ^ i := Nat.pow_le_pow_right (by norm_num) hi)
        have p2 : sc2 < 2 ^ i :=
          lt_of_lt_of_le l2 (by
            calc (4294967296 : Nat) = 2 ^ 32 := by norm_num
              _ ≤ 2 ^ i := Nat.pow_le_pow_right (by norm_num) hi)
        rw [Nat.testBit_lt_two_pow p1, Nat.testBit_lt_two_pow p2]
      · simpa [hi] using hb
    exact ⟨hs, hslice hs h⟩

/-- Equal pool keys at concrete requests: swapchains 7 and 7 with slices 1 and 1,
and a colliding pair, whose handles differ by `(0 XOR 1) * 2^32`. -/
theorem makeTempKey_equal_keys_witness :
    (makeTempKey 7 1 = makeTempKey 7 1 ↔ 7 ^^^ 7 = (1 ^^^ 1) * 4294967296) ∧
    (makeTempKey 4294967297 0 = makeTempKey 1 1 ↔
      4294967297 ^^^ 1 = (0 ^^^ 1) * 4294967296) :=
  ⟨(makeTempKey_equal_keys 7 7 1 1 (by norm_num) (by norm_num) (by norm_num)
      (by norm_num)).1,
   (makeTempKey_equal_keys 4294967297 1 0 1 (by norm_num) (by norm_num) (by norm_num)
      (by norm_num)).1⟩

/-! ## Source subresource -/

/-- C24 (at the failing input): for slice 2 of a four-slice texture array with
three mips per slice, the copy-in reads and the copy-back writes subresource 2
of the source, which is mip 2 of slice 0; mip 0 of slice 2 is subresource
`2 * 3 = 6`. -/
theorem dispatchCas_source_subresource_three_mips :
    sliceTwoView.imageArrayIndex < threeMipArrayDesc.ArraySize ∧
    subresourcesOf 50 (dispatchCas dispatchAllOk ⟨100⟩ freshSession 7 50 threeMipArrayDesc
        sliceTwoView (fun _ => none)).cmds = [2, 2] ∧
    D3D11CalcSubresource 0 sliceTwoView.imageArrayIndex threeMipArrayDesc.MipLevels = 6 ∧
    sliceTwoView.imageArrayIndex * threeMipArrayDesc.MipLevels = 6 ∧
    subresourceArraySlice 2 threeMipArrayDesc.MipLevels = 0 ∧
    subresourceMipSlice 2 threeMipArrayDesc.MipLevels = 2 := by
  have h : totalPasses (-2147483648) (6 / 10) = 1 := totalPasses_of_le_one _ _ (by norm_num)
  refine ⟨by decide, ?_, by decide, by decide, by decide, by decide⟩
  simp [dispatchCas, runPassChain, ensureCasObjects, createPrimaryShader, createLevelsShader,
    createFakeHdrShader, createTimingQueries, Device.create, ensureAllOk, dispatchAllOk,
    freshSession, threeMipArrayDesc, colorDesc, sliceTwoView, supported, acquireTempTextures, h,
    primaryPasses, timingEnd, fakeHdrPass, levelsPass, toUINT, addUINT, D3D11CalcSubresource,
    UINT_MOD, updateBuffer, subresourcesOf]

/-! ## Backfill of the config file -/

theorem containsText_append (needle before after : Str)
    (h : containsText needle after = true) : containsText needle (before ++ after) = true := by
  induction before with
  | nil => exact h
  | cons c rest ih =>
    show containsText needle (c :: (rest ++ after)) = true
    unfold containsText
    rw [ih]
    simp

/-- C21 (as stated, refuted): the file `configWithoutLevels` defines none of the
six Levels keys, and `xrCreateInstance` leaves it as it is: no Levels section
is appended.  The file `commentedFakeHdrConfig` defines none of the four
FakeHDR keys but names `fakehdr_enable` in a comment, and is left as it is
too. -/
theorem ensureDefaultConfig_no_levels_backfill :
    lacksKeys levelsKeys configWithoutLevels = true ∧
    ensureDefaultConfig (some configWithoutLevels) true = some configWithoutLevels ∧
    lacksKeys fakeHdrKeys commentedFakeHdrConfig = true ∧
    ensureDefaultConfig (some commentedFakeHdrConfig) true = some commentedFakeHdrConfig := by
  decide

/-- C21 (amended): for an existing per-user config file, `xrCreateInstance`
appends the FakeHDR section (a blank line, a comment line and the four
`key=value` lines of the defaults) when the text of the file does not contain
`fakehdr_enable` anywhere and the file can be opened for appending; in every
other case the file is left unchanged, and nothing is appended for Levels.
The original content is never changed, and running the step twice gives the
file of running it once. -/
theorem ensureDefaultConfig_backfill (text : Str) (writable : Bool) :
    (containsText "fakehdr_enable".toList text = false →
      ensureDefaultConfig (some text) true = some (text ++ fakeHdrDefaultsText)) ∧
    (containsText "fakehdr_enable".toList text = true →
      ensureDefaultConfig (some text) writable = some text) ∧
    ensureDefaultConfig (some text) false = some text ∧
    (∃ added, ensureDefaultConfig (some text) writable = some (text ++ added) ∧
      (added = [] ∨ added = fakeHdrDefaultsText)) ∧
    ensureDefaultConfig (ensureDefaultConfig (some text) writable) writable
      = ensureDefaultConfig (some text) writable ∧
    ensureDefaultConfig (ensureDefaultConfig none writable) writable
      = ensureDefaultConfig none writable ∧
    fakeHdrKeys.map (fun k => tryReadConfigValueFromFile (some fakeHdrDefaultsText) k)
      = [some "0".toList, some "1.30".toList, some "0.793".toList, some "0.87".toList] := by
  have hsec : containsText "fakehdr_enable".toList fakeHdrDefaultsText = true := by decide
  have hdef : containsText "fakehdr_enable".toList defaultConfigText = true := by
    set_option maxRecDepth 100000 in decide
  have fa : containsText "fakehdr_enable".toList text = false →
      ensureDefaultConfig (some text) true = some (text ++ fakeHdrDefaultsText) := by
    intro h
    unfold ensureDefaultConfig
    simp only [h, Bool.not_false, if_true]
  have fk : ∀ w, containsText "fakehdr_enable".toList text = true →
      ensureDefaultConfig (some text) w = some text := by
    intro w h
    unfold ensureDefaultConfig
    simp only [h, Bool.not_true, Bool.false_eq_true, if_false]
  have fn : ensureDefaultConfig (some text) false = some text := by
    unfold ensureDefaultConfig
    simp only [Bool.false_eq_true, if_false, ite_self]
  have h2 : ensureDefaultConfig (some (text ++ fakeHdrDefaultsText)) true
      = some (text ++ fakeHdrDefaultsText) := by
    unfold ensureDefaultConfig
    simp only [containsText_append _ text _ hsec, Bool.not_true, Bool.false_eq_true,
      if_false]
  refine ⟨fa, fk writable, fn, ?_, ?_, ?_, by decide⟩
  · cases hc : containsText "fakehdr_enable".toList text with
    | true => exact ⟨[], by rw [fk writable hc, List.append_nil], Or.inl rfl⟩
    | false =>
      cases writable with
      | false => exact ⟨[], by rw [fn, List.append_nil], Or.inl rfl⟩
      | true => exact ⟨fakeHdrDefaultsText, fa hc, Or.inr rfl⟩
  · cases hc : containsText "fakehdr_enable".toList text with
    | true => rw [fk writable hc, fk writable hc]
    | false =>
      cases writable with
      | false => rw [fn, fn]
      | true => rw [fa hc, h2]
  · cases writable with
    | false => rfl
    | true =>
      have h1 : ensureDefaultConfig none true = some defaultConfigText := rfl
      have h3 : ensureDefaultConfig (some defaultConfigText) true = some defaultConfigText := by
        unfold ensureDefaultConfig
        simp only [hdef, Bool.not_true, Bool.false_eq_true, if_false]
      rw [h1, h3]

/-- C21 (witness): the file `sharpnessOnlyConfig` gets the FakeHDR section
appended, and the file `configWithoutLevels` is left unchanged. -/
theorem ensureDefaultConfig_backfill_witness :
    ensureDefaultConfig (some sharpnessOnlyConfig) true
      = some (sharpnessOnlyConfig ++ fakeHdrDefaultsText) ∧
    ensureDefaultConfig (some configWithoutLevels) true = some configWithoutLevels :=
  ⟨(ensureDefaultConfig_backfill sharpnessOnlyConfig true).1 (by decide),
   (ensureDefaultConfig_backfill configWithoutLevels true).2.1 (by decide)⟩

/-! ## Ping-pong of the primary passes -/

theorem alternating_succ (n : Nat) (a b : ComPtr) :
    alternating (n + 1) a b = (a, b) :: alternating n b a := by
  unfold alternating
  rw [List.range_succ_eq_map, List.map_cons, List.map_map]
  congr 1
  apply List.map_congr_left
  intro i _
  have h : (i + 1) % 2 = 0 ↔ ¬ (i % 2 = 0) := by omega
  by_cases hi : i % 2 = 0
  · simp [hi, h]
  · simp [hi, h]

theorem dispatchLog_append_plain (qb qe : ComPtr) (st : Bindings) (l1 l2 : List Cmd)
    (h : l1.all Cmd.isPlain = true) :
    dispatchLog qb qe st (l1 ++ l2) = dispatchLog qb qe st l2 := by
  induction l1 with
  | nil => rfl
  | cons c rest ih =>
    simp only [List.all_cons, Bool.and_eq_true] at h
    obtain ⟨hc, hr⟩ := h
    cases c <;> first | (simp [Cmd.isPlain] at hc; done) | exact ih hr

theorem updateBuffer_plain (b : ComPtr) (ok : Bool) (data : CBData) :
    (updateBuffer b ok data).all Cmd.isPlain = true := by
  unfold updateBuffer
  split_ifs <;> rfl

theorem dispatchLog_cons_csSetShader (qb qe : ComPtr) (st : Bindings) (sh : ComPtr)
    (l : List Cmd) :
    dispatchLog qb qe st (Cmd.csSetShader sh :: l)
      = dispatchLog qb qe { st with shader := sh } l := rfl

theorem dispatchLog_cons_srv (qb qe : ComPtr) (st : Bindings) (v : Option View)
    (l : List Cmd) :
    dispatchLog qb qe st (Cmd.csSetShaderResources 0 v :: l)
      = dispatchLog qb qe { st with srv := v } l := rfl

theorem dispatchLog_cons_uav (qb qe : ComPtr) (st : Bindings) (v : Option View)
    (l : List Cmd) :
    dispatchLog qb qe st (Cmd.csSetUnorderedAccessViews 0 v :: l)
      = dispatchLog qb qe { st with uav := v } l := rfl

theorem dispatchLog_cons_dispatch (qb qe : ComPtr) (st : Bindings) (x y z : Nat)
    (l : List Cmd) :
    dispatchLog qb qe st (Cmd.dispatch x y z :: l)
      = { shader := st.shader, read := boundResource st.srv, write := boundResource st.uav,
          timed := st.timed, groups := (x, y, z) } :: dispatchLog qb qe st l := rfl

theorem dispatchLog_cons_queryEnd (qb qe : ComPtr) (st : Bindings) (q : ComPtr)
    (l : List Cmd) :
    dispatchLog qb qe st (Cmd.queryEnd q :: l)
      = dispatchLog qb qe
          { st with timed := if q = qb then true else if q = qe then false else st.timed }
          l := rfl

theorem dispatchLog_cons_plain (qb qe : ComPtr) (st : Bindings) (c : Cmd) (l : List Cmd)
    (h : c.isPlain = true) : dispatchLog qb qe st (c :: l) = dispatchLog qb qe st l :=
  dispatchLog_append_plain qb qe st [c] l (by simp [h])

/-- The dispatches of the primary loop, started with no view bound: `k` passes
ran, all `n` of them when the loop completes; pass `i` reads `a` and writes
`b` when `i` is even and the other way round when `i` is odd; afterwards
`readTex` is the texture the last pass wrote. -/
theorem primaryPasses_log (env : DispatchEnv) (f g : DXGI_FORMAT) (x y : Nat)
    (qb qe : ComPtr) :
    ∀ (n pass : Nat) (a b : ComPtr) (st : Bindings), st.srv = none → st.uav = none →
      ∃ k, k ≤ n ∧
        ((primaryPasses env f g x y n pass a b).completed = true →
          k = n ∧
          (primaryPasses env f g x y n pass a b).readTex = (if n % 2 = 0 then a else b) ∧
          (primaryPasses env f g x y n pass a b).writeTex = (if n % 2 = 0 then b else a) ∧
          ∀ l, dispatchLog qb qe st ((primaryPasses env f g x y n pass a b).cmds ++ l)
            = (alternating n a b).map (fun io =>
                { shader := st.shader, read := io.1, write := io.2, timed := st.timed,
                  groups := (x, y, 1) }) ++ dispatchLog qb qe st l) ∧
        dispatchLog qb qe st (primaryPasses env f g x y n pass a b).cmds
          = (alternating k a b).map (fun io =>
              { shader := st.shader, read := io.1, write := io.2, timed := st.timed,
                groups := (x, y, 1) }) := by
  intro n
  induction n with
  | zero =>
    intro pass a b st _ _
    exact ⟨0, le_refl _, fun _ => ⟨rfl, rfl, rfl, fun _ => rfl⟩, rfl⟩
  | succ n ih =>
    intro pass a b st hsrv huav
    have hst : ({ st with srv := none, uav := none } : Bindings) = st := by
      cases st with
      | mk sh srv uav timed =>
        simp only at hsrv huav
        subst hsrv
        subst huav
        rfl
    unfold primaryPasses
    by_cases h1 : (env.srvOk pass && a.isSome) = true
    · by_cases h2 : (env.uavOk pass && b.isSome) = true
      · obtain ⟨k, hk, hc, hl⟩ := ih (pass + 1) b a st hsrv huav
        have hpass : ∀ l, dispatchLog qb qe st
            ([Cmd.csSetShaderResources 0 (some ⟨a, f⟩),
              Cmd.csSetUnorderedAccessViews 0 (some ⟨b, g⟩), Cmd.dispatch x y 1,
              Cmd.csSetUnorderedAccessViews 0 none, Cmd.csSetShaderResources 0 none] ++ l)
            = { shader := st.shader, read := a, write := b, timed := st.timed,
                groups := (x, y, 1) } :: dispatchLog qb qe st l := by
          intro l
          simp only [List.cons_append, List.nil_append, dispatchLog_cons_srv,
            dispatchLog_cons_uav, dispatchLog_cons_dispatch, boundResource, Option.bind_some]
          rw [hst]
          rfl
        simp only [h1, h2, Bool.not_true, Bool.false_eq_true, if_false]
        refine ⟨k + 1, Nat.succ_le_succ hk, ?_, ?_⟩
        · intro hcomp
          obtain ⟨c1, c2, c3, c4⟩ := hc hcomp
          have hpar : ∀ (u v : ComPtr), (if (n + 1) % 2 = 0 then u else v)
              = (if n % 2 = 0 then v else u) := by
            intro u v
            by_cases hn : n % 2 = 0
            · have : ¬ ((n + 1) % 2 = 0) := by omega
              simp [hn, this]
            · have : (n + 1) % 2 = 0 := by omega
              simp [hn, this]
          refine ⟨by rw [c1], by rw [c2, hpar], by rw [c3, hpar], ?_⟩
          intro l
          rw [List.append_assoc, hpass, c4, alternating_succ]
          rfl
        · rw [hpass, alternating_succ, hl]
          rfl
      · refine ⟨0, Nat.zero_le _, ?_, ?_⟩
        · simp [h1, h2]
        · simp only [h1, h2, Bool.not_true, Bool.false_eq_true, if_false, Bool.not_false,
            if_true]
          rfl
    · refine ⟨0, Nat.zero_le _, ?_, ?_⟩
      · simp [h1]
      · simp only [h1, Bool.not_false, if_true]
        rfl
theorem boundResource_created (ok : Bool) (t : ComPtr) (f : DXGI_FORMAT) :
    boundResource (if (ok && t.isSome) = true then some ⟨t, f⟩ else none)
      = if ok = true then t else none := by
  cases ok <;> cases t <;> rfl

/-- The dispatch of the FakeHDR pass: it reads `t` and writes the other pool
texture, through views whose creation is not checked. -/
theorem fakeHdrPass_log (env : DispatchEnv) (s : SessionState) (slot : TempTextures)
    (f g : DXGI_FORMAT) (ox oy w h x y : Nat) (t : ComPtr) (qb qe : ComPtr) (st : Bindings)
    (l : List Cmd) :
    (fakeHdrPass env s slot f g ox oy w h x y t).casFinalTex
      = (if fakeHdrActive s = true then otherTexture slot t else t) ∧
    dispatchLog qb qe st ((fakeHdrPass env s slot f g ox oy w h x y t).cmds ++ l)
      = if fakeHdrActive s = true then
          { shader := s.fakeHdrCS, read := if env.hdrSrvOk = true then t else none,
            write := if env.hdrUavOk = true then otherTexture slot t else none,
            timed := st.timed, groups := (x, y, 1) } ::
            dispatchLog qb qe { st with shader := s.fakeHdrCS, srv := none, uav := none } l
        else dispatchLog qb qe st l := by
  unfold fakeHdrPass fakeHdrActive otherTexture
  by_cases h1 : (s.fakeHdrEnabled && s.fakeHdrCS.isSome && s.fakeHdrCB.isSome) = true
  · rw [if_pos h1, if_pos h1, if_pos h1]
    refine ⟨rfl, ?_⟩
    simp only [List.append_assoc, dispatchLog_append_plain _ _ _ _ _ (updateBuffer_plain _ _ _),
      List.cons_append, List.nil_append, dispatchLog_cons_csSetShader, dispatchLog_cons_srv,
      dispatchLog_cons_uav, dispatchLog_cons_dispatch,
      dispatchLog_cons_plain _ _ _ (Cmd.csSetConstantBuffers _ _) _ rfl, boundResource_created]
  · rw [if_neg h1, if_neg h1, if_neg h1]
    exact ⟨rfl, rfl⟩

/-- The dispatch of the Levels pass: it reads `t` and writes the other pool
texture, through views whose creation is not checked. -/
theorem levelsPass_log (env : DispatchEnv) (s : SessionState) (slot : TempTextures)
    (f g : DXGI_FORMAT) (x y : Nat) (t : ComPtr) (qb qe : ComPtr) (st : Bindings)
    (l : List Cmd) :
    (levelsPass env s slot f g x y t).casFinalTex
      = (if levelsActive s = true then
          (if otherTexture slot t = slot.input then slot.input else slot.output) else t) ∧
    dispatchLog qb qe st ((levelsPass env s slot f g x y t).cmds ++ l)
      = if levelsActive s = true then
          { shader := s.levelsCS, read := if env.levelsSrvOk = true then t else none,
            write := if env.levelsUavOk = true then otherTexture slot t else none,
            timed := st.timed, groups := (x, y, 1) } ::
            dispatchLog qb qe { st with shader := s.levelsCS, srv := none, uav := none } l
        else dispatchLog qb qe st l := by
  unfold levelsPass levelsActive otherTexture
  by_cases h1 : (s.levelsEnabled && s.levelsCS.isSome && s.levelsCB.isSome) = true
  · rw [if_pos h1, if_pos h1, if_pos h1]
    refine ⟨rfl, ?_⟩
    simp only [List.append_assoc, dispatchLog_append_plain _ _ _ _ _ (updateBuffer_plain _ _ _),
      List.cons_append, List.nil_append, dispatchLog_cons_csSetShader, dispatchLog_cons_srv,
      dispatchLog_cons_uav, dispatchLog_cons_dispatch,
      dispatchLog_cons_plain _ _ _ (Cmd.csSetConstantBuffers _ _) _ rfl, boundResource_created]
  · rw [if_neg h1, if_neg h1, if_neg h1]
    exact ⟨rfl, rfl⟩

/-- The timing block of lines 568-584 closes the bracket when the queries exist. -/
theorem timingEnd_log (env : DispatchEnv) (s : SessionState) (st : Bindings) (l : List Cmd)
    (hq : timingQueriesExist s = true → s.qEnd ≠ s.qBegin)
    (hd : timingQueriesExist s = true → s.qDisjoint ≠ s.qBegin) :
    dispatchLog s.qBegin s.qEnd st ((timingEnd env s).cmds ++ l)
      = dispatchLog s.qBegin s.qEnd
          { st with timed := if timingQueriesExist s = true then false else st.timed } l := by
  by_cases h1 : (s.qDisjoint.isSome && s.qBegin.isSome && s.qEnd.isSome) = true
  · have hq1 : s.qEnd ≠ s.qBegin := hq h1
    have hd1 : s.qDisjoint ≠ s.qBegin := hd h1
    have hc0 : ∀ m : List Cmd, m.all Cmd.isPlain = true →
        dispatchLog s.qBegin s.qEnd st
          (([Cmd.queryEnd s.qEnd, Cmd.queryEnd s.qDisjoint, Cmd.getData s.qDisjoint] ++ m) ++ l)
          = dispatchLog s.qBegin s.qEnd { st with timed := false } l := by
      intro m hm
      simp only [List.cons_append, List.nil_append, dispatchLog_cons_queryEnd, hq1, hd1,
        if_false, if_true, dispatchLog_cons_plain _ _ _ (Cmd.getData _) _ rfl]
      rw [dispatchLog_append_plain _ _ _ _ _ hm]
      by_cases he : s.qDisjoint = s.qEnd <;> simp [he]
    unfold timingEnd timingQueriesExist
    rw [if_pos h1, if_pos h1]
    dsimp only
    split
    · split
      · exact hc0 [Cmd.getData s.qBegin] rfl
      · split
        · exact hc0 [Cmd.getData s.qBegin, Cmd.getData s.qEnd] rfl
        · split_ifs
          · exact hc0 [Cmd.getData s.qBegin, Cmd.getData s.qEnd] rfl
          · exact hc0 [Cmd.getData s.qBegin, Cmd.getData s.qEnd] rfl
    · have := hc0 [] rfl
      rw [List.append_nil] at this
      exact this
  · unfold timingEnd timingQueriesExist
    rw [if_neg h1, if_neg h1]
    cases st
    rfl
theorem lastCopySource_append (pre : List Cmd) (dst src : ComPtr) (a b c d e : Nat)
    (box : D3D11_BOX) :
    lastCopySource (pre ++ [Cmd.copySubresourceRegion dst a b c d src e box]) = some src := by
  unfold lastCopySource
  rw [List.getLast?_append]
  rfl


/-- The dispatches of a completed pass chain, and the source of its copy-back.
The primary passes run with the primary shader, alternate between the two
pool textures starting with a read of `input`, and lie inside the timed
bracket when the queries exist; the FakeHDR and the Levels dispatch follow
the end timestamp; the copy-back reads the texture the last block left in
`casFinalTex`. -/
theorem runPassChain_log (env : DispatchEnv) (s : SessionState) (source : Handle)
    (td : D3D11_TEXTURE2D_DESC) (sub : XrSwapchainSubImage) (slot : TempTextures)
    (hq : timingQueriesExist s = true → s.qEnd ≠ s.qBegin)
    (hd : timingQueriesExist s = true → s.qDisjoint ≠ s.qBegin)
    (hc : (runPassChain env s source td sub slot).completed = true) :
    dispatchLog s.qBegin s.qEnd {} (runPassChain env s source td sub slot).cmds
      = (alternating (totalPasses env.intOverflow s.sharpness).toNat slot.input
            slot.output).map (fun io =>
          { shader := s.cs, read := io.1, write := io.2, timed := timingQueriesExist s,
            groups := (groupCount (copyExtent sub.extentWidth td.Width),
                       groupCount (copyExtent sub.extentHeight td.Height), 1) }) ++
        ((if fakeHdrActive s = true then
            [{ shader := s.fakeHdrCS,
               read := if env.hdrSrvOk = true then
                 primaryFinal (totalPasses env.intOverflow s.sharpness).toNat slot else none,
               write := if env.hdrUavOk = true then
                 otherTexture slot
                   (primaryFinal (totalPasses env.intOverflow s.sharpness).toNat slot)
                 else none,
               timed := false,
               groups := (groupCount (copyExtent sub.extentWidth td.Width),
                          groupCount (copyExtent sub.extentHeight td.Height), 1) }]
          else []) ++
         (if levelsActive s = true then
            [{ shader := s.levelsCS,
               read := if env.levelsSrvOk = true then
                 fakeHdrFinal s slot
                   (primaryFinal (totalPasses env.intOverflow s.sharpness).toNat slot)
                 else none,
               write := if env.levelsUavOk = true then
                 otherTexture slot (fakeHdrFinal s slot
                   (primaryFinal (totalPasses env.intOverflow s.sharpness).toNat slot))
                 else none,
               timed := false,
               groups := (groupCount (copyExtent sub.extentWidth td.Width),
                          groupCount (copyExtent sub.extentHeight td.Height), 1) }]
          else [])) ∧
    lastCopySource (runPassChain env s source td sub slot).cmds
      = some (levelsFinal s slot (fakeHdrFinal s slot
          (primaryFinal (totalPasses env.intOverflow s.sharpness).toNat slot))) := by
  obtain ⟨k, _, hp, _⟩ := primaryPasses_log env (mapSrvFormat td.Format)
    (mapUavFormat td.Format)
    (addUINT (if sub.extentWidth ≠ 0 then toUINT sub.extentWidth else td.Width) 15 / 16)
    (addUINT (if sub.extentHeight ≠ 0 then toUINT sub.extentHeight else td.Height) 15 / 16)
    s.qBegin s.qEnd
    (totalPasses env.intOverflow s.sharpness).toNat 0 slot.input slot.output
    { shader := s.cs, timed := timingQueriesExist s } rfl rfl
  obtain ⟨m, acc, ht⟩ := timingEnd_state env s
  have htl := fun st l => timingEnd_log env s st l hq hd
  have hb : ∀ (st : Bindings) (l : List Cmd), st.timed = false →
      dispatchLog s.qBegin s.qEnd st
        ((if (s.qDisjoint.isSome && s.qBegin.isSome && s.qEnd.isSome) = true then
          [Cmd.queryBegin s.qDisjoint, Cmd.queryEnd s.qBegin] else []) ++ l)
        = dispatchLog s.qBegin s.qEnd { st with timed := timingQueriesExist s } l := by
    intro st l hst
    unfold timingQueriesExist
    split_ifs with h1
    · simp only [List.cons_append, List.nil_append, dispatchLog_cons_queryEnd, if_true,
        dispatchLog_cons_plain _ _ _ (Cmd.queryBegin _) _ rfl, h1]
    · have h2 : (s.qDisjoint.isSome && s.qBegin.isSome && s.qEnd.isSome) = false := by
        simpa using h1
      rw [h2, ← hst]
      rfl
  revert hc
  unfold runPassChain
  dsimp only
  generalize primaryPasses env (mapSrvFormat td.Format) (mapUavFormat td.Format)
    (addUINT (if sub.extentWidth ≠ 0 then toUINT sub.extentWidth else td.Width) 15 / 16)
    (addUINT (if sub.extentHeight ≠ 0 then toUINT sub.extentHeight else td.Height) 15 / 16)
    (totalPasses env.intOverflow s.sharpness).toNat 0 slot.input slot.output = p at hp ⊢
  generalize timingEnd env s = t at ht htl ⊢
  have e1 : fakeHdrActive t.state = fakeHdrActive s := by rw [ht]; rfl
  have e2 : levelsActive t.state = levelsActive s := by rw [ht]; rfl
  have e3 : t.state.fakeHdrCS = s.fakeHdrCS := by rw [ht]
  have e4 : t.state.levelsCS = s.levelsCS := by rw [ht]
  cases hpc : p.completed with
  | false => intro h; simp at h
  | true =>
    intro _
    obtain ⟨_, p1, _, p2⟩ := hp hpc
    simp only [Bool.not_true, Bool.false_eq_true, if_false]
    constructor
    · simp only [List.append_assoc, List.cons_append, List.nil_append,
        dispatchLog_cons_plain _ _ _ (Cmd.copySubresourceRegion _ _ _ _ _ _ _ _) _ rfl,
        dispatchLog_append_plain _ _ _ _ _ (updateBuffer_plain _ _ _)]
      rw [hb _ _ rfl]
      simp only [dispatchLog_cons_csSetShader,
        dispatchLog_cons_plain _ _ _ (Cmd.csSetConstantBuffers _ _) _ rfl,
        dispatchLog_append_plain _ _ _ _ _ (updateBuffer_plain _ _ _)]
      rw [p2, htl]
      simp only [dispatchLog_cons_uav, dispatchLog_cons_srv]
      rw [(fakeHdrPass_log _ _ _ _ _ _ _ _ _ _ _ _ _ _ _ _).2,
        (fakeHdrPass_log env t.state slot _ _ _ _ _ _ _ _ _ s.qBegin s.qEnd {} []).1, e1, e3, p1]
      have hcopy : ∀ (st : Bindings) (dst src : ComPtr) (a b c d e : Nat) (box : D3D11_BOX),
          dispatchLog s.qBegin s.qEnd st [Cmd.copySubresourceRegion dst a b c d src e box]
            = [] := fun _ _ _ _ _ _ _ _ _ => rfl
      have hlev := fun st tex l => (levelsPass_log env t.state slot (mapSrvFormat td.Format)
        (mapUavFormat td.Format)
        (addUINT (if sub.extentWidth ≠ 0 then toUINT sub.extentWidth else td.Width) 15 / 16)
        (addUINT (if sub.extentHeight ≠ 0 then toUINT sub.extentHeight else td.Height) 15 / 16)
        tex s.qBegin s.qEnd st l).2
      simp only [hlev, e2, e4, hcopy]
      unfold primaryFinal fakeHdrFinal groupCount copyExtent
      by_cases hF : fakeHdrActive s = true <;> by_cases hL : levelsActive s = true <;>
        by_cases hT : timingQueriesExist s = true <;>
        simp [hF, hL, hT]
    · rw [lastCopySource_append,
        (levelsPass_log env t.state slot _ _ _ _ _ s.qBegin s.qEnd {} []).1,
        (fakeHdrPass_log env t.state slot _ _ _ _ _ _ _ _ _ s.qBegin s.qEnd {} []).1,
        e1, e2, p1]
      rfl

/-- The commands of a `dispatchCas` call: none, or those of the pass chain run on
the state `ensureCasObjects` leaves and on the entry the pool block delivers. -/
theorem dispatchCas_chain (env : DispatchEnv) (d : Device) (s : SessionState)
    (swapchain : Nat) (source : Handle) (td : D3D11_TEXTURE2D_DESC) (sub : XrSwapchainSubImage)
    (pool : TempPool) :
    ((dispatchCas env d s swapchain source td sub pool).cmds = [] ∧
      (dispatchCas env d s swapchain source td sub pool).logged = [] ∧
      (dispatchCas env d s swapchain source td sub pool).completed = false ∧
      (dispatchCas env d s swapchain source td sub pool).state
        = (ensureCasObjects env.ensure d s).state) ∨
    ∃ slot,
      (dispatchCas env d s swapchain source td sub pool).cmds
        = (runPassChain env (ensureCasObjects env.ensure d s).state source td sub slot).cmds ∧
      (dispatchCas env d s swapchain source td sub pool).logged
        = (runPassChain env (ensureCasObjects env.ensure d s).state source td sub slot).logged ∧
      (dispatchCas env d s swapchain source td sub pool).completed
        = (runPassChain env (ensureCasObjects env.ensure d s).state source td sub
            slot).completed ∧
      (dispatchCas env d s swapchain source td sub pool).state
        = (runPassChain env (ensureCasObjects env.ensure d s).state source td sub slot).state := by
  by_cases he : (ensureCasObjects env.ensure d s).ok = true
  · by_cases hf : supported td.Format = true
    · by_cases hc : td.SampleCount = 1
      · by_cases ha : (acquireTempTextures env.createInputOk env.createOutputOk
            (ensureCasObjects env.ensure d s).device td
            ((pool (makeTempKey swapchain sub.imageArrayIndex)).getD {})).ok = true
        · right
          refine ⟨(acquireTempTextures env.createInputOk env.createOutputOk
            (ensureCasObjects env.ensure d s).device td
            ((pool (makeTempKey swapchain sub.imageArrayIndex)).getD {})).slot, ?_, ?_, ?_, ?_⟩ <;>
            rw [dispatchCas_of_pool_ok env d s swapchain source td sub pool he hf hc ha]
        · left
          unfold dispatchCas
          simp [he, hf, hc, ha]
      · left
        unfold dispatchCas
        simp [he, hf, hc]
    · left
      unfold dispatchCas
      simp [he, hf]
  · left
    unfold dispatchCas
    simp [he]

/-! ## Ping-pong of the primary passes (claim C22) -/

theorem alternating_getLast (n : Nat) (a b : ComPtr) :
    (alternating (n + 1) a b).getLast? = some (if n % 2 = 0 then (a, b) else (b, a)) := by
  unfold alternating
  rw [List.range_succ, List.map_append, List.map_singleton, List.getLast?_append]
  rfl

/-- C22 (counterexample): a single primary pass (1 is odd) on the pool textures
200 (input) and 201 (output) reads 200 and writes 201; the final image is in
the output texture 201, which is what `casFinalTex` is set to. -/
theorem primaryPasses_one_pass_result_in_output :
    (primaryPasses dispatchAllOk 28 28 64 32 1 0 twoTextures.input twoTextures.output).completed
      = true ∧
    dispatchLog none none {}
        (primaryPasses dispatchAllOk 28 28 64 32 1 0 twoTextures.input twoTextures.output).cmds
      = [{ shader := none, read := twoTextures.input, write := twoTextures.output,
           timed := false, groups := (64, 32, 1) }] ∧
    (primaryPasses dispatchAllOk 28 28 64 32 1 0 twoTextures.input twoTextures.output).readTex
      = twoTextures.output ∧
    twoTextures.output ≠ twoTextures.input := by
  decide

/-- C22: for every pass count `n ≥ 1`, when the loop of lines 541-566 runs all its
`n` passes starting with read = `slot.input` and write = `slot.output`: pass
`i` reads `input` and writes `output` for even `i` and the reverse for odd
`i`; the last pass writes `output` when `n` is odd and `input` when `n` is
even; and `readTex`, which line 595 takes as the final image, is that texture. -/
theorem primaryPasses_final_texture (env : DispatchEnv) (f g : DXGI_FORMAT) (x y n : Nat)
    (slot : TempTextures) (hn : 1 ≤ n)
    (hc : (primaryPasses env f g x y n 0 slot.input slot.output).completed = true) :
    (dispatchLog none none {}
        (primaryPasses env f g x y n 0 slot.input slot.output).cmds).map
      (fun r => (r.read, r.write)) = alternating n slot.input slot.output ∧
    (dispatchLog none none {}
        (primaryPasses env f g x y n 0 slot.input slot.output).cmds).getLast?.map
      (fun r => r.write) = some (if n % 2 = 1 then slot.output else slot.input) ∧
    (primaryPasses env f g x y n 0 slot.input slot.output).readTex
      = (if n % 2 = 1 then slot.output else slot.input) := by
  obtain ⟨k, _, hp, _⟩ := primaryPasses_log env f g x y none none n 0 slot.input slot.output {}
    rfl rfl
  obtain ⟨_, p1, _, p2⟩ := hp hc
  have hl := p2 []
  rw [List.append_nil] at hl
  have hlog : dispatchLog none none {} [] = [] := rfl
  rw [hlog, List.append_nil] at hl
  obtain ⟨m, rfl⟩ : ∃ m, n = m + 1 := ⟨n - 1, by omega⟩
  have hpar : (m + 1) % 2 = 1 ↔ m % 2 = 0 := by omega
  have hpar2 : (m + 1) % 2 = 0 ↔ ¬ (m % 2 = 0) := by omega
  refine ⟨?_, ?_, ?_⟩
  · rw [hl, List.map_map]
    exact List.map_id _
  · rw [hl, List.getLast?_map, alternating_getLast]
    by_cases h : m % 2 = 0
    · simp [h, hpar]
    · simp [h, hpar]
  · rw [p1]
    by_cases h : m % 2 = 0
    · simp [h, hpar, hpar2]
    · simp [h, hpar, hpar2]

/-- C22 (witness): two passes on the pool textures 200 and 201 leave the final
image in the input texture 200. -/
theorem primaryPasses_final_texture_witness :
    1 ≤ 2 ∧
    (primaryPasses dispatchAllOk 28 28 64 32 2 0 twoTextures.input twoTextures.output).completed
      = true ∧
    (primaryPasses dispatchAllOk 28 28 64 32 2 0 twoTextures.input twoTextures.output).readTex
      = some 200 ∧
    ((dispatchLog none none {}
        (primaryPasses dispatchAllOk 28 28 64 32 2 0 twoTextures.input
          twoTextures.output).cmds).map
      (fun r => (r.read, r.write)) = alternating 2 twoTextures.input twoTextures.output ∧
    (dispatchLog none none {}
        (primaryPasses dispatchAllOk 28 28 64 32 2 0 twoTextures.input
          twoTextures.output).cmds).getLast?.map
      (fun r => r.write) = some (if 2 % 2 = 1 then twoTextures.output else twoTextures.input) ∧
    (primaryPasses dispatchAllOk 28 28 64 32 2 0 twoTextures.input twoTextures.output).readTex
      = (if 2 % 2 = 1 then twoTextures.output else twoTextures.input)) :=
  ⟨by decide, by decide, by decide,
   primaryPasses_final_texture dispatchAllOk 28 28 64 32 2 twoTextures (by decide) (by decide)⟩

/-! ## The timed bracket (claim C29) -/

theorem alternating_length (n : Nat) (a b : ComPtr) : (alternating n a b).length = n := by
  unfold alternating
  simp

/-- C29 (counterexample): a run with one primary pass and the Levels pass on a
session whose timing queries exist: the primary dispatch (shader 10) is inside
the timed bracket, the Levels dispatch (shader 13) is issued after the end
timestamp. -/
theorem dispatchCas_levels_dispatch_after_end_timestamp :
    timingQueriesExist timedLevelsSession = true ∧
    (dispatchCas dispatchAllOk ⟨100⟩ timedLevelsSession 7 50 colorDesc leftView
      (fun _ => none)).completed = true ∧
    (dispatchLog timedLevelsSession.qBegin timedLevelsSession.qEnd {}
        (dispatchCas dispatchAllOk ⟨100⟩ timedLevelsSession 7 50 colorDesc leftView
          (fun _ => none)).cmds).map (fun r => (r.shader, r.timed))
      = [(some 10, true), (some 13, false)] := by
  have h : totalPasses (-2147483648) (3 / 2) = 1 := totalPasses_of_lt_two _ _ (by norm_num)
  refine ⟨by decide, ?_, ?_⟩
  · simp [dispatchCas, runPassChain, ensureCasObjects, Device.create, dispatchAllOk,
      timedLevelsSession, levelsSession, colorDesc, leftView, supported, acquireTempTextures, h,
      primaryPasses, timingEnd, fakeHdrPass, levelsPass]
  · simp [dispatchCas, runPassChain, ensureCasObjects, Device.create, dispatchAllOk,
      timedLevelsSession, levelsSession, colorDesc, leftView, supported, acquireTempTextures, h,
      primaryPasses, timingEnd, fakeHdrPass, levelsPass, toUINT, addUINT,
      UINT_MOD, updateBuffer, dispatchLog, boundResource]

/-- C29: in every `dispatchCas` run that runs all its primary passes, on a session
whose three timing queries exist (as distinct objects; `e` is the session
state after `ensureCasObjects`): the dispatches of the run are the primary
dispatches, each issued between the begin timestamp `End(qBegin)` and the end
timestamp `End(qEnd)`, followed by the FakeHDR dispatch and the Levels
dispatch when these passes execute, each issued after the end timestamp. -/
theorem dispatchCas_timed_bracket (env : DispatchEnv) (d : Device) (s e : SessionState)
    (swapchain : Nat) (source : Handle) (td : D3D11_TEXTURE2D_DESC) (sub : XrSwapchainSubImage)
    (pool : TempPool)
    (he : (ensureCasObjects env.ensure d s).state = e)
    (hx : timingQueriesExist e = true)
    (hq : e.qEnd ≠ e.qBegin) (hd : e.qDisjoint ≠ e.qBegin)
    (hc : (dispatchCas env d s swapchain source td sub pool).completed = true) :
    (dispatchLog e.qBegin e.qEnd {}
        (dispatchCas env d s swapchain source td sub pool).cmds).map
      (fun r => (r.shader, r.timed))
      = List.replicate (totalPasses env.intOverflow e.sharpness).toNat (e.cs, true) ++
        (if fakeHdrActive e = true then [(e.fakeHdrCS, false)] else []) ++
        (if levelsActive e = true then [(e.levelsCS, false)] else []) := by
  rcases dispatchCas_chain env d s swapchain source td sub pool with h | ⟨slot, h1, _, h3, _⟩
  · rw [h.2.2.1] at hc
    simp at hc
  · rw [he] at h1 h3
    rw [h3] at hc
    rw [h1, (runPassChain_log env e source td sub slot (fun _ => hq) (fun _ => hd) hc).1, hx]
    have hrep : ∀ (l : List (ComPtr × ComPtr)) (v : ComPtr × Bool),
        l.map (fun _ => v) = List.replicate l.length v := by
      intro l v
      induction l with
      | nil => rfl
      | cons _ _ ih => simp [List.replicate_succ, ih]
    have hprim := hrep (alternating (totalPasses env.intOverflow e.sharpness).toNat slot.input
      slot.output) (e.cs, true)
    rw [alternating_length] at hprim
    rw [← hprim, List.append_assoc, List.map_append, List.map_map, List.map_append]
    congr 1
    congr 1
    · split_ifs <;> rfl
    · split_ifs <;> rfl

/-- C29 (witness): the run of the counterexample. -/
theorem dispatchCas_timed_bracket_witness :
    timingQueriesExist timedLevelsSession = true ∧
    timedLevelsSession.qEnd ≠ timedLevelsSession.qBegin ∧
    timedLevelsSession.qDisjoint ≠ timedLevelsSession.qBegin ∧
    (dispatchLog timedLevelsSession.qBegin timedLevelsSession.qEnd {}
        (dispatchCas dispatchAllOk ⟨100⟩ timedLevelsSession 7 50 colorDesc leftView
          (fun _ => none)).cmds).map (fun r => (r.shader, r.timed))
      = List.replicate (totalPasses dispatchAllOk.intOverflow timedLevelsSession.sharpness).toNat
          (timedLevelsSession.cs, true) ++
        (if fakeHdrActive timedLevelsSession = true then [(timedLevelsSession.fakeHdrCS, false)]
          else []) ++
        (if levelsActive timedLevelsSession = true then [(timedLevelsSession.levelsCS, false)]
          else []) :=
  ⟨by decide, by decide, by decide,
   dispatchCas_timed_bracket dispatchAllOk ⟨100⟩ timedLevelsSession timedLevelsSession 7 50
     colorDesc leftView (fun _ => none) rfl (by decide) (by decide) (by decide)
     (by
      have h : totalPasses (-2147483648) (3 / 2) = 1 := totalPasses_of_lt_two _ _ (by norm_num)
      simp [dispatchCas, runPassChain, ensureCasObjects, Device.create, dispatchAllOk,
        timedLevelsSession, levelsSession, colorDesc, leftView, supported, acquireTempTextures,
        h, primaryPasses, timingEnd, fakeHdrPass, levelsPass])⟩

/-! ## The texture chain of a run (claim C23) -/

theorem followChain_alternating (a b : ComPtr) (hne : a ≠ b)
    (mk : ComPtr × ComPtr → DispatchRecord)
    (hmk : ∀ io, (mk io).read = io.1 ∧ (mk io).write = io.2) :
    ∀ (n : Nat) (cur : ComPtr) (rest : List DispatchRecord), (cur = a ∨ cur = b) →
      followChain a b cur
          ((alternating n cur (if cur = a then b else a)).map mk ++ rest)
        = followChain a b (if n % 2 = 0 then cur else (if cur = a then b else a)) rest := by
  intro n
  induction n with
  | zero => intro cur rest _; rfl
  | succ n ih =>
    intro cur rest hcur
    have hba : ¬ b = a := fun e => hne e.symm
    have hoth : cur ≠ (if cur = a then b else a) := by
      rcases hcur with h | h
      · rw [h, if_pos rfl]; exact hne
      · rw [h, if_neg hba]; exact hba
    have hback : (if (if cur = a then b else a) = a then b else a) = cur := by
      rcases hcur with h | h
      · simp only [h, if_true, hba, if_false]
      · simp only [h, hba, if_false, if_true]
    have hstep : ∀ l, followChain a b cur (mk (cur, if cur = a then b else a) :: l)
        = followChain a b (if cur = a then b else a) l := by
      intro l
      show (if (mk (cur, if cur = a then b else a)).read = cur ∧
          (mk (cur, if cur = a then b else a)).write = (if cur = a then b else a) ∧
          (mk (cur, if cur = a then b else a)).read ≠ (mk (cur, if cur = a then b else a)).write
        then followChain a b (mk (cur, if cur = a then b else a)).write l else none) = _
      rw [if_pos ⟨(hmk _).1, (hmk _).2, by rw [(hmk _).1, (hmk _).2]; exact hoth⟩, (hmk _).2]
    rw [alternating_succ, List.map_cons, List.cons_append, hstep]
    have hih := ih (if cur = a then b else a) rest (by
      rcases hcur with h | h
      · right; rw [h, if_pos rfl]
      · left; rw [h, if_neg hba])
    rw [hback] at hih
    rw [hih]
    by_cases hp : n % 2 = 0
    · have : (n + 1) % 2 ≠ 0 := by omega
      rw [if_pos hp, if_neg this]
    · have : (n + 1) % 2 = 0 := by omega
      rw [if_neg hp, if_pos this]

/-- The texture chain of a completed pass chain on a pool entry with two
distinct textures, when the views of the secondary passes that execute are
created: every dispatch reads the texture the dispatch before it wrote (the
first reads `input`), writes the other texture of the entry, and the copy-back
reads the texture the last dispatch wrote. -/
theorem runPassChain_follows_chain (env : DispatchEnv) (s : SessionState) (source : Handle)
    (td : D3D11_TEXTURE2D_DESC) (sub : XrSwapchainSubImage) (slot : TempTextures)
    (hq : timingQueriesExist s = true → s.qEnd ≠ s.qBegin)
    (hd : timingQueriesExist s = true → s.qDisjoint ≠ s.qBegin)
    (hne : slot.input ≠ slot.output)
    (hh : fakeHdrActive s = true → env.hdrSrvOk = true ∧ env.hdrUavOk = true)
    (hl : levelsActive s = true → env.levelsSrvOk = true ∧ env.levelsUavOk = true)
    (hc : (runPassChain env s source td sub slot).completed = true) :
    ∃ final,
      followChain slot.input slot.output slot.input
        (dispatchLog s.qBegin s.qEnd {} (runPassChain env s source td sub slot).cmds)
        = some final ∧
      lastCopySource (runPassChain env s source td sub slot).cmds = some final := by
  obtain ⟨h1, h2⟩ := runPassChain_log env s source td sub slot hq hd hc
  rw [h1, h2]
  have hfa := fun rest => followChain_alternating slot.input slot.output hne
    (fun io => { shader := s.cs, read := io.1, write := io.2, timed := timingQueriesExist s,
                 groups := (groupCount (copyExtent sub.extentWidth td.Width),
                   groupCount (copyExtent sub.extentHeight td.Height), 1) })
    (fun _ => ⟨rfl, rfl⟩) (totalPasses env.intOverflow s.sharpness).toNat slot.input rest
    (Or.inl rfl)
  simp only [eq_self_iff_true, if_true] at hfa
  rw [hfa]
  have hne2 : slot.output ≠ slot.input := fun e => hne e.symm
  unfold primaryFinal fakeHdrFinal levelsFinal otherTexture
  by_cases hF : fakeHdrActive s = true <;> by_cases hL : levelsActive s = true <;>
    by_cases hp : (totalPasses env.intOverflow s.sharpness).toNat % 2 = 0 <;>
    simp [hF, hL, hp, followChain, hne, hne2, hh, hl]

/-- C23 (at the failing input): one primary pass and the Levels pass, with the
`CreateShaderResourceView` call of the Levels pass failing.  The run
completes: the primary dispatch reads pool texture 100 and writes 101; the
Levels dispatch is issued with a null shader-resource view, so it reads no
texture, and writes 100; the copy-back reads texture 100. -/
theorem dispatchCas_levels_view_failure_ignored :
    (dispatchCas levelsSrvFails ⟨100⟩ levelsSession 7 50 colorDesc leftView
      (fun _ => none)).completed = true ∧
    (dispatchLog none none {}
        (dispatchCas levelsSrvFails ⟨100⟩ levelsSession 7 50 colorDesc leftView
          (fun _ => none)).cmds).map (fun r => (r.shader, r.read, r.write))
      = [(some 10, some 100, some 101), (some 13, none, some 100)] ∧
    lastCopySource (dispatchCas levelsSrvFails ⟨100⟩ levelsSession 7 50 colorDesc leftView
      (fun _ => none)).cmds = some (some 100) ∧
    (dispatchCas levelsSrvFails ⟨100⟩ levelsSession 7 50 colorDesc leftView
      (fun _ => none)).work.filter (fun c => !c.isTextureCreation)
      = [DevCall.createShaderResourceView (some 100) 28 true,
         DevCall.createUnorderedAccessView (some 101) 28 true,
         DevCall.createShaderResourceView (some 101) 28 false,
         DevCall.createUnorderedAccessView (some 100) 28 true] := by
  have h : totalPasses (-2147483648) (3 / 2) = 1 := totalPasses_of_lt_two _ _ (by norm_num)
  refine ⟨?_, ?_, ?_, ?_⟩
  · simp [dispatchCas, runPassChain, ensureCasObjects, Device.create, dispatchAllOk,
      levelsSrvFails, levelsSession, colorDesc, leftView, supported, acquireTempTextures, h,
      primaryPasses, timingEnd, fakeHdrPass, levelsPass]
  · simp [dispatchCas, runPassChain, ensureCasObjects, Device.create, dispatchAllOk,
      levelsSrvFails, levelsSession, colorDesc, leftView, supported, acquireTempTextures, h,
      primaryPasses, timingEnd, fakeHdrPass, levelsPass, toUINT, addUINT,
      UINT_MOD, updateBuffer, dispatchLog, boundResource]
  · simp [dispatchCas, runPassChain, ensureCasObjects, Device.create, dispatchAllOk,
      levelsSrvFails, levelsSession, colorDesc, leftView, supported, acquireTempTextures, h,
      primaryPasses, timingEnd, fakeHdrPass, levelsPass, toUINT, addUINT,
      UINT_MOD, updateBuffer, lastCopySource]
  · simp [dispatchCas, runPassChain, ensureCasObjects, Device.create, dispatchAllOk,
      levelsSrvFails, levelsSession, colorDesc, leftView, supported, acquireTempTextures, h,
      primaryPasses, timingEnd, fakeHdrPass, levelsPass, mapSrvFormat, mapUavFormat,
      DevCall.isTextureCreation, chooseTypeless]

/-! ## Extents and group counts (claim C25) -/

theorem groupCount_least (W : Nat) (h : W + 15 < 4294967296) :
    IsLeastGroupCount W (addUINT W 15 / 16) := by
  unfold IsLeastGroupCount addUINT UINT_MOD
  rw [Nat.mod_eq_of_lt h]
  constructor
  · omega
  · intro k hk
    omega

theorem updateBuffer_usesExtent (W H : Nat) (b : ComPtr) (ok : Bool) (data : CBData)
    (h : (Cmd.memcpy b data).UsesExtent W H) :
    ∀ c ∈ updateBuffer b ok data, c.UsesExtent W H := by
  intro c hc
  unfold updateBuffer at hc
  cases ok with
  | true =>
    simp only [if_true, List.mem_cons, List.mem_singleton, List.mem_nil_iff, or_false] at hc
    rcases hc with rfl | rfl | rfl
    · trivial
    · exact h
    · trivial
  | false =>
    simp only [Bool.false_eq_true, if_false, List.mem_singleton] at hc
    rw [hc]
    trivial

theorem primaryPasses_usesExtent (env : DispatchEnv) (f g : DXGI_FORMAT) (W H x y : Nat)
    (hx : IsLeastGroupCount W x) (hy : IsLeastGroupCount H y) :
    ∀ (n pass : Nat) (a b : ComPtr),
      ∀ c ∈ (primaryPasses env f g x y n pass a b).cmds, c.UsesExtent W H := by
  intro n
  induction n with
  | zero =>
    intro pass a b c hc
    simp [primaryPasses] at hc
  | succ n ih =>
    intro pass a b c hc
    unfold primaryPasses at hc
    dsimp only at hc
    split_ifs at hc
    · simp at hc
    · simp only [List.mem_singleton] at hc
      rw [hc]
      trivial
    · simp only [List.cons_append, List.nil_append, List.mem_cons] at hc
      rcases hc with rfl | rfl | rfl | rfl | rfl | hc
      · trivial
      · trivial
      · exact ⟨hx, hy, rfl⟩
      · trivial
      · trivial
      · exact ih _ _ _ c hc

theorem timingEnd_usesExtent (env : DispatchEnv) (s : SessionState) (W H : Nat) :
    ∀ c ∈ (timingEnd env s).cmds, c.UsesExtent W H := by
  intro c hc
  unfold timingEnd at hc
  split_ifs at hc
  · dsimp only at hc
    split at hc
    · split at hc
      · simp at hc
        rcases hc with rfl | rfl | rfl | rfl <;> trivial
      · split at hc
        · simp at hc
          rcases hc with rfl | rfl | rfl | rfl | rfl <;> trivial
        · split_ifs at hc <;>
          · simp at hc
            rcases hc with rfl | rfl | rfl | rfl | rfl <;> trivial
    · simp at hc
      rcases hc with rfl | rfl | rfl <;> trivial
  · simp at hc

theorem fakeHdrPass_usesExtent (env : DispatchEnv) (s : SessionState) (slot : TempTextures)
    (f g : DXGI_FORMAT) (ox oy W H x y : Nat) (t : ComPtr)
    (hx : IsLeastGroupCount W x) (hy : IsLeastGroupCount H y) :
    ∀ c ∈ (fakeHdrPass env s slot f g ox oy W H x y t).cmds, c.UsesExtent W H := by
  intro c hc
  unfold fakeHdrPass at hc
  by_cases h1 : (s.fakeHdrEnabled && s.fakeHdrCS.isSome && s.fakeHdrCB.isSome) = true
  · rw [if_pos h1] at hc
    dsimp only at hc
    rw [List.mem_append] at hc
    rcases hc with hc | hc
    · exact updateBuffer_usesExtent W H s.fakeHdrCB env.mapHdrOk
        (CBData.fakeHdr s.fakeHdrPower s.fakeHdrRadius1 s.fakeHdrRadius2 ox oy W H)
        (show W = W ∧ H = H from ⟨rfl, rfl⟩) c hc
    · simp only [List.mem_cons, List.mem_singleton, List.mem_nil_iff, or_false] at hc
      rcases hc with rfl | rfl | rfl | rfl | rfl | rfl | rfl
      · trivial
      · trivial
      · trivial
      · trivial
      · exact ⟨hx, hy, rfl⟩
      · trivial
      · trivial
  · rw [if_neg h1] at hc
    simp at hc

theorem levelsPass_usesExtent (env : DispatchEnv) (s : SessionState) (slot : TempTextures)
    (f g : DXGI_FORMAT) (W H x y : Nat) (t : ComPtr)
    (hx : IsLeastGroupCount W x) (hy : IsLeastGroupCount H y) :
    ∀ c ∈ (levelsPass env s slot f g x y t).cmds, c.UsesExtent W H := by
  intro c hc
  unfold levelsPass at hc
  by_cases h1 : (s.levelsEnabled && s.levelsCS.isSome && s.levelsCB.isSome) = true
  · rw [if_pos h1] at hc
    dsimp only at hc
    rw [List.mem_append] at hc
    rcases hc with hc | hc
    · exact updateBuffer_usesExtent W H s.levelsCB env.mapLevelsOk
        (CBData.levels s.levelsInBlack s.levelsInWhite s.levelsOutBlack s.levelsOutWhite
          s.levelsGamma) (show True from trivial) c hc
    · simp only [List.mem_cons, List.mem_singleton, List.mem_nil_iff, or_false] at hc
      rcases hc with rfl | rfl | rfl | rfl | rfl | rfl | rfl
      · trivial
      · trivial
      · trivial
      · trivial
      · exact ⟨hx, hy, rfl⟩
      · trivial
      · trivial
  · rw [if_neg h1] at hc
    simp at hc

theorem runPassChain_usesExtent (env : DispatchEnv) (s : SessionState) (source : Handle)
    (td : D3D11_TEXTURE2D_DESC) (sub : XrSwapchainSubImage) (slot : TempTextures)
    (hW : copyExtent sub.extentWidth td.Width + 15 < 4294967296)
    (hH : copyExtent sub.extentHeight td.Height + 15 < 4294967296) :
    ∀ c ∈ (runPassChain env s source td sub slot).cmds,
      c.UsesExtent (copyExtent sub.extentWidth td.Width)
        (copyExtent sub.extentHeight td.Height) := by
  have hx := groupCount_least _ hW
  have hy := groupCount_least _ hH
  unfold copyExtent at hx hy
  have hp := primaryPasses_usesExtent env (mapSrvFormat td.Format) (mapUavFormat td.Format)
    _ _ _ _ hx hy (totalPasses env.intOverflow s.sharpness).toNat 0 slot.input slot.output
  have hf := fun t' ox oy t => fakeHdrPass_usesExtent env t' slot (mapSrvFormat td.Format)
    (mapUavFormat td.Format) ox oy _ _ _ _ t hx hy
  have hl := fun t' t => levelsPass_usesExtent env t' slot (mapSrvFormat td.Format)
    (mapUavFormat td.Format) _ _ _ _ t hx hy
  have ht := timingEnd_usesExtent env s (copyExtent sub.extentWidth td.Width)
    (copyExtent sub.extentHeight td.Height)
  have hsetup := updateBuffer_usesExtent (copyExtent sub.extentWidth td.Width)
    (copyExtent sub.extentHeight td.Height) s.constCB env.mapConstOk
    (CBData.cas (casStrength s.sharpness) td.Width td.Height) (show True from trivial)
  have hdebug := updateBuffer_usesExtent (copyExtent sub.extentWidth td.Width)
    (copyExtent sub.extentHeight td.Height) s.debugCB env.mapDebugOk
    (CBData.debug 0 (toUINT sub.offsetX) (toUINT sub.offsetY)
      (copyExtent sub.extentWidth td.Width) (copyExtent sub.extentHeight td.Height))
    (show _ = _ ∧ _ = _ from ⟨rfl, rfl⟩)
  unfold copyExtent at *
  intro c hc
  unfold runPassChain at hc
  dsimp only at hc
  generalize primaryPasses env (mapSrvFormat td.Format) (mapUavFormat td.Format)
    (addUINT (if sub.extentWidth ≠ 0 then toUINT sub.extentWidth else td.Width) 15 / 16)
    (addUINT (if sub.extentHeight ≠ 0 then toUINT sub.extentHeight else td.Height) 15 / 16)
    (totalPasses env.intOverflow s.sharpness).toNat 0 slot.input slot.output = p at hp hc
  generalize timingEnd env s = t at ht hc
  have hbegin : ∀ c ∈ (if (s.qDisjoint.isSome && s.qBegin.isSome && s.qEnd.isSome) = true then
      [Cmd.queryBegin s.qDisjoint, Cmd.queryEnd s.qBegin] else []),
      c.UsesExtent (if sub.extentWidth ≠ 0 then toUINT sub.extentWidth else td.Width)
        (if sub.extentHeight ≠ 0 then toUINT sub.extentHeight else td.Height) := by
    intro c hc
    split_ifs at hc
    · simp only [List.mem_cons, List.mem_singleton, List.mem_nil_iff, or_false] at hc
      rcases hc with rfl | rfl <;> trivial
    · simp at hc
  cases hpc : p.completed with
  | false =>
    rw [hpc] at hc
    simp only [Bool.not_false, if_true, List.mem_append, List.mem_cons, List.mem_singleton,
      List.mem_nil_iff, or_false] at hc
    rcases hc with (((hc | hc) | hc) | hc) | hc
    · rw [hc]; exact ⟨rfl, rfl⟩
    · exact hsetup c hc
    · exact hbegin c hc
    · rcases hc with (hc | hc) | hc
      · rcases hc with rfl | rfl <;> trivial
      · exact hdebug c hc
      · rw [hc]; trivial
    · exact hp c hc
  | true =>
    rw [hpc] at hc
    simp only [Bool.not_true, Bool.false_eq_true, if_false, List.mem_append, List.mem_cons,
      List.mem_singleton, List.mem_nil_iff, or_false] at hc
    rcases hc with (((((((((hc | hc) | hc) | hc) | hc) | hc) | hc) | hc) | hc) | hc)
    · rw [hc]; exact ⟨rfl, rfl⟩
    · exact hsetup c hc
    · exact hbegin c hc
    · rcases hc with (hc | hc) | hc
      · rcases hc with rfl | rfl <;> trivial
      · exact hdebug c hc
      · rw [hc]; trivial
    · exact hp c hc
    · exact ht c hc
    · rcases hc with rfl | rfl <;> trivial
    · exact hf _ _ _ _ c hc
    · exact hl _ _ c hc
    · rw [hc]; exact ⟨rfl, rfl⟩

/-- C25: with `W` the extent width of the sub-rectangle if it is non-zero and the
texture width otherwise, and `H` likewise for the height, whenever `W + 15` and
`H + 15` are below `2^32`: every dispatch of a `dispatchCas` run has the group
counts `(gx, gy, 1)` with `gx` the least count with `16 * gx ≥ W` and `gy` the
least with `16 * gy ≥ H`; the boxes of the copy-in and of the copy-back are
`W` wide and `H` high; and the sub-rectangle constants of the primary passes
and of the FakeHDR pass hold the extent `(W, H)`.  For an extent in
`0 .. 2^32 - 1` the width `W` is the extent itself when it is non-zero. -/
theorem dispatchCas_uses_extent (env : DispatchEnv) (d : Device) (s : SessionState)
    (swapchain : Nat) (source : Handle) (td : D3D11_TEXTURE2D_DESC) (sub : XrSwapchainSubImage)
    (pool : TempPool)
    (hW : copyExtent sub.extentWidth td.Width + 15 < 4294967296)
    (hH : copyExtent sub.extentHeight td.Height + 15 < 4294967296) :
    (∀ c ∈ (dispatchCas env d s swapchain source td sub pool).cmds,
      c.UsesExtent (copyExtent sub.extentWidth td.Width)
        (copyExtent sub.extentHeight td.Height)) ∧
    (0 ≤ sub.extentWidth → sub.extentWidth < 4294967296 →
      (copyExtent sub.extentWidth td.Width : Int)
        = if sub.extentWidth ≠ 0 then sub.extentWidth else (td.Width : Int)) ∧
    (0 ≤ sub.extentHeight → sub.extentHeight < 4294967296 →
      (copyExtent sub.extentHeight td.Height : Int)
        = if sub.extentHeight ≠ 0 then sub.extentHeight else (td.Height : Int)) := by
  have hcopy : ∀ (e : Int) (full : Nat), 0 ≤ e → e < 4294967296 →
      (copyExtent e full : Int) = if e ≠ 0 then e else (full : Int) := by
    intro e full h0 h1
    unfold copyExtent toUINT
    by_cases he : e = 0
    · simp [he]
    · rw [if_pos he, if_pos he, Int.emod_eq_of_lt h0 h1, Int.toNat_of_nonneg h0]
  refine ⟨?_, hcopy _ _, hcopy _ _⟩
  rcases dispatchCas_chain env d s swapchain source td sub pool with h | ⟨slot, h1, _⟩
  · rw [h.1]
    intro c hc
    simp at hc
  · rw [h1]
    exact runPassChain_usesExtent env _ source td sub slot hW hH

/-- C25 (witness): the first request, for the 512x512 left view of a 1024x512
texture: `W = H = 512`, and the run dispatches `(32, 32, 1)` groups. -/
theorem dispatchCas_uses_extent_witness :
    copyExtent leftView.extentWidth colorDesc.Width = 512 ∧
    copyExtent leftView.extentHeight colorDesc.Height = 512 ∧
    copyExtent leftView.extentWidth colorDesc.Width + 15 < 4294967296 ∧
    copyExtent leftView.extentHeight colorDesc.Height + 15 < 4294967296 ∧
    Cmd.dispatch 32 32 1 ∈ (dispatchCas dispatchAllOk ⟨100⟩ freshSession 7 50 colorDesc leftView
      (fun _ => none)).cmds ∧
    ((∀ c ∈ (dispatchCas dispatchAllOk ⟨100⟩ freshSession 7 50 colorDesc leftView
        (fun _ => none)).cmds,
      c.UsesExtent (copyExtent leftView.extentWidth colorDesc.Width)
        (copyExtent leftView.extentHeight colorDesc.Height)) ∧
    (0 ≤ leftView.extentWidth → leftView.extentWidth < 4294967296 →
      (copyExtent leftView.extentWidth colorDesc.Width : Int)
        = if leftView.extentWidth ≠ 0 then leftView.extentWidth else (colorDesc.Width : Int)) ∧
    (0 ≤ leftView.extentHeight → leftView.extentHeight < 4294967296 →
      (copyExtent leftView.extentHeight colorDesc.Height : Int)
        = if leftView.extentHeight ≠ 0 then leftView.extentHeight
          else (colorDesc.Height : Int))) :=
  ⟨by decide, by decide, by decide, by decide,
   by
    have h : totalPasses (-2147483648) (6 / 10) = 1 := totalPasses_of_le_one _ _ (by norm_num)
    simp [dispatchCas, runPassChain, ensureCasObjects, createPrimaryShader, createLevelsShader,
      createFakeHdrShader, createTimingQueries, Device.create, ensureAllOk, dispatchAllOk,
      freshSession, colorDesc, leftView, supported, acquireTempTextures, h,
      primaryPasses, timingEnd, fakeHdrPass, levelsPass, toUINT, addUINT,
      UINT_MOD, updateBuffer],
   dispatchCas_uses_extent dispatchAllOk ⟨100⟩ freshSession 7 50 colorDesc leftView
     (fun _ => none) (by decide) (by decide)⟩

/-! ## A pool entry reused after a failed re-creation (claim C27) -/

/-- C27 (at the failing input): three calls for one pool key.  The first creates
the textures 100 and 101 for the 1024x512 source.  The second, for a 2048x512
source, creates the input texture 102 and fails to create the output texture:
the entry is left with input 102, a null output, and the recorded geometry
1024x512 of the first call.  The third, for the 1024x512 source again, passes
the test of line 392 and reuses the entry without creating a texture,
although its input was created 2048 wide and its output is null; it copies
the source into texture 102 and returns in the first primary pass. -/
theorem dispatchCasCalls_reuses_stale_entry :
    (dispatchCasCalls staleEntryCalls ⟨100⟩ levelsSession (fun _ => none)).map
        (fun x => (x.2.pool (makeTempKey 7 0), x.2.work.filter DevCall.isTextureCreation,
          steps none x.2.cmds, x.2.completed))
      = [(some { input := some 100, output := some 101, width := 1024, height := 512,
                 format := DXGI_FORMAT_R8G8B8A8_UNORM_SRGB },
          [DevCall.createTexture2D
             { colorDesc with Format := DXGI_FORMAT_R8G8B8A8_TYPELESS, BindFlags := 136 }
             (some 100),
           DevCall.createTexture2D
             { colorDesc with Format := DXGI_FORMAT_R8G8B8A8_TYPELESS, BindFlags := 136 }
             (some 101)],
          [Step.copy (some 100) (some 50), Step.run (some 10), Step.run (some 13),
           Step.copy (some 50) (some 100)],
          true),
         (some { input := some 102, output := none, width := 1024, height := 512,
                 format := DXGI_FORMAT_R8G8B8A8_UNORM_SRGB },
          [DevCall.createTexture2D
             { wideDesc with Format := DXGI_FORMAT_R8G8B8A8_TYPELESS, BindFlags := 136 }
             (some 102),
           DevCall.createTexture2D
             { wideDesc with Format := DXGI_FORMAT_R8G8B8A8_TYPELESS, BindFlags := 136 }
             none],
          [],
          false),
         (some { input := some 102, output := none, width := 1024, height := 512,
                 format := DXGI_FORMAT_R8G8B8A8_UNORM_SRGB },
          [],
          [Step.copy (some 102) (some 50)],
          false)] := by
  have h : totalPasses (-2147483648) (3 / 2) = 1 := totalPasses_of_lt_two _ _ (by norm_num)
  have hb : D3D11_BIND_UNORDERED_ACCESS ||| D3D11_BIND_SHADER_RESOURCE = 136 := by decide
  simp [hb, dispatchCasCalls, staleEntryCalls, outputCreationFails, wideDesc, dispatchCas,
    runPassChain, ensureCasObjects, Device.create, dispatchAllOk, levelsSession, colorDesc,
    leftView, supported, acquireTempTextures, h, primaryPasses, timingEnd, fakeHdrPass,
    levelsPass, mapSrvFormat, mapUavFormat, DevCall.isTextureCreation, chooseTypeless, steps,
    toUINT, addUINT, UINT_MOD, updateBuffer, makeTempKey]

/-! ## The timing average (claim C30) -/

theorem createPrimaryShader_counters (env : EnsureEnv) (d : Device) (s : SessionState) :
    (createPrimaryShader env d s).state.timingFrameCounter = s.timingFrameCounter ∧
    (createPrimaryShader env d s).state.timingAccumMs = s.timingAccumMs := by
  unfold createPrimaryShader
  dsimp only
  split_ifs <;> exact ⟨rfl, rfl⟩

theorem createLevelsShader_counters (env : EnsureEnv) (d : Device) (s : SessionState) :
    (createLevelsShader env d s).state.timingFrameCounter = s.timingFrameCounter ∧
    (createLevelsShader env d s).state.timingAccumMs = s.timingAccumMs := by
  unfold createLevelsShader
  dsimp only
  split_ifs <;> exact ⟨rfl, rfl⟩

theorem createFakeHdrShader_counters (env : EnsureEnv) (d : Device) (s : SessionState) :
    (createFakeHdrShader env d s).state.timingFrameCounter = s.timingFrameCounter ∧
    (createFakeHdrShader env d s).state.timingAccumMs = s.timingAccumMs := by
  unfold createFakeHdrShader
  dsimp only
  split_ifs <;> exact ⟨rfl, rfl⟩

theorem createTimingQueries_counters (env : EnsureEnv) (d : Device) (s : SessionState) :
    (createTimingQueries env d s).state.timingFrameCounter = s.timingFrameCounter ∧
    (createTimingQueries env d s).state.timingAccumMs = s.timingAccumMs := by
  unfold createTimingQueries
  dsimp only
  split_ifs <;> exact ⟨rfl, rfl⟩

/-- The function `ensureCasObjects` leaves the timing counters as they are. -/
theorem ensureCasObjects_counters (env : EnsureEnv) (d : Device) (s : SessionState) :
    (ensureCasObjects env d s).state.timingFrameCounter = s.timingFrameCounter ∧
    (ensureCasObjects env d s).state.timingAccumMs = s.timingAccumMs := by
  unfold ensureCasObjects
  dsimp only
  have hp := createPrimaryShader_counters env d { s with shaderInitAttempted := true }
  generalize createPrimaryShader env d { s with shaderInitAttempted := true } = p at hp
  have hl := createLevelsShader_counters env p.device p.state
  generalize createLevelsShader env p.device p.state = l at hl
  have hh := createFakeHdrShader_counters env l.device l.state
  generalize createFakeHdrShader env l.device l.state = h at hh
  have hq := fun d' c g => createTimingQueries_counters env d'
    { h.state with constCB := c, debugCB := g }
  split_ifs
  · exact ⟨rfl, rfl⟩
  · exact ⟨rfl, rfl⟩
  · exact ⟨rfl, rfl⟩
  · exact ⟨hp.1, hp.2⟩
  · exact ⟨hh.1.trans (hl.1.trans hp.1), hh.2.trans (hl.2.trans hp.2)⟩
  · exact ⟨hh.1.trans (hl.1.trans hp.1), hh.2.trans (hl.2.trans hp.2)⟩
  · exact ⟨(hq _ _ _).1.trans (hh.1.trans (hl.1.trans hp.1)),
      (hq _ _ _).2.trans (hh.2.trans (hl.2.trans hp.2))⟩

/-- The timing block on a session whose counter and accumulator stand for the
counted times `hist` (newest first): a counted run adds its time, and the
120th emits the average of the last 120 times and resets both. -/
theorem timingEnd_counters (env : DispatchEnv) (s : SessionState) (hist : List ℚ)
    (hc : s.timingFrameCounter = hist.length % 120)
    (ha : s.timingAccumMs = (hist.take (hist.length % 120)).sum) :
    (timingQueriesExist s = true → ∀ ms, elapsedMs env = some ms →
      (timingEnd env s).state.timingFrameCounter = (ms :: hist).length % 120 ∧
      (timingEnd env s).state.timingAccumMs
        = ((ms :: hist).take ((ms :: hist).length % 120)).sum ∧
      (timingEnd env s).logged
        = (if (ms :: hist).length % 120 = 0 then [((ms :: hist).take 120).sum / 120] else [])) ∧
    (timingQueriesExist s = false ∨ elapsedMs env = none →
      (timingEnd env s).state = s ∧ (timingEnd env s).logged = []) := by
  constructor
  · intro hq ms hms
    unfold timingQueriesExist at hq
    unfold timingEnd
    rw [if_pos hq]
    unfold elapsedMs at hms
    cases hdd : env.disjointData with
    | none => rw [hdd] at hms; simp at hms
    | some df =>
      obtain ⟨dj, fr⟩ := df
      cases dj with
      | true => rw [hdd] at hms; simp at hms
      | false =>
        cases h0 : env.t0 with
        | none => rw [hdd, h0] at hms; simp at hms
        | some t0 =>
          cases h1 : env.t1 with
          | none => rw [hdd, h0, h1] at hms; simp at hms
          | some t1 =>
            rw [hdd, h0, h1] at hms
            simp only [Option.some.injEq] at hms
            dsimp only
            rw [hms, hc, ha]
            have hlt : hist.length % 120 < 120 := Nat.mod_lt _ (by norm_num)
            have hmod : (hist.length % 120 + 1) % UINT_MOD = hist.length % 120 + 1 := by
              unfold UINT_MOD
              omega
            rw [hmod]
            by_cases h119 : hist.length % 120 = 119
            · have hz : (ms :: hist).length % 120 = 0 := by
                rw [List.length_cons]; omega
              rw [if_pos (by omega), hz, if_pos rfl]
              refine ⟨rfl, by simp, ?_⟩
              rw [h119, List.take_succ_cons, List.sum_cons, add_comm ms]
              norm_num
            · have hz : (ms :: hist).length % 120 = hist.length % 120 + 1 := by
                rw [List.length_cons]; omega
              rw [if_neg (by omega), hz, if_neg (by omega)]
              refine ⟨rfl, ?_, rfl⟩
              rw [List.take_succ_cons, List.sum_cons]
              exact add_comm _ _
  · intro h
    unfold timingEnd
    by_cases hq : (s.qDisjoint.isSome && s.qBegin.isSome && s.qEnd.isSome) = true
    · rw [if_pos hq]
      rcases h with h | h
      · unfold timingQueriesExist at h
        rw [hq] at h
        simp at h
      · unfold elapsedMs at h
        cases hdd : env.disjointData with
        | none => exact ⟨rfl, rfl⟩
        | some df =>
          obtain ⟨dj, fr⟩ := df
          cases dj with
          | true => exact ⟨rfl, rfl⟩
          | false =>
            cases h0 : env.t0 with
            | none => exact ⟨rfl, rfl⟩
            | some t0 =>
              cases h1 : env.t1 with
              | none => exact ⟨rfl, rfl⟩
              | some t1 => rw [hdd, h0, h1] at h; simp at h
    · rw [if_neg hq]
      exact ⟨rfl, rfl⟩

/-- What the pass chain does to the session state and the log: a chain that runs
all primary passes goes through the timing block, a chain that returns before
changes nothing. -/
theorem runPassChain_timing (env : DispatchEnv) (s : SessionState) (source : Handle)
    (td : D3D11_TEXTURE2D_DESC) (sub : XrSwapchainSubImage) (slot : TempTextures) :
    ((runPassChain env s source td sub slot).completed = true →
      (runPassChain env s source td sub slot).state = (timingEnd env s).state ∧
      (runPassChain env s source td sub slot).logged = (timingEnd env s).logged) ∧
    ((runPassChain env s source td sub slot).completed = false →
      (runPassChain env s source td sub slot).state = s ∧
      (runPassChain env s source td sub slot).logged = []) := by
  unfold runPassChain
  dsimp only
  generalize primaryPasses env (mapSrvFormat td.Format) (mapUavFormat td.Format)
    (addUINT (if sub.extentWidth ≠ 0 then toUINT sub.extentWidth else td.Width) 15 / 16)
    (addUINT (if sub.extentHeight ≠ 0 then toUINT sub.extentHeight else td.Height) 15 / 16)
    (totalPasses env.intOverflow s.sharpness).toNat 0 slot.input slot.output = p
  cases hpc : p.completed with
  | false => simp
  | true => simp

theorem timingQueriesExist_sameObjects (s0 s : SessionState) (h : sameObjects s0 s) :
    timingQueriesExist s = timingQueriesExist s0 := by
  obtain ⟨n, acc, rfl⟩ := h
  rfl

/-- One `dispatchCas` call on a session whose counter and accumulator stand for
the counted times `hist` (newest first). -/
theorem dispatchCas_timing_step (c : DispatchCall) (d : Device) (s : SessionState)
    (pool : TempPool) (hist : List ℚ)
    (hc : s.timingFrameCounter = hist.length % 120)
    (ha : s.timingAccumMs = (hist.take (hist.length % 120)).sum) :
    (dispatchCas c.env d s c.swapchain c.source c.td c.sub pool).state.timingFrameCounter
      = ((countedMs (c, dispatchCas c.env d s c.swapchain c.source c.td c.sub pool)).toList
          ++ hist).length % 120 ∧
    (dispatchCas c.env d s c.swapchain c.source c.td c.sub pool).state.timingAccumMs
      = (((countedMs (c, dispatchCas c.env d s c.swapchain c.source c.td c.sub pool)).toList
          ++ hist).take
          (((countedMs (c, dispatchCas c.env d s c.swapchain c.source c.td c.sub pool)).toList
            ++ hist).length % 120)).sum ∧
    (dispatchCas c.env d s c.swapchain c.source c.td c.sub pool).logged
      = (if (countedMs (c, dispatchCas c.env d s c.swapchain c.source c.td c.sub
              pool)).isSome = true ∧
            ((countedMs (c, dispatchCas c.env d s c.swapchain c.source c.td c.sub
              pool)).toList ++ hist).length % 120 = 0
         then [(((countedMs (c, dispatchCas c.env d s c.swapchain c.source c.td c.sub
              pool)).toList ++ hist).take 120).sum / 120]
         else []) := by
  obtain ⟨k1, k2⟩ := ensureCasObjects_counters c.env.ensure d s
  have hce := hc
  have hae := ha
  rw [← k1] at hce
  rw [← k2] at hae
  have hstay : ∀ r : DispatchResult,
      r.state = (ensureCasObjects c.env.ensure d s).state → r.logged = [] →
      countedMs (c, r) = none →
      r.state.timingFrameCounter = ((countedMs (c, r)).toList ++ hist).length % 120 ∧
      r.state.timingAccumMs = (((countedMs (c, r)).toList ++ hist).take
          (((countedMs (c, r)).toList ++ hist).length % 120)).sum ∧
      r.logged = (if (countedMs (c, r)).isSome = true ∧
            ((countedMs (c, r)).toList ++ hist).length % 120 = 0
         then [(((countedMs (c, r)).toList ++ hist).take 120).sum / 120] else []) := by
    intro r hs hl hn
    rw [hn, hs, hl]
    simp only [Option.toList_none, List.nil_append, Option.isSome_none, Bool.false_eq_true,
      false_and, if_false]
    exact ⟨hce, hae, trivial⟩
  generalize hr : dispatchCas c.env d s c.swapchain c.source c.td c.sub pool = r
  rcases dispatchCas_chain c.env d s c.swapchain c.source c.td c.sub pool with
    h | ⟨slot, _, h2, h3, h4⟩
  · rw [hr] at h
    refine hstay r h.2.2.2 h.2.1 ?_
    unfold countedMs
    rw [if_neg]
    rw [h.2.2.1]
    simp
  · rw [hr] at h2 h3 h4
    obtain ⟨t1, t2⟩ := runPassChain_timing c.env (ensureCasObjects c.env.ensure d s).state
      c.source c.td c.sub slot
    generalize runPassChain c.env (ensureCasObjects c.env.ensure d s).state c.source c.td c.sub
      slot = ch at h2 h3 h4 t1 t2
    cases hcc : ch.completed with
    | false =>
      obtain ⟨u1, u2⟩ := t2 hcc
      refine hstay r (h4.trans u1) (h2.trans u2) ?_
      unfold countedMs
      rw [if_neg]
      rw [h3, hcc]
      simp
    | true =>
      obtain ⟨u1, u2⟩ := t1 hcc
      have hsame : timingQueriesExist r.state
          = timingQueriesExist (ensureCasObjects c.env.ensure d s).state := by
        rw [h4, u1]
        exact timingQueriesExist_sameObjects _ _ (timingEnd_state _ _)
      obtain ⟨w1, w2⟩ := timingEnd_counters c.env (ensureCasObjects c.env.ensure d s).state hist
        hce hae
      cases hq : timingQueriesExist (ensureCasObjects c.env.ensure d s).state with
      | false =>
        obtain ⟨v1, v2⟩ := w2 (Or.inl hq)
        refine hstay r (h4.trans (u1.trans v1)) (h2.trans (u2.trans v2)) ?_
        unfold countedMs
        rw [if_neg]
        rw [hsame, hq]
        simp
      | true =>
        cases hm : elapsedMs c.env with
        | none =>
          obtain ⟨v1, v2⟩ := w2 (Or.inr hm)
          refine hstay r (h4.trans (u1.trans v1)) (h2.trans (u2.trans v2)) ?_
          unfold countedMs
          rw [hm]
          simp
        | some ms =>
          obtain ⟨v1, v2, v3⟩ := w1 hq ms hm
          have hcm : countedMs (c, r) = some ms := by
            unfold countedMs
            rw [if_pos ⟨by rw [h3, hcc], by rw [hsame, hq]⟩]
            exact hm
          rw [hcm, h4, u1, h2, u2]
          simp only [Option.toList_some, List.singleton_append, Option.isSome_some, true_and]
          exact ⟨v1, v2, v3⟩

theorem countedTimes_cons (y : DispatchCall × DispatchResult)
    (l : List (DispatchCall × DispatchResult)) :
    countedTimes (y :: l) = countedTimes l ++ (countedMs y).toList := by
  unfold countedTimes
  cases h : countedMs y with
  | none => simp [List.filterMap_cons, h]
  | some m => simp [List.filterMap_cons, h]

/-- Every call of a sequence, on a session whose counter and accumulator stand
for the counted times `hist` (newest first). -/
theorem dispatchCasCalls_timing :
    ∀ (calls : List DispatchCall) (d : Device) (s : SessionState) (pool : TempPool)
      (hist : List ℚ),
      s.timingFrameCounter = hist.length % 120 →
      s.timingAccumMs = (hist.take (hist.length % 120)).sum →
      ∀ (pre : List (DispatchCall × DispatchResult)) (x : DispatchCall × DispatchResult)
        (post : List (DispatchCall × DispatchResult)),
        dispatchCasCalls calls d s pool = pre ++ x :: post →
        x.2.state.timingFrameCounter = (countedTimes (pre ++ [x]) ++ hist).length % 120 ∧
        x.2.state.timingAccumMs
          = ((countedTimes (pre ++ [x]) ++ hist).take
              ((countedTimes (pre ++ [x]) ++ hist).length % 120)).sum ∧
        x.2.logged
          = (if (countedMs x).isSome = true ∧
                (countedTimes (pre ++ [x]) ++ hist).length % 120 = 0
             then [((countedTimes (pre ++ [x]) ++ hist).take 120).sum / 120] else []) := by
  intro calls
  induction calls with
  | nil =>
    intro d s pool hist _ _ pre x post h
    have hl := congrArg List.length h
    simp [dispatchCasCalls] at hl
    omega
  | cons c rest ih =>
    intro d s pool hist hc ha pre x post h
    have hstep := dispatchCas_timing_step c d s pool hist hc ha
    have hunf : dispatchCasCalls (c :: rest) d s pool
        = (c, dispatchCas c.env d s c.swapchain c.source c.td c.sub pool) ::
          dispatchCasCalls rest
            (dispatchCas c.env d s c.swapchain c.source c.td c.sub pool).device
            (dispatchCas c.env d s c.swapchain c.source c.td c.sub pool).state
            (dispatchCas c.env d s c.swapchain c.source c.td c.sub pool).pool := rfl
    rw [hunf] at h
    cases pre with
    | nil =>
      rw [List.nil_append] at h
      obtain ⟨hx, _⟩ := List.cons.inj h
      rw [← hx, List.nil_append, countedTimes_cons]
      exact hstep
    | cons y pre2 =>
      rw [List.cons_append] at h
      obtain ⟨hy, htail⟩ := List.cons.inj h
      have hres := ih _ _ _ _ hstep.1 hstep.2.1 pre2 x post htail
      rw [List.cons_append, countedTimes_cons, ← hy, List.append_assoc]
      exact hres

/-- C30: for every sequence of `dispatchCas` runs on a session whose counter and
accumulator are zero (as at session creation), and for every run `x` of the
sequence, with `T` the elapsed times, newest first, of the runs up to and
including `x` that count (runs that reach the timing block with the queries
existing and whose read-back succeeds with a non-disjoint result): after `x`
the counter is `|T| mod 120`, which is below 120, and the accumulator is the
sum of the last `|T| mod 120` counted times; `x` emits an average exactly when
it counts and `|T|` is a multiple of 120, and the value emitted is the sum of
the last 120 counted times divided by 120; and after an emission the counter
and the accumulator are both zero. -/
theorem dispatchCasCalls_timing_average (calls : List DispatchCall) (d : Device)
    (s : SessionState) (pool : TempPool)
    (hc : s.timingFrameCounter = 0) (ha : s.timingAccumMs = 0) :
    ∀ (pre : List (DispatchCall × DispatchResult)) (x : DispatchCall × DispatchResult)
      (post : List (DispatchCall × DispatchResult)),
      dispatchCasCalls calls d s pool = pre ++ x :: post →
      x.2.state.timingFrameCounter = (countedTimes (pre ++ [x])).length % 120 ∧
      x.2.state.timingFrameCounter < 120 ∧
      x.2.state.timingAccumMs
        = ((countedTimes (pre ++ [x])).take ((countedTimes (pre ++ [x])).length % 120)).sum ∧
      x.2.logged
        = (if (countedMs x).isSome = true ∧ (countedTimes (pre ++ [x])).length % 120 = 0
           then [((countedTimes (pre ++ [x])).take 120).sum / 120] else []) ∧
      (x.2.logged ≠ [] →
        120 ≤ (countedTimes (pre ++ [x])).length ∧
        x.2.state.timingFrameCounter = 0 ∧ x.2.state.timingAccumMs = 0) := by
  intro pre x post h
  obtain ⟨h1, h2, h3⟩ := dispatchCasCalls_timing calls d s pool [] (by rw [hc]; rfl)
    (by rw [ha]; rfl) pre x post h
  rw [List.append_nil] at h1 h2 h3
  refine ⟨h1, ?_, h2, h3, ?_⟩
  · rw [h1]
    exact Nat.mod_lt _ (by norm_num)
  · intro hl
    rw [h3] at hl
    by_cases hcond : (countedMs x).isSome = true ∧ (countedTimes (pre ++ [x])).length % 120 = 0
    · have hpos : 0 < (countedTimes (pre ++ [x])).length := by
        have : countedTimes (pre ++ [x]) = (countedMs x).toList ++ countedTimes pre := by
          unfold countedTimes
          rw [List.filterMap_append, List.reverse_append]
          cases hm : countedMs x <;> simp [List.filterMap_cons, hm]
        rw [this]
        cases hm : countedMs x with
        | none => rw [hm] at hcond; simp at hcond
        | some m => simp
      refine ⟨by omega, ?_, ?_⟩
      · rw [h1, hcond.2]
      · rw [h2, hcond.2]
        rfl
    · rw [if_neg hcond] at hl
      exact absurd rfl hl

/-- C30 (witness): the first run of a new session, with a successful read-back
of 5 ticks at 1000 ticks per second (5 ms): the run counts, the counter
becomes 1 and nothing is emitted. -/
theorem dispatchCasCalls_timing_average_witness :
    freshSession.timingFrameCounter = 0 ∧ freshSession.timingAccumMs = 0 ∧
    countedMs (timedCall, dispatchCas timedCall.env ⟨100⟩ freshSession 7 50 colorDesc leftView
      (fun _ => none)) = some 5 ∧
    ((dispatchCas timedCall.env ⟨100⟩ freshSession 7 50 colorDesc leftView
        (fun _ => none)).state.timingFrameCounter
      = (countedTimes ([] ++ [(timedCall, dispatchCas timedCall.env ⟨100⟩ freshSession 7 50
          colorDesc leftView (fun _ => none))])).length % 120 ∧
    (dispatchCas timedCall.env ⟨100⟩ freshSession 7 50 colorDesc leftView
        (fun _ => none)).state.timingFrameCounter < 120 ∧
    (dispatchCas timedCall.env ⟨100⟩ freshSession 7 50 colorDesc leftView
        (fun _ => none)).state.timingAccumMs
      = ((countedTimes ([] ++ [(timedCall, dispatchCas timedCall.env ⟨100⟩ freshSession 7 50
          colorDesc leftView (fun _ => none))])).take
          ((countedTimes ([] ++ [(timedCall, dispatchCas timedCall.env ⟨100⟩ freshSession 7 50
            colorDesc leftView (fun _ => none))])).length % 120)).sum ∧
    (dispatchCas timedCall.env ⟨100⟩ freshSession 7 50 colorDesc leftView
        (fun _ => none)).logged
      = (if (countedMs (timedCall, dispatchCas timedCall.env ⟨100⟩ freshSession 7 50
              colorDesc leftView (fun _ => none))).isSome = true ∧
            (countedTimes ([] ++ [(timedCall, dispatchCas timedCall.env ⟨100⟩ freshSession 7
              50 colorDesc leftView (fun _ => none))])).length % 120 = 0
         then [((countedTimes ([] ++ [(timedCall, dispatchCas timedCall.env ⟨100⟩ freshSession
              7 50 colorDesc leftView (fun _ => none))])).take 120).sum / 120] else []) ∧
    ((dispatchCas timedCall.env ⟨100⟩ freshSession 7 50 colorDesc leftView
        (fun _ => none)).logged ≠ [] →
      120 ≤ (countedTimes ([] ++ [(timedCall, dispatchCas timedCall.env ⟨100⟩ freshSession 7
          50 colorDesc leftView (fun _ => none))])).length ∧
      (dispatchCas timedCall.env ⟨100⟩ freshSession 7 50 colorDesc leftView
        (fun _ => none)).state.timingFrameCounter = 0 ∧
      (dispatchCas timedCall.env ⟨100⟩ freshSession 7 50 colorDesc leftView
        (fun _ => none)).state.timingAccumMs = 0)) :=
  ⟨rfl, rfl,
   by
    have h : totalPasses (-2147483648) (6 / 10) = 1 := totalPasses_of_le_one _ _ (by norm_num)
    simp [countedMs, elapsedMs, timingQueriesExist, timedCall, timingReadyEnv, dispatchCas,
      runPassChain, ensureCasObjects, createPrimaryShader, createLevelsShader,
      createFakeHdrShader, createTimingQueries, Device.create, ensureAllOk, dispatchAllOk,
      freshSession, colorDesc, leftView, supported, acquireTempTextures, h,
      primaryPasses, timingEnd, fakeHdrPass, levelsPass, UINT_MOD],
   dispatchCasCalls_timing_average [timedCall] ⟨100⟩ freshSession (fun _ => none) rfl rfl []
     (timedCall, dispatchCas timedCall.env ⟨100⟩ freshSession 7 50 colorDesc leftView
       (fun _ => none)) [] rfl⟩

end openxr_api_layer
